import Mathlib

/-!
# noise_test: graphics memory allocator and staging/transfer protocol

A shallow embedding of `src/graphics.h` (lines 194-306) and of the buffer helpers of
`src/vtk.h` (lines 738-752), followed by the render-pass and descriptor builders of `src/vtk.h`,
the status check of `src/debug.h` and the frame loop of `src/graphics.h` and `src/game.h`,
and then by the device selection, swapchain request, memory type search and image barrier of
`src/vtk.h`, the mesh upload of `src/graphics.h` and the entities and display of `src/game.h`.

* `VkDeviceSize` is `uint64_t`: its values are naturals (`Nat`) below `U64_SIZE`, and every
  arithmetic result of the source is wrapped with `u64` (`% 2^64`).
* `CTK_FATAL` terminates the process; it is the `Except.error` outcome, carrying the arguments
  the source passes to the format string.
* Pointers to immutable records (`GraphicsMemory *`, `Buffer *`) are embedded by value.
* The host-side bookkeeping allocations `allocate<T>(gfx->mem.perm, 1)` are not modelled.
-/

namespace NoiseTest

/-- Number of values of a 64-bit unsigned integer. -/
def U64_SIZE : Nat := 18446744073709551616

/-- Truncation of an arithmetic result to 64 bits. -/
def u64 (n : Nat) : Nat := n % U64_SIZE

/-- Subtraction of `uint64_t` operands, wrapping below zero. -/
def sub64 (a b : Nat) : Nat := (a + U64_SIZE - b % U64_SIZE) % U64_SIZE

/-- Record `Buffer` of `vtk.h`: buffer handle, handle of the bound `VkDeviceMemory`, size. -/
structure Buffer where
  handle : Nat
  mem : Nat
  size : Nat
deriving DecidableEq

/-- Record `BufferInfo` of `vtk.h`. -/
structure BufferInfo where
  size : Nat
  sharing_mode : Nat
  usage_flags : Nat
  mem_property_flags : Nat
deriving DecidableEq

/-- Enumeration `GraphicsMemory::Type`. -/
inductive MemoryType where
  | HOST
  | DEVICE
deriving DecidableEq

/-- Record `GraphicsMemory`: a region of a backing buffer. -/
structure GraphicsMemory where
  buffer : Buffer
  offset : Nat
  size : Nat
  type : MemoryType
deriving DecidableEq

/-- Record `GraphicsStack`: a region and the byte cursor `count`. -/
structure GraphicsStack where
  mem : GraphicsMemory
  count : Nat
deriving DecidableEq

/-- Record `GraphicsArray<Type>`: a region, an element count and an element capacity. -/
structure GraphicsArray where
  mem : GraphicsMemory
  count : Nat
  size : Nat
deriving DecidableEq

/-- Ways in which a call ends the process instead of returning. -/
inductive Failure where
  /-- Fatal error (`CTK_FATAL`) of `allocate`, with the values given to its format string. -/
  | stack_overflow (size align align_offset stack_size overflow : Nat)
  /-- Fatal error (`CTK_FATAL`) of `push`, with the values given to its format string. -/
  | array_overflow (count overflow : Nat)
  /-- Evaluation of `stack->count % align` with `align == 0`. -/
  | division_by_zero
  /-- The `memcpy` of `write_to_buffer` on a range that could not be mapped or read. -/
  | access_violation
  /-- Recursion of `push` through a staging array that is itself device-local. -/
  | unbounded_recursion
  /-- Any other `CTK_FATAL`, with its format string. -/
  | fatal (message : String)
  /-- A push or concat onto a ctk `Array` that has no room left. -/
  | array_full
  /-- Use of an array element beyond the elements the array holds. -/
  | out_of_bounds
deriving DecidableEq

/-- Constant `VK_MEMORY_PROPERTY_DEVICE_LOCAL_BIT` of Vulkan. -/
def VK_MEMORY_PROPERTY_DEVICE_LOCAL_BIT : Nat := 1

/-- Function `create_graphics_stack` (graphics.h:194-209). The argument `buffer` is what
`create_buffer` returned for `buffer_info`. -/
def create_graphics_stack (buffer : Buffer) (buffer_info : BufferInfo) : GraphicsStack :=
  { mem :=
      { buffer := buffer
        offset := 0
        size := buffer_info.size
        type :=
          if buffer_info.mem_property_flags &&& VK_MEMORY_PROPERTY_DEVICE_LOCAL_BIT
              = VK_MEMORY_PROPERTY_DEVICE_LOCAL_BIT then
            MemoryType.DEVICE
          else
            MemoryType.HOST }
    count := 0 }

/-- The value of the local `align_offset` of `allocate` (graphics.h:212-213) computed over the
unbounded naturals: `count`, advanced to the next multiple of `align` when it is not one. -/
def align_offset (count align : Nat) : Nat :=
  count + (if count % align ≠ 0 then align - count % align else 0)

/-- Function `allocate` (graphics.h:211-228) on a stack: the new region and the updated stack,
or the fatal error. -/
def allocate (stack : GraphicsStack) (size align : Nat) :
    Except Failure (GraphicsMemory × GraphicsStack) :=
  if align = 0 then
    .error .division_by_zero
  else
    let align_overflow := stack.count % align
    let align_offset :=
      u64 (stack.count + (if align_overflow ≠ 0 then sub64 align align_overflow else 0))
    if u64 (align_offset + size) > stack.mem.size then
      .error (.stack_overflow size align align_offset stack.mem.size
        (sub64 (u64 (align_offset + size)) stack.mem.size))
    else
      .ok ({ buffer := stack.mem.buffer
             offset := align_offset
             size := size
             type := stack.mem.type },
           { stack with count := u64 (align_offset + size) })

/-- The stack as one `allocate` call leaves it: advanced when the call returns, untouched when
the call ends in a failure. -/
def stack_after (stack : GraphicsStack) (request : Nat × Nat) : GraphicsStack :=
  match allocate stack request.1 request.2 with
  | .ok (_, stack') => stack'
  | .error _ => stack

/-- The stack after a sequence of `allocate` calls, given as `(size, align)` pairs. -/
def stack_after_all (stack : GraphicsStack) (requests : List (Nat × Nat)) :
    GraphicsStack :=
  requests.foldl stack_after stack

/-- Function `create_graphics_array<Type>` (graphics.h:230-239); `sizeof_type` is
`sizeof(Type)`. -/
def create_graphics_array (sizeof_type : Nat) (stack : GraphicsStack) (size align : Nat) :
    Except Failure (GraphicsArray × GraphicsStack) :=
  match allocate stack (u64 (size * sizeof_type)) align with
  | .error e => .error e
  | .ok (mem, stack') => .ok ({ mem := mem, count := 0, size := size }, stack')

/-- A byte of host or device memory. -/
abbrev Byte := Fin 256

/-- The Vulkan calls of the transfer helpers, as they reach the device. -/
inductive VkCall where
  /-- Call `vkMapMemory(device, mem, offset, size, 0, &mapped_mem)`. -/
  | vkMapMemory (mem : Nat) (offset size : Nat)
  /-- Call `vkUnmapMemory(device, mem)`. -/
  | vkUnmapMemory (mem : Nat)
  /-- Call `vkCmdCopyBuffer(cmd_buf, src, dst, 1, &copy)` with the fields of `copy`. -/
  | vkCmdCopyBuffer (cmd_buf src_handle dst_handle : Nat)
      (srcOffset dstOffset size : Nat)
  /-- Call `vkBeginCommandBuffer(cmd_buf, &info)` with the flags of `info`. -/
  | vkBeginCommandBuffer (cmd_buf flags : Nat)
  /-- Call `vkEndCommandBuffer(cmd_buf)`. -/
  | vkEndCommandBuffer (cmd_buf : Nat)
  /-- Call `vkQueueSubmit(queue, 1, &submit_info, fence)` with the command buffers of
  `submit_info`. -/
  | vkQueueSubmit (queue : Nat) (cmd_bufs : List Nat) (fence : Nat)
  /-- Call `vkQueueWaitIdle(queue)`. -/
  | vkQueueWaitIdle (queue : Nat)
deriving DecidableEq

/-- State behind a `VkDevice`: the bytes of every `VkDeviceMemory` object, by handle, and the
calls received so far, oldest first. -/
structure Device where
  memory : Nat → List Byte
  calls : List VkCall

/-- Record `BufferWriteInfo` of `vtk.h`; `data` holds the bytes readable at the pointer. -/
structure BufferWriteInfo where
  buffer : Buffer
  offset : Nat
  data : List Byte
  size : Nat

/-- Record `BufferCopyInfo` of `vtk.h`. -/
structure BufferCopyInfo where
  src_buffer : Buffer
  src_offset : Nat
  dst_buffer : Buffer
  dst_offset : Nat
  size : Nat
deriving DecidableEq

/-- The bytes of `contents` after `size` bytes of `data` were copied to position `offset`. -/
def copy_bytes (contents : List Byte) (offset size : Nat) (data : List Byte) : List Byte :=
  contents.take offset ++ data.take size ++ contents.drop (offset + size)

/-- The `size` bytes of `contents` that start at position `offset`. -/
def read_bytes (contents : List Byte) (offset size : Nat) : List Byte :=
  (contents.drop offset).take size

/-- Function `write_to_buffer` (vtk.h:738-743): map the range, `memcpy` into it, unmap. The
result of `vkMapMemory` is not checked by the source: when the range does not lie in the memory
object, or `data` is shorter than `size`, the `memcpy` runs on unmapped memory. -/
def write_to_buffer (device : Device) (info : BufferWriteInfo) : Except Failure Device :=
  if info.offset + info.size ≤ (device.memory info.buffer.mem).length
      ∧ info.size ≤ info.data.length then
    .ok { memory :=
            Function.update device.memory info.buffer.mem
              (copy_bytes (device.memory info.buffer.mem) info.offset info.size info.data)
          calls :=
            device.calls ++
              [VkCall.vkMapMemory info.buffer.mem info.offset info.size,
               VkCall.vkUnmapMemory info.buffer.mem] }
  else
    .error .access_violation

/-- Function `copy_to_buffer` (vtk.h:745-752): record one buffer copy in `cmd_buf`. -/
def copy_to_buffer (device : Device) (cmd_buf : Nat) (copy_info : BufferCopyInfo) : Device :=
  { device with
    calls :=
      device.calls ++
        [VkCall.vkCmdCopyBuffer cmd_buf copy_info.src_buffer.handle copy_info.dst_buffer.handle
          copy_info.src_offset copy_info.dst_offset copy_info.size] }

/-- Member `gfx_mem` of `Graphics`. -/
structure GfxMem where
  host : GraphicsStack
  device : GraphicsStack
  staging : GraphicsArray
deriving DecidableEq

/-- The members of `Graphics` that the transfer protocol reads or writes. -/
structure Graphics where
  device : Device
  temp_cmd_buf : Nat
  gfx_mem : GfxMem

/-- Function `count_offset` (graphics.h:241-244). -/
def count_offset (sizeof_type : Nat) (array : GraphicsArray) : Nat :=
  u64 (array.mem.offset + u64 (array.count * sizeof_type))

/-- Function `push` on a `GraphicsArray` (graphics.h:246-276). The array is passed and returned
by value; the caller stores it back. `fuel` bounds the depth of the recursion through the
staging array: one level for a host-visible array, two for a device-local array over a
host-visible staging array. Returns the starting index of the data. -/
def push : Nat → Graphics → GraphicsArray → Nat → List Byte → Nat →
    Except Failure (Nat × GraphicsArray × Graphics)
  | 0, _, _, _, _, _ => .error .unbounded_recursion
  | fuel + 1, gfx, array, sizeof_type, data, count =>
    if u64 (array.count + count) > array.size then
      .error (.array_overflow count (sub64 (u64 (array.count + count)) array.size))
    else
      let data_byte_count := u64 (count * sizeof_type)
      match array.mem.type with
      | .HOST =>
        match write_to_buffer gfx.device
            { buffer := array.mem.buffer
              offset := count_offset sizeof_type array
              data := data
              size := data_byte_count } with
        | .error e => .error e
        | .ok device' =>
          .ok (array.count, { array with count := u64 (array.count + count) },
               { gfx with device := device' })
      | .DEVICE =>
        match push fuel gfx gfx.gfx_mem.staging 1 data data_byte_count with
        | .error e => .error e
        | .ok (staging_offset, staging', gfx') =>
          let gfx_staged : Graphics :=
            { gfx' with gfx_mem := { gfx'.gfx_mem with staging := staging' } }
          let device' :=
            copy_to_buffer gfx_staged.device gfx_staged.temp_cmd_buf
              { src_buffer := gfx_staged.gfx_mem.staging.mem.buffer
                src_offset := staging_offset
                dst_buffer := array.mem.buffer
                dst_offset := count_offset sizeof_type array
                size := data_byte_count }
          .ok (array.count, { array with count := u64 (array.count + count) },
               { gfx_staged with device := device' })

/-- A sequence of `push` calls on one array, each given as `(data, count)`: the failure that
ended the process, if any, and the array and graphics state reached. -/
def push_each (fuel : Nat) (sizeof_type : Nat) :
    Graphics → GraphicsArray → List (List Byte × Nat) →
      Option Failure × GraphicsArray × Graphics
  | gfx, array, [] => (none, array, gfx)
  | gfx, array, (data, count) :: rest =>
    match push fuel gfx array sizeof_type data count with
    | .error e => (some e, array, gfx)
    | .ok (_, array', gfx') => push_each fuel sizeof_type gfx' array' rest

/-- Function `clear` on a `GraphicsArray` (graphics.h:278-281). -/
def clear (array : GraphicsArray) : GraphicsArray :=
  { array with count := 0 }

/-- Constants of Vulkan used by `create_graphics_memory`. -/
def VK_MEMORY_PROPERTY_HOST_VISIBLE_BIT : Nat := 2

/-- Constant `VK_MEMORY_PROPERTY_HOST_COHERENT_BIT` of Vulkan. -/
def VK_MEMORY_PROPERTY_HOST_COHERENT_BIT : Nat := 4

/-- Function `create_graphics_memory` (graphics.h:283-306). The two buffers are what
`create_buffer` returns for the host and the device stack; `megabyte` is the helper of the ctk
library; sharing mode and usage flags take no part in what follows and are left at zero. -/
def create_graphics_memory (megabyte : Nat → Nat) (host_buffer device_buffer : Buffer) :
    Except Failure GfxMem :=
  let host :=
    create_graphics_stack host_buffer
      { size := megabyte 256
        sharing_mode := 0
        usage_flags := 0
        mem_property_flags :=
          VK_MEMORY_PROPERTY_HOST_VISIBLE_BIT ||| VK_MEMORY_PROPERTY_HOST_COHERENT_BIT }
  let device :=
    create_graphics_stack device_buffer
      { size := megabyte 512
        sharing_mode := 0
        usage_flags := 0
        mem_property_flags := VK_MEMORY_PROPERTY_DEVICE_LOCAL_BIT }
  match create_graphics_array 1 host (megabyte 128) 1 with
  | .error e => .error e
  | .ok (staging, host') => .ok { host := host', device := device, staging := staging }

/-! ## Concrete inputs used by the evaluations below -/

/-- A buffer with handle 1 bound to memory object 7. -/
def buffer_1024 : Buffer := { handle := 1, mem := 7, size := 1024 }

/-- The stack `create_graphics_stack` makes for a host-visible buffer of 1024 bytes. -/
def stack_1024 : GraphicsStack :=
  create_graphics_stack buffer_1024
    { size := 1024, sharing_mode := 0, usage_flags := 0, mem_property_flags := 6 }

/-- The stack `create_graphics_stack` makes for a buffer of `2^64 - 1` bytes. -/
def stack_max : GraphicsStack :=
  create_graphics_stack { handle := 2, mem := 8, size := U64_SIZE - 1 }
    { size := U64_SIZE - 1, sharing_mode := 0, usage_flags := 0, mem_property_flags := 6 }

/-- The region lies in the memory object bound to its buffer, and the size of that object is a
64-bit value. -/
def region_in_memory (device : Device) (mem : GraphicsMemory) : Prop :=
  mem.offset + mem.size ≤ (device.memory mem.buffer.mem).length ∧
    (device.memory mem.buffer.mem).length < U64_SIZE

/-- Invariant of a `GraphicsArray<Type>` as `create_graphics_array` sets it up when
`size * sizeof(Type)` does not wrap: elements have a size, the count is within the capacity,
the region holds the capacity, and the region lies in the memory of its buffer. -/
def array_ok (device : Device) (sizeof_type : Nat) (array : GraphicsArray) : Prop :=
  0 < sizeof_type ∧ array.count ≤ array.size ∧ array.size * sizeof_type ≤ array.mem.size ∧
    region_in_memory device array.mem

/-- A device whose memory objects all hold 64 zero bytes and that has received no call. -/
def device_64 : Device := { memory := fun _ => List.replicate 64 0, calls := [] }

/-- Host-visible buffer over memory object 7. -/
def host_buffer_64 : Buffer := { handle := 1, mem := 7, size := 64 }

/-- Device-local buffer over memory object 8. -/
def device_buffer_64 : Buffer := { handle := 2, mem := 8, size := 64 }

/-- A host-visible array of four 4-byte elements at offset 16, one element filled. -/
def host_array_4 : GraphicsArray :=
  { mem := { buffer := host_buffer_64, offset := 16, size := 16, type := MemoryType.HOST }
    count := 1
    size := 4 }

/-- A device-local array of four 4-byte elements at offset 16, one element filled. -/
def device_array_4 : GraphicsArray :=
  { mem := { buffer := device_buffer_64, offset := 16, size := 16, type := MemoryType.DEVICE }
    count := 1
    size := 4 }

/-- Eight bytes of data: two 4-byte elements. -/
def data_8 : List Byte := [1, 2, 3, 4, 5, 6, 7, 8]

/-- Member `gfx_mem` as `create_graphics_memory` builds it over the two 64-byte buffers when
the sizes are scaled to 32, 64 and 16 bytes (`megabyte n = n / 8`). -/
def gfx_mem_64 : GfxMem :=
  { host :=
      { mem := { buffer := host_buffer_64, offset := 0, size := 32, type := MemoryType.HOST }
        count := 16 }
    device :=
      { mem := { buffer := device_buffer_64, offset := 0, size := 64, type := MemoryType.DEVICE }
        count := 0 }
    staging :=
      { mem := { buffer := host_buffer_64, offset := 0, size := 16, type := MemoryType.HOST }
        count := 0
        size := 16 } }

/-- Graphics state over `device_64` right after `create_graphics_memory`, with four bytes
already staged. -/
def gfx_64 : Graphics :=
  { device := device_64
    temp_cmd_buf := 5
    gfx_mem := { gfx_mem_64 with staging := { gfx_mem_64.staging with count := 4 } } }

/-- Graphics state over `device_64` right after `create_graphics_memory`: the staging array is
empty and has room for 16 bytes. -/
def gfx_fresh_64 : Graphics :=
  { device := device_64, temp_cmd_buf := 5, gfx_mem := gfx_mem_64 }

/-- An empty host-visible array of four 4-byte elements at offset 16. -/
def host_array_0 : GraphicsArray := { host_array_4 with count := 0 }

/-- An empty device-local array of eight 4-byte elements at offset 16. -/
def device_array_8 : GraphicsArray :=
  { mem := { buffer := device_buffer_64, offset := 16, size := 32, type := MemoryType.DEVICE }
    count := 0
    size := 8 }

/-- Twenty bytes of data: five 4-byte elements. -/
def data_20 : List Byte := List.replicate 20 9

/-- Three pushes of 2, 2 and 1 elements of 4 bytes. -/
def pushes_2_2_1 : List (List Byte × Nat) := [(data_8, 2), (data_8, 2), ([1, 2, 3, 4], 1)]

/-! ## The ctk containers, the status check and the render builders -/

/-- Number of values of a 32-bit unsigned integer (`u32`). -/
def U32_SIZE : Nat := 4294967296

/-- Constant `U32_MAX` of ctk. -/
def U32_MAX : Nat := 4294967295

/-- Constant `U64_MAX` of ctk. -/
def U64_MAX : Nat := 18446744073709551615

/-- Modelled from the spec: the container `Array<Type>` of the ctk library
(`ctk/containers.h`, which is not under src/). It has a fixed capacity `size` and holds the
elements pushed so far; growth is append-only and exceeding the capacity is fatal (sections 3
and 9 of the specification). -/
structure CtkArray (α : Type) where
  data : List α
  size : Nat
deriving DecidableEq

/-- Member `count` of a ctk `Array`: the number of elements it holds. -/
def CtkArray.count {α : Type} (array : CtkArray α) : Nat :=
  array.data.length

/-- Modelled from the spec: `create_array<Type>(mem, size)` of ctk, an empty array of capacity
`size`. -/
def create_array {α : Type} (size : Nat) : CtkArray α :=
  { data := [], size := size }

/-- Modelled from the spec: `push(array, element)` of ctk, which appends one element and is
fatal when the array is full. -/
def CtkArray.push {α : Type} (array : CtkArray α) (element : α) : Except Failure (CtkArray α) :=
  if array.count = array.size then
    .error .array_full
  else
    .ok { array with data := array.data ++ [element] }

/-- Modelled from the spec: `concat(array, other)` of ctk, which appends every element of
`other` and is fatal when they do not all fit. -/
def CtkArray.concat {α : Type} (array other : CtkArray α) : Except Failure (CtkArray α) :=
  if array.count + other.count > array.size then
    .error .array_full
  else
    .ok { array with data := array.data ++ other.data }

/-! ### `debug.h` -/

/-- Status `VK_SUCCESS` of Vulkan. -/
def VK_SUCCESS : Int := 0

/-- Status `VK_NOT_READY` of Vulkan. -/
def VK_NOT_READY : Int := 1

/-- Status `VK_TIMEOUT` of Vulkan. -/
def VK_TIMEOUT : Int := 2

/-- Status `VK_EVENT_SET` of Vulkan. -/
def VK_EVENT_SET : Int := 3

/-- Status `VK_EVENT_RESET` of Vulkan. -/
def VK_EVENT_RESET : Int := 4

/-- Status `VK_INCOMPLETE` of Vulkan. -/
def VK_INCOMPLETE : Int := 5

/-- Status `VK_SUBOPTIMAL_KHR` of Vulkan. -/
def VK_SUBOPTIMAL_KHR : Int := 1000001003

/-- Status `VK_ERROR_OUT_OF_HOST_MEMORY` of Vulkan. -/
def VK_ERROR_OUT_OF_HOST_MEMORY : Int := -1

/-- Status `VK_ERROR_OUT_OF_DEVICE_MEMORY` of Vulkan. -/
def VK_ERROR_OUT_OF_DEVICE_MEMORY : Int := -2

/-- Status `VK_ERROR_INITIALIZATION_FAILED` of Vulkan. -/
def VK_ERROR_INITIALIZATION_FAILED : Int := -3

/-- Status `VK_ERROR_DEVICE_LOST` of Vulkan. -/
def VK_ERROR_DEVICE_LOST : Int := -4

/-- Status `VK_ERROR_MEMORY_MAP_FAILED` of Vulkan. -/
def VK_ERROR_MEMORY_MAP_FAILED : Int := -5

/-- Status `VK_ERROR_LAYER_NOT_PRESENT` of Vulkan. -/
def VK_ERROR_LAYER_NOT_PRESENT : Int := -6

/-- Status `VK_ERROR_EXTENSION_NOT_PRESENT` of Vulkan. -/
def VK_ERROR_EXTENSION_NOT_PRESENT : Int := -7

/-- Status `VK_ERROR_FEATURE_NOT_PRESENT` of Vulkan. -/
def VK_ERROR_FEATURE_NOT_PRESENT : Int := -8

/-- Status `VK_ERROR_INCOMPATIBLE_DRIVER` of Vulkan. -/
def VK_ERROR_INCOMPATIBLE_DRIVER : Int := -9

/-- Status `VK_ERROR_TOO_MANY_OBJECTS` of Vulkan. -/
def VK_ERROR_TOO_MANY_OBJECTS : Int := -10

/-- Status `VK_ERROR_FORMAT_NOT_SUPPORTED` of Vulkan. -/
def VK_ERROR_FORMAT_NOT_SUPPORTED : Int := -11

/-- Status `VK_ERROR_FRAGMENTED_POOL` of Vulkan. -/
def VK_ERROR_FRAGMENTED_POOL : Int := -12

/-- Status `VK_ERROR_SURFACE_LOST_KHR` of Vulkan. -/
def VK_ERROR_SURFACE_LOST_KHR : Int := -1000000000

/-- Status `VK_ERROR_NATIVE_WINDOW_IN_USE_KHR` of Vulkan. -/
def VK_ERROR_NATIVE_WINDOW_IN_USE_KHR : Int := -1000000001

/-- Status `VK_ERROR_OUT_OF_DATE_KHR` of Vulkan. -/
def VK_ERROR_OUT_OF_DATE_KHR : Int := -1000001004

/-- Status `VK_ERROR_INCOMPATIBLE_DISPLAY_KHR` of Vulkan. -/
def VK_ERROR_INCOMPATIBLE_DISPLAY_KHR : Int := -1000003001

/-- Status `VK_ERROR_INVALID_SHADER_NV` of Vulkan. -/
def VK_ERROR_INVALID_SHADER_NV : Int := -1000012000

/-- Status `VK_ERROR_OUT_OF_POOL_MEMORY` of Vulkan. -/
def VK_ERROR_OUT_OF_POOL_MEMORY : Int := -1000069000

/-- Status `VK_ERROR_INVALID_EXTERNAL_HANDLE` of Vulkan. -/
def VK_ERROR_INVALID_EXTERNAL_HANDLE : Int := -1000072003

/-- Status `VK_ERROR_INVALID_DEVICE_ADDRESS_EXT` of Vulkan. -/
def VK_ERROR_INVALID_DEVICE_ADDRESS_EXT : Int := -1000244000

/-- Status `VK_ERROR_FULL_SCREEN_EXCLUSIVE_MODE_LOST_EXT` of Vulkan. -/
def VK_ERROR_FULL_SCREEN_EXCLUSIVE_MODE_LOST_EXT : Int := -1000255000

/-- Record `VkResultInfo` (debug.h:18-22). -/
structure VkResultInfo where
  result : Int
  name : String
  message : String
deriving DecidableEq

/-- Table `VK_RESULT_DEBUG_INFOS` of `print_result` (debug.h:28-60), without the entries the
source has commented out. -/
def VK_RESULT_DEBUG_INFOS : List VkResultInfo :=
  [{ result := VK_SUCCESS, name := "VK_SUCCESS",
     message := "VULKAN SPEC ERROR MESSAGE: Command successfully completed." },
   { result := VK_NOT_READY, name := "VK_NOT_READY",
     message := "VULKAN SPEC ERROR MESSAGE: A fence or query has not yet completed." },
   { result := VK_TIMEOUT, name := "VK_TIMEOUT",
     message := "VULKAN SPEC ERROR MESSAGE: A wait operation has not completed in the specified time." },
   { result := VK_EVENT_SET, name := "VK_EVENT_SET",
     message := "VULKAN SPEC ERROR MESSAGE: An event is signaled." },
   { result := VK_EVENT_RESET, name := "VK_EVENT_RESET",
     message := "VULKAN SPEC ERROR MESSAGE: An event is unsignaled." },
   { result := VK_INCOMPLETE, name := "VK_INCOMPLETE",
     message := "VULKAN SPEC ERROR MESSAGE: A return array was too small for the result." },
   { result := VK_SUBOPTIMAL_KHR, name := "VK_SUBOPTIMAL_KHR",
     message := "VULKAN SPEC ERROR MESSAGE: A swapchain no longer matches the surface properties exactly, but can still be used to present to the surface successfully." },
   { result := VK_ERROR_OUT_OF_HOST_MEMORY, name := "VK_ERROR_OUT_OF_HOST_MEMORY",
     message := "VULKAN SPEC ERROR MESSAGE: A host memory allocation has failed." },
   { result := VK_ERROR_OUT_OF_DEVICE_MEMORY, name := "VK_ERROR_OUT_OF_DEVICE_MEMORY",
     message := "VULKAN SPEC ERROR MESSAGE: A device memory allocation has failed." },
   { result := VK_ERROR_INITIALIZATION_FAILED, name := "VK_ERROR_INITIALIZATION_FAILED",
     message := "VULKAN SPEC ERROR MESSAGE: Initialization of an object could not be completed for implementation-specific reasons." },
   { result := VK_ERROR_DEVICE_LOST, name := "VK_ERROR_DEVICE_LOST",
     message := "VULKAN SPEC ERROR MESSAGE: The logical or physical device has been lost." },
   { result := VK_ERROR_MEMORY_MAP_FAILED, name := "VK_ERROR_MEMORY_MAP_FAILED",
     message := "VULKAN SPEC ERROR MESSAGE: Mapping of a memory object has failed." },
   { result := VK_ERROR_LAYER_NOT_PRESENT, name := "VK_ERROR_LAYER_NOT_PRESENT",
     message := "VULKAN SPEC ERROR MESSAGE: A requested layer is not present or could not be loaded." },
   { result := VK_ERROR_EXTENSION_NOT_PRESENT, name := "VK_ERROR_EXTENSION_NOT_PRESENT",
     message := "VULKAN SPEC ERROR MESSAGE: A requested extension is not supported." },
   { result := VK_ERROR_FEATURE_NOT_PRESENT, name := "VK_ERROR_FEATURE_NOT_PRESENT",
     message := "VULKAN SPEC ERROR MESSAGE: A requested feature is not supported." },
   { result := VK_ERROR_INCOMPATIBLE_DRIVER, name := "VK_ERROR_INCOMPATIBLE_DRIVER",
     message := "VULKAN SPEC ERROR MESSAGE: The requested version of Vulkan is not supported by the driver or is otherwise incompatible for implementation-specific reasons." },
   { result := VK_ERROR_TOO_MANY_OBJECTS, name := "VK_ERROR_TOO_MANY_OBJECTS",
     message := "VULKAN SPEC ERROR MESSAGE: Too many objects of the type have already been created." },
   { result := VK_ERROR_FORMAT_NOT_SUPPORTED, name := "VK_ERROR_FORMAT_NOT_SUPPORTED",
     message := "VULKAN SPEC ERROR MESSAGE: A requested format is not supported on this device." },
   { result := VK_ERROR_FRAGMENTED_POOL, name := "VK_ERROR_FRAGMENTED_POOL",
     message := "VULKAN SPEC ERROR MESSAGE: A pool allocation has failed due to fragmentation of the pool???s memory. This must only be returned if no attempt to allocate host or device memory was made to accommodate the new allocation. This should be returned in preference to VK_ERROR_OUT_OF_POOL_MEMORY, but only if the implementation is certain that the pool allocation failure was due to fragmentation." },
   { result := VK_ERROR_SURFACE_LOST_KHR, name := "VK_ERROR_SURFACE_LOST_KHR",
     message := "VULKAN SPEC ERROR MESSAGE: A surface is no longer available." },
   { result := VK_ERROR_NATIVE_WINDOW_IN_USE_KHR, name := "VK_ERROR_NATIVE_WINDOW_IN_USE_KHR",
     message := "VULKAN SPEC ERROR MESSAGE: The requested window is already in use by Vulkan or another API in a manner which prevents it from being used again." },
   { result := VK_ERROR_OUT_OF_DATE_KHR, name := "VK_ERROR_OUT_OF_DATE_KHR",
     message := "VULKAN SPEC ERROR MESSAGE: A surface has changed in such a way that it is no longer compatible with the swapchain, and further presentation requests using the swapchain will fail. Applications must query the new surface properties and recreate their swapchain if they wish to continue presenting to the surface." },
   { result := VK_ERROR_INCOMPATIBLE_DISPLAY_KHR, name := "VK_ERROR_INCOMPATIBLE_DISPLAY_KHR",
     message := "VULKAN SPEC ERROR MESSAGE: The display used by a swapchain does not use the same presentable image layout, or is incompatible in a way that prevents sharing an image." },
   { result := VK_ERROR_INVALID_SHADER_NV, name := "VK_ERROR_INVALID_SHADER_NV",
     message := "VULKAN SPEC ERROR MESSAGE: One or more shaders failed to compile or link. More details are reported back to the application via https://www.khronos.org/registry/vulkan/specs/1.2-extensions/html/vkspec.html#VK_EXT_debug_report if enabled." },
   { result := VK_ERROR_OUT_OF_POOL_MEMORY, name := "VK_ERROR_OUT_OF_POOL_MEMORY",
     message := "VULKAN SPEC ERROR MESSAGE: A pool memory allocation has failed. This must only be returned if no attempt to allocate host or device memory was made to accommodate the new allocation. If the failure was definitely due to fragmentation of the pool, VK_ERROR_FRAGMENTED_POOL should be returned instead." },
   { result := VK_ERROR_INVALID_EXTERNAL_HANDLE, name := "VK_ERROR_INVALID_EXTERNAL_HANDLE",
     message := "VULKAN SPEC ERROR MESSAGE: An external handle is not a valid handle of the specified type." },
   { result := VK_ERROR_INVALID_DEVICE_ADDRESS_EXT, name := "VK_ERROR_INVALID_DEVICE_ADDRESS_EXT",
     message := "VULKAN SPEC ERROR MESSAGE: A buffer creation failed because the requested address is not available." },
   { result := VK_ERROR_FULL_SCREEN_EXCLUSIVE_MODE_LOST_EXT, name := "VK_ERROR_FULL_SCREEN_EXCLUSIVE_MODE_LOST_EXT",
     message := "VULKAN SPEC ERROR MESSAGE: An operation on a swapchain created with VK_FULL_SCREEN_EXCLUSIVE_APPLICATION_CONTROLLED_EXT failed as it did not have exlusive full-screen access. This may occur due to implementation-dependent reasons, outside of the application???s control." }]

/-- The three logging functions of ctk that `print_result` calls. -/
inductive Severity where
  | info
  | warning
  | error
deriving DecidableEq

/-- One line `vulkan function returned <name>: <message>` on the console. -/
structure LogEntry where
  severity : Severity
  name : String
  message : String
deriving DecidableEq

/-- The search loop of `print_result` (debug.h:62-69): `res_info` is set to every entry in
turn and the loop stops at the first entry whose status is `result`. -/
def find_res_info : List VkResultInfo → Int → Option VkResultInfo → Option VkResultInfo
  | [], _, res_info => res_info
  | entry :: rest, result, _ =>
    if entry.result = result then some entry else find_res_info rest result (some entry)

/-- Function `print_result` (debug.h:27-80): the line it logs, or its fatal error. -/
def print_result (result : Int) : Except Failure LogEntry :=
  match find_res_info VK_RESULT_DEBUG_INFOS result none with
  | none => .error (.fatal "failed to find debug info for VkResult %d")
  | some res_info =>
    if res_info.result = 0 then
      .ok { severity := Severity.info, name := res_info.name, message := res_info.message }
    else if res_info.result > 0 then
      .ok { severity := Severity.warning, name := res_info.name, message := res_info.message }
    else
      .ok { severity := Severity.error, name := res_info.name, message := res_info.message }

/-- Function `validate` (debug.h:82-88): the lines it logs and the fatal error that ends the
process, if any. -/
def validate (result : Int) (fail_message : String) : List LogEntry × Option Failure :=
  if result ≠ VK_SUCCESS then
    match print_result result with
    | .error e => ([], some e)
    | .ok entry => ([entry], some (.fatal fail_message))
  else
    ([], none)

/-! ### Render pass builder (`vtk.h`) -/

/-- Record `VkAttachmentDescription` of Vulkan. -/
structure VkAttachmentDescription where
  flags : Nat
  format : Nat
  samples : Nat
  loadOp : Nat
  storeOp : Nat
  stencilLoadOp : Nat
  stencilStoreOp : Nat
  initialLayout : Nat
  finalLayout : Nat
deriving DecidableEq

/-- Union `VkClearValue` of Vulkan, as its four 32-bit words (for a color: the bit patterns of
the four `float32` components). -/
structure VkClearValue where
  word0 : Nat
  word1 : Nat
  word2 : Nat
  word3 : Nat
deriving DecidableEq

/-- Record `VkAttachmentReference` of Vulkan. -/
structure VkAttachmentReference where
  attachment : Nat
  layout : Nat
deriving DecidableEq

/-- Record `VkSubpassDependency` of Vulkan. -/
structure VkSubpassDependency where
  srcSubpass : Nat
  dstSubpass : Nat
  srcStageMask : Nat
  dstStageMask : Nat
  srcAccessMask : Nat
  dstAccessMask : Nat
  dependencyFlags : Nat
deriving DecidableEq

/-- Record `SubpassInfo` (vtk.h:100-105); a null array pointer is `none`. -/
structure SubpassInfo where
  preserve_attachment_indexes : Option (CtkArray Nat)
  input_attachment_refs : Option (CtkArray VkAttachmentReference)
  color_attachment_refs : Option (CtkArray VkAttachmentReference)
  depth_attachment_ref : VkAttachmentReference
deriving DecidableEq

/-- Record `AttachmentInfo` (vtk.h:107-110). -/
structure AttachmentInfo where
  description : VkAttachmentDescription
  clear_value : VkClearValue
deriving DecidableEq

/-- Member `attachment` of `RenderPassInfo`. -/
structure RenderPassAttachments where
  descriptions : CtkArray VkAttachmentDescription
  clear_values : CtkArray VkClearValue
deriving DecidableEq

/-- Member `subpass` of `RenderPassInfo`. -/
structure RenderPassSubpasses where
  infos : CtkArray SubpassInfo
  dependencies : CtkArray VkSubpassDependency
deriving DecidableEq

/-- Record `RenderPassInfo` (vtk.h:112-122). -/
structure RenderPassInfo where
  attachment : RenderPassAttachments
  subpass : RenderPassSubpasses
deriving DecidableEq

/-- Record `RenderPass` (vtk.h:124-127). -/
structure RenderPass where
  handle : Nat
  attachment_clear_values : CtkArray VkClearValue
deriving DecidableEq

/-- Function `push_attachment` (vtk.h:864-874): the info as the call leaves it, and the index
it returns or the failure that ends the process. -/
def push_attachment (info : RenderPassInfo) (attachment_info : AttachmentInfo) :
    RenderPassInfo × Except Failure Nat :=
  if info.attachment.descriptions.count = info.attachment.descriptions.size then
    (info, .error (.fatal "cannot push any more attachments to RenderPassInfo"))
  else
    let attachment_index := info.attachment.descriptions.count
    match info.attachment.descriptions.push attachment_info.description with
    | .error e => (info, .error e)
    | .ok descriptions =>
      let pushed : RenderPassInfo :=
        { info with attachment := { info.attachment with descriptions := descriptions } }
      match pushed.attachment.clear_values.push attachment_info.clear_value with
      | .error e => (pushed, .error e)
      | .ok clear_values =>
        ({ pushed with attachment := { pushed.attachment with clear_values := clear_values } },
         .ok attachment_index)

/-- A sequence of `push_attachment` calls on one info: the info reached and the indexes
returned, or the failure that ended the process. -/
def push_attachments :
    RenderPassInfo → List AttachmentInfo → RenderPassInfo × Except Failure (List Nat)
  | info, [] => (info, .ok [])
  | info, attachment_info :: rest =>
    match push_attachment info attachment_info with
    | (info', .error e) => (info', .error e)
    | (info', .ok index) =>
      match push_attachments info' rest with
      | (info'', .error e) => (info'', .error e)
      | (info'', .ok indexes) => (info'', .ok (index :: indexes))

/-- Record `VkSubpassDescription` of Vulkan; a null pointer is `none`, a pointer to the
elements of an array is the list of the elements. -/
structure VkSubpassDescription where
  flags : Nat
  pipelineBindPoint : Nat
  inputAttachmentCount : Nat
  pInputAttachments : Option (List VkAttachmentReference)
  colorAttachmentCount : Nat
  pColorAttachments : Option (List VkAttachmentReference)
  pResolveAttachments : Option (List VkAttachmentReference)
  pDepthStencilAttachment : Option VkAttachmentReference
  preserveAttachmentCount : Nat
  pPreserveAttachments : Option (List Nat)
deriving DecidableEq

/-- Record `VkRenderPassCreateInfo` of Vulkan, without `sType`, `pNext` and `flags`. -/
structure VkRenderPassCreateInfo where
  attachmentCount : Nat
  pAttachments : List VkAttachmentDescription
  subpassCount : Nat
  pSubpasses : List VkSubpassDescription
  dependencyCount : Nat
  pDependencies : List VkSubpassDependency
deriving DecidableEq

/-- Constant `VK_PIPELINE_BIND_POINT_GRAPHICS` of Vulkan. -/
def VK_PIPELINE_BIND_POINT_GRAPHICS : Nat := 0

/-- Body of the subpass loop of `create_render_pass` (vtk.h:887-914): the description filled
in for one `SubpassInfo`. The argument `fresh` is the element that the ctk call
`push(subpass_descriptions)` hands out. -/
def subpass_description (fresh : VkSubpassDescription) (subpass_info : SubpassInfo) :
    VkSubpassDescription :=
  let bound := { fresh with pipelineBindPoint := VK_PIPELINE_BIND_POINT_GRAPHICS }
  let with_input :=
    match subpass_info.input_attachment_refs with
    | some refs =>
      { bound with inputAttachmentCount := refs.count, pInputAttachments := some refs.data }
    | none => bound
  let with_color :=
    match subpass_info.color_attachment_refs with
    | some refs =>
      { with_input with colorAttachmentCount := refs.count, pColorAttachments := some refs.data }
    | none => with_input
  let without_depth :=
    { with_color with pResolveAttachments := none, pDepthStencilAttachment := none }
  match subpass_info.preserve_attachment_indexes with
  | some indexes =>
    { without_depth with
      preserveAttachmentCount := indexes.count, pPreserveAttachments := some indexes.data }
  | none => without_depth

/-- The subpass loop of `create_render_pass` (vtk.h:886-914). -/
def push_subpass_descriptions (fresh : VkSubpassDescription) :
    List SubpassInfo → CtkArray VkSubpassDescription →
      Except Failure (CtkArray VkSubpassDescription)
  | [], descriptions => .ok descriptions
  | subpass_info :: rest, descriptions =>
    match descriptions.push (subpass_description fresh subpass_info) with
    | .error e => .error e
    | .ok descriptions' => push_subpass_descriptions fresh rest descriptions'

/-- Function `create_render_pass` (vtk.h:876-929). The arguments `handle` and `create_result`
are what `vkCreateRenderPass` writes and returns. The result is the lines logged and either
the render pass with the create info it was made from, or the failure. -/
def create_render_pass (fresh : VkSubpassDescription) (info : RenderPassInfo) (handle : Nat)
    (create_result : Int) :
    List LogEntry × Except Failure (RenderPass × VkRenderPassCreateInfo) :=
  match (create_array info.attachment.clear_values.count).concat info.attachment.clear_values with
  | .error e => ([], .error e)
  | .ok attachment_clear_values =>
    match push_subpass_descriptions fresh info.subpass.infos.data
        (create_array info.subpass.infos.count) with
    | .error e => ([], .error e)
    | .ok subpass_descriptions =>
      let create_info : VkRenderPassCreateInfo :=
        { attachmentCount := info.attachment.descriptions.count
          pAttachments := info.attachment.descriptions.data
          subpassCount := subpass_descriptions.count
          pSubpasses := subpass_descriptions.data
          dependencyCount := info.subpass.dependencies.count
          pDependencies := info.subpass.dependencies.data }
      match validate create_result "failed to create render pass" with
      | (log, some e) => (log, .error e)
      | (log, none) =>
        (log, .ok ({ handle := handle, attachment_clear_values := attachment_clear_values },
                   create_info))

/-! ### Descriptor sets (`vtk.h`) -/

/-- Record `VkDescriptorBufferInfo` of Vulkan. -/
structure VkDescriptorBufferInfo where
  buffer : Nat
  offset : Nat
  range : Nat
deriving DecidableEq

/-- Record `VkDescriptorImageInfo` of Vulkan. -/
structure VkDescriptorImageInfo where
  sampler : Nat
  imageView : Nat
  imageLayout : Nat
deriving DecidableEq

/-- Record `DescriptorBinding` (vtk.h:1032-1039); `buffer` and `image` are the two views of
its union. -/
structure DescriptorBinding where
  type : Nat
  buffer : VkDescriptorBufferInfo
  image : VkDescriptorImageInfo
deriving DecidableEq

/-- Record `VkWriteDescriptorSet` of Vulkan; a null pointer is `none`. -/
structure VkWriteDescriptorSet where
  sType : Nat
  pNext : Option Nat
  dstSet : Nat
  dstBinding : Nat
  dstArrayElement : Nat
  descriptorCount : Nat
  descriptorType : Nat
  pImageInfo : Option VkDescriptorImageInfo
  pBufferInfo : Option VkDescriptorBufferInfo
  pTexelBufferView : Option Nat
deriving DecidableEq

/-- Constant `VK_STRUCTURE_TYPE_WRITE_DESCRIPTOR_SET` of Vulkan. -/
def VK_STRUCTURE_TYPE_WRITE_DESCRIPTOR_SET : Nat := 35

/-- Constant `VK_DESCRIPTOR_TYPE_COMBINED_IMAGE_SAMPLER` of Vulkan. -/
def VK_DESCRIPTOR_TYPE_COMBINED_IMAGE_SAMPLER : Nat := 1

/-- Constant `VK_DESCRIPTOR_TYPE_UNIFORM_BUFFER` of Vulkan. -/
def VK_DESCRIPTOR_TYPE_UNIFORM_BUFFER : Nat := 6

/-- Constant `VK_DESCRIPTOR_TYPE_STORAGE_BUFFER` of Vulkan. -/
def VK_DESCRIPTOR_TYPE_STORAGE_BUFFER : Nat := 7

/-- Constant `VK_DESCRIPTOR_TYPE_UNIFORM_BUFFER_DYNAMIC` of Vulkan. -/
def VK_DESCRIPTOR_TYPE_UNIFORM_BUFFER_DYNAMIC : Nat := 8

/-- Body of the loop of `update_descriptor_set` (vtk.h:1048-1083) for binding `i`. The
argument `fresh` is the element that the ctk call `push(writes)` hands out. -/
def descriptor_write (fresh : VkWriteDescriptorSet) (descriptor_set i : Nat)
    (binding : DescriptorBinding) : Except Failure VkWriteDescriptorSet :=
  let write : VkWriteDescriptorSet :=
    { fresh with
      sType := VK_STRUCTURE_TYPE_WRITE_DESCRIPTOR_SET
      dstSet := descriptor_set
      dstBinding := i
      dstArrayElement := 0
      descriptorCount := 1
      descriptorType := binding.type }
  if binding.type = VK_DESCRIPTOR_TYPE_UNIFORM_BUFFER ∨
      binding.type = VK_DESCRIPTOR_TYPE_UNIFORM_BUFFER_DYNAMIC ∨
      binding.type = VK_DESCRIPTOR_TYPE_STORAGE_BUFFER then
    .ok { write with pBufferInfo := some binding.buffer }
  else if binding.type = VK_DESCRIPTOR_TYPE_COMBINED_IMAGE_SAMPLER then
    .ok { write with pImageInfo := some binding.image }
  else
    .error (.fatal "unhandled descriptor type when updating descriptor set")

/-- The loop of `update_descriptor_set` (vtk.h:1048-1083), from binding index `i` on. -/
def push_descriptor_writes (fresh : VkWriteDescriptorSet) (descriptor_set : Nat) :
    Nat → List DescriptorBinding → CtkArray VkWriteDescriptorSet →
      Except Failure (CtkArray VkWriteDescriptorSet)
  | _, [], writes => .ok writes
  | i, binding :: rest, writes =>
    match descriptor_write fresh descriptor_set i binding with
    | .error e => .error e
    | .ok write =>
      match writes.push write with
      | .error e => .error e
      | .ok writes' => push_descriptor_writes fresh descriptor_set (i + 1) rest writes'

/-- Function `update_descriptor_set` (vtk.h:1041-1086) on the `binding_count` bindings
`bindings`: the writes handed to its one `vkUpdateDescriptorSets` call, or the failure that
ends the process before that call. -/
def update_descriptor_set (fresh : VkWriteDescriptorSet) (descriptor_set : Nat)
    (bindings : List DescriptorBinding) : Except Failure (List VkWriteDescriptorSet) :=
  match push_descriptor_writes fresh descriptor_set 0 bindings
      (create_array bindings.length) with
  | .error e => .error e
  | .ok writes => .ok writes.data

/-! ### Frame synchronization and submission (`graphics.h`, `game.h`) -/

/-- Record `Frame` (graphics.h:85-89): the handles of the two semaphores and the fence. -/
structure Frame where
  img_aquired : Nat
  render_finished : Nat
  in_flight : Nat
deriving DecidableEq

/-- Member `sync` of `Graphics`. The pointer `frame`, which the source sets to
`frames->data + frame_idx`, is kept as the index of the slot it points to. -/
structure Sync where
  swap_img_idx : Nat
  frames : CtkArray Frame
  frame : Nat
  frame_idx : Nat
deriving DecidableEq

/-- The members of `Swapchain` (vtk.h:66-72) that the frame loop reads. -/
structure Swapchain where
  handle : Nat
  image_count : Nat
  extent : Nat × Nat
deriving DecidableEq

/-- Member `queue` of `Graphics`. -/
structure Queues where
  graphics : Nat
  present : Nat
deriving DecidableEq

/-- Record `Pipeline` (graphics.h:80-83); `address` stands for the identity of the object a
`Pipeline *` points to. -/
structure Pipeline where
  address : Nat
  handle : Nat
  layout : Nat
deriving DecidableEq

/-- Record `Transform` (graphics.h:91-95), each `f32` as its bit pattern. -/
structure Transform where
  position : Nat × Nat × Nat
  rotation : Nat × Nat × Nat
  scale : Nat × Nat × Nat
deriving DecidableEq

/-- Record `Vertex` (graphics.h:97-100), each `f32` as its bit pattern. -/
structure Vertex where
  position : Nat × Nat × Nat
  uv : Nat × Nat
deriving DecidableEq

/-- Record `Mesh` (graphics.h:107-112). -/
structure Mesh where
  vertexes : CtkArray Vertex
  indexes : CtkArray Nat
  vertex_offset : Nat
  index_offset : Nat
deriving DecidableEq

/-- Member `mesh_data` of `Graphics`. -/
structure MeshData where
  vertexes : GraphicsArray
  indexes : GraphicsArray
deriving DecidableEq

/-- Record `VkRenderPassBeginInfo` of Vulkan, without `sType` and `pNext`. -/
structure VkRenderPassBeginInfo where
  renderPass : Nat
  framebuffer : Nat
  clearValueCount : Nat
  pClearValues : List VkClearValue
  renderArea_offset : Int × Int
  renderArea_extent : Nat × Nat
deriving DecidableEq

/-- Record `VkSubmitInfo` of Vulkan, without `sType` and `pNext`; each pointer is the list of
the elements it points to. -/
structure VkSubmitInfo where
  waitSemaphoreCount : Nat
  pWaitSemaphores : List Nat
  pWaitDstStageMask : List Nat
  commandBufferCount : Nat
  pCommandBuffers : List Nat
  signalSemaphoreCount : Nat
  pSignalSemaphores : List Nat
deriving DecidableEq

/-- Record `VkPresentInfoKHR` of Vulkan, without `sType`, `pNext` and `pResults`. -/
structure VkPresentInfoKHR where
  waitSemaphoreCount : Nat
  pWaitSemaphores : List Nat
  swapchainCount : Nat
  pSwapchains : List Nat
  pImageIndices : List Nat
deriving DecidableEq

/-- The Vulkan calls of the frame loop, as they reach the device. -/
inductive FrameCall where
  | vkWaitForFences (fences : List Nat) (waitAll timeout : Nat)
  | vkResetFences (fences : List Nat)
  | vkAcquireNextImageKHR (swapchain timeout semaphore fence : Nat)
  | vkBeginCommandBuffer (cmd_buf : Nat)
  | vkCmdBeginRenderPass (cmd_buf : Nat) (begin_info : VkRenderPassBeginInfo) (contents : Nat)
  | vkCmdBindPipeline (cmd_buf bind_point pipeline : Nat)
  | vkCmdBindDescriptorSets (cmd_buf bind_point layout first_set : Nat)
      (descriptor_sets : List Nat)
  | vkCmdPushConstants (cmd_buf layout stage offset size : Nat) (values : List Nat)
  | vkCmdBindVertexBuffers (cmd_buf first_binding binding_count buffer offset : Nat)
  | vkCmdBindIndexBuffer (cmd_buf buffer offset index_type : Nat)
  | vkCmdDrawIndexed (cmd_buf index_count instance_count first_index vertex_offset
      first_instance : Nat)
  | vkCmdEndRenderPass (cmd_buf : Nat)
  | vkEndCommandBuffer (cmd_buf : Nat)
  | vkQueueSubmit (queue : Nat) (submits : List VkSubmitInfo) (fence : Nat)
  | vkQueuePresentKHR (queue : Nat) (present_info : VkPresentInfoKHR)
deriving DecidableEq

/-- The members of `Graphics` that the frame loop reads or writes, together with the calls the
device has received (`calls`, oldest first) and the lines logged (`log`). The member
`descriptor_set_texture_handles` is the inline storage of
`descriptor_set.texture->handles`. -/
structure FrameGraphics where
  swapchain : Swapchain
  queue : Queues
  render_pass : RenderPass
  framebuffers : CtkArray Nat
  primary_render_cmd_bufs : CtkArray Nat
  sync : Sync
  mesh_data : MeshData
  pipeline_test : Pipeline
  pipeline_texture : Pipeline
  descriptor_set_texture_handles : Nat → Nat
  calls : List FrameCall
  log : List LogEntry

/-- Member `entity_data` of `Game` (game.h:46-53): the fixed arrays by index, and `count`. A
matrix is the list of the bit patterns of its 16 `f32` components. -/
structure EntityData where
  transform : Nat → Transform
  model : Nat → List Nat
  mvp : Nat → List Nat
  mesh : Nat → Mesh
  pipeline : Nat → Pipeline
  count : Nat

/-- Constant `VK_NULL_HANDLE` of Vulkan. -/
def VK_NULL_HANDLE : Nat := 0

/-- Constant `VK_TRUE` of Vulkan. -/
def VK_TRUE : Nat := 1

/-- Constant `VK_SUBPASS_CONTENTS_INLINE` of Vulkan. -/
def VK_SUBPASS_CONTENTS_INLINE : Nat := 0

/-- Constant `VK_SHADER_STAGE_VERTEX_BIT` of Vulkan. -/
def VK_SHADER_STAGE_VERTEX_BIT : Nat := 1

/-- Constant `VK_INDEX_TYPE_UINT32` of Vulkan. -/
def VK_INDEX_TYPE_UINT32 : Nat := 1

/-- Constant `VK_PIPELINE_STAGE_COLOR_ATTACHMENT_OUTPUT_BIT` of Vulkan. -/
def VK_PIPELINE_STAGE_COLOR_ATTACHMENT_OUTPUT_BIT : Nat := 1024

/-- A Vulkan call whose result goes through `validate`: the call reaches the device, then the
result is checked. -/
def checked (gfx : FrameGraphics) (call : FrameCall) (result : Int) (fail_message : String) :
    FrameGraphics × Option Failure :=
  ({ gfx with calls := gfx.calls ++ [call], log := gfx.log ++ (validate result fail_message).1 },
   (validate result fail_message).2)

/-- The first statement of `next_frame` (graphics.h:890-891):
`if (++frame_idx >= frames->size) frame_idx = 0`, on a `u32`. -/
def next_frame_idx (frame_idx size : Nat) : Nat :=
  if (frame_idx + 1) % U32_SIZE ≥ size then 0 else (frame_idx + 1) % U32_SIZE

/-- Function `next_frame` (graphics.h:888-902). The results are what `vkWaitForFences`,
`vkResetFences` and `vkAcquireNextImageKHR` return, `image_index` what the latter writes to
`swap_img_idx`. -/
def next_frame (gfx : FrameGraphics) (wait_result reset_result acquire_result : Int)
    (image_index : Nat) : FrameGraphics × Option Failure :=
  let frame_idx := next_frame_idx gfx.sync.frame_idx gfx.sync.frames.size
  let selected : FrameGraphics :=
    { gfx with sync := { gfx.sync with frame_idx := frame_idx, frame := frame_idx } }
  match selected.sync.frames.data[selected.sync.frame]? with
  | none => (selected, some .out_of_bounds)
  | some frame =>
    match checked selected (.vkWaitForFences [frame.in_flight] VK_TRUE U64_MAX) wait_result
        "vkWaitForFences failed" with
    | (waited, some e) => (waited, some e)
    | (waited, none) =>
      match checked waited (.vkResetFences [frame.in_flight]) reset_result
          "vkResetFences failed" with
      | (reset, some e) => (reset, some e)
      | (reset, none) =>
        checked { reset with sync := { reset.sync with swap_img_idx := image_index } }
          (.vkAcquireNextImageKHR reset.swapchain.handle U64_MAX frame.img_aquired
            VK_NULL_HANDLE)
          acquire_result "failed to aquire next swapchain image"

/-- Function `begin_render_cmds` (graphics.h:904-922); `begin_result` is what
`vkBeginCommandBuffer` returns. -/
def begin_render_cmds (gfx : FrameGraphics) (cmd_buf : Nat) (begin_result : Int) :
    FrameGraphics × Option Failure :=
  match checked gfx (.vkBeginCommandBuffer cmd_buf) begin_result
      "failed to begin recording command buffer" with
  | (begun, some e) => (begun, some e)
  | (begun, none) =>
    match begun.framebuffers.data[begun.sync.swap_img_idx]? with
    | none => (begun, some .out_of_bounds)
    | some framebuffer =>
      let rp_begin_info : VkRenderPassBeginInfo :=
        { renderPass := begun.render_pass.handle
          framebuffer := framebuffer
          clearValueCount := begun.render_pass.attachment_clear_values.count
          pClearValues := begun.render_pass.attachment_clear_values.data
          renderArea_offset := (0, 0)
          renderArea_extent := begun.swapchain.extent }
      ({ begun with
         calls :=
           begun.calls ++
             [.vkCmdBeginRenderPass cmd_buf rp_begin_info VK_SUBPASS_CONTENTS_INLINE] },
       none)

/-- Function `bind_mesh_data` (graphics.h:924-935): the two calls it records. -/
def bind_mesh_data (gfx : FrameGraphics) (cmd_buf : Nat) : List FrameCall :=
  [.vkCmdBindVertexBuffers cmd_buf 0 1 gfx.mesh_data.vertexes.mem.buffer.handle
     gfx.mesh_data.vertexes.mem.offset,
   .vkCmdBindIndexBuffer cmd_buf gfx.mesh_data.indexes.mem.buffer.handle
     gfx.mesh_data.indexes.mem.offset VK_INDEX_TYPE_UINT32]

/-- Function `draw_mesh` (graphics.h:937-939): the call it records. -/
def draw_mesh (cmd_buf : Nat) (mesh : Mesh) : List FrameCall :=
  [.vkCmdDrawIndexed cmd_buf mesh.indexes.count 1 mesh.index_offset mesh.vertex_offset 0]

/-- Function `end_render_cmds` (graphics.h:941-944): the two calls it issues. -/
def end_render_cmds (cmd_buf : Nat) : List FrameCall :=
  [.vkCmdEndRenderPass cmd_buf, .vkEndCommandBuffer cmd_buf]

/-- Body of the entity loop of `record_render_cmds` (game.h:338-355) for entity `i`. -/
def record_entity (entity_data : EntityData) (gfx : FrameGraphics) (cmd_buf i : Nat) :
    List FrameCall :=
  [FrameCall.vkCmdBindPipeline cmd_buf VK_PIPELINE_BIND_POINT_GRAPHICS
      (entity_data.pipeline i).handle] ++
    (if (entity_data.pipeline i).address = gfx.pipeline_texture.address then
      [FrameCall.vkCmdBindDescriptorSets cmd_buf VK_PIPELINE_BIND_POINT_GRAPHICS
        (entity_data.pipeline i).layout 0 [gfx.descriptor_set_texture_handles 0]]
    else
      []) ++
    [FrameCall.vkCmdPushConstants cmd_buf gfx.pipeline_test.layout VK_SHADER_STAGE_VERTEX_BIT
      0 64 (entity_data.mvp i)] ++
    bind_mesh_data gfx cmd_buf ++ draw_mesh cmd_buf (entity_data.mesh i)

/-- The entity loop of `record_render_cmds`, over the entity indexes in turn. -/
def record_entities (entity_data : EntityData) (gfx : FrameGraphics) (cmd_buf : Nat) :
    List Nat → List FrameCall
  | [] => []
  | i :: rest =>
    record_entity entity_data gfx cmd_buf i ++ record_entities entity_data gfx cmd_buf rest

/-- Function `record_render_cmds` (game.h:335-358). -/
def record_render_cmds (entity_data : EntityData) (gfx : FrameGraphics) (begin_result : Int) :
    FrameGraphics × Option Failure :=
  match gfx.primary_render_cmd_bufs.data[gfx.sync.swap_img_idx]? with
  | none => (gfx, some .out_of_bounds)
  | some cmd_buf =>
    match begin_render_cmds gfx cmd_buf begin_result with
    | (begun, some e) => (begun, some e)
    | (begun, none) =>
      ({ begun with
         calls :=
           begun.calls ++
             record_entities entity_data begun cmd_buf (List.range entity_data.count) ++
             end_render_cmds cmd_buf },
       none)

/-- Function `submit_render_cmds` (graphics.h:946-975); the results are what `vkQueueSubmit`
and `vkQueuePresentKHR` return. -/
def submit_render_cmds (gfx : FrameGraphics) (submit_result present_result : Int) :
    FrameGraphics × Option Failure :=
  match gfx.sync.frames.data[gfx.sync.frame]?,
      gfx.primary_render_cmd_bufs.data[gfx.sync.swap_img_idx]? with
  | some frame, some cmd_buf =>
    let submit_info : VkSubmitInfo :=
      { waitSemaphoreCount := 1
        pWaitSemaphores := [frame.img_aquired]
        pWaitDstStageMask := [VK_PIPELINE_STAGE_COLOR_ATTACHMENT_OUTPUT_BIT]
        commandBufferCount := 1
        pCommandBuffers := [cmd_buf]
        signalSemaphoreCount := 1
        pSignalSemaphores := [frame.render_finished] }
    match checked gfx (.vkQueueSubmit gfx.queue.graphics [submit_info] frame.in_flight)
        submit_result "vkQueueSubmit failed" with
    | (submitted, some e) => (submitted, some e)
    | (submitted, none) =>
      let present_info : VkPresentInfoKHR :=
        { waitSemaphoreCount := 1
          pWaitSemaphores := [frame.render_finished]
          swapchainCount := 1
          pSwapchains := [submitted.swapchain.handle]
          pImageIndices := [submitted.sync.swap_img_idx] }
      checked submitted (.vkQueuePresentKHR submitted.queue.present present_info)
        present_result "vkQueuePresentKHR failed"
  | _, _ => (gfx, some .out_of_bounds)

/-- The results the device returns during one frame. -/
structure FrameResults where
  wait_result : Int
  reset_result : Int
  acquire_result : Int
  image_index : Nat
  begin_result : Int
  submit_result : Int
  present_result : Int
deriving DecidableEq

/-- The calls of one iteration of the main loop (main.cc:55-68) that use the frame members:
`next_frame`, `record_render_cmds`, `submit_render_cmds`. -/
def render_frame (entity_data : EntityData) (gfx : FrameGraphics) (results : FrameResults) :
    FrameGraphics × Option Failure :=
  match next_frame gfx results.wait_result results.reset_result results.acquire_result
      results.image_index with
  | (acquired, some e) => (acquired, some e)
  | (acquired, none) =>
    match record_render_cmds entity_data acquired results.begin_result with
    | (recorded, some e) => (recorded, some e)
    | (recorded, none) =>
      submit_render_cmds recorded results.submit_result results.present_result

/-- The slots that a run of `next_frame` calls selects, one per call, each call getting the
given results; the run ends with the first call that fails. -/
def next_frame_slots : FrameGraphics → List (Int × Int × Int × Nat) → List Nat
  | _, [] => []
  | gfx, (wait_result, reset_result, acquire_result, image_index) :: rest =>
    match next_frame gfx wait_result reset_result acquire_result image_index with
    | (gfx', some _) => [gfx'.sync.frame]
    | (gfx', none) => gfx'.sync.frame :: next_frame_slots gfx' rest

/-- Function `init_sync` (graphics.h:390-401) on the `sync` member; `frames` are the
semaphores and fences that the `frame_count` iterations create. -/
def init_sync (sync : Sync) (frames : List Frame) : Sync :=
  { sync with frame_idx := U32_MAX, frames := { data := frames, size := frames.length } }

/-! ### Concrete inputs of the render-builder and frame-loop evaluations -/

/-- The swapchain image attachment of `create_render_passes` (graphics.h:337-352) for image
format 44: cleared on load, stored, presented; clear value `(0.1f, 0.1f, 0.1f, 1)` as bit
patterns. -/
def color_attachment : AttachmentInfo :=
  { description :=
      { flags := 0, format := 44, samples := 1, loadOp := 1, storeOp := 0, stencilLoadOp := 2,
        stencilStoreOp := 1, initialLayout := 0, finalLayout := 1000001002 }
    clear_value :=
      { word0 := 1036831949, word1 := 1036831949, word2 := 1036831949, word3 := 1065353216 } }

/-- A depth attachment with clear value `(1.0f, 0)`. -/
def depth_attachment : AttachmentInfo :=
  { description :=
      { flags := 0, format := 126, samples := 1, loadOp := 1, storeOp := 1, stencilLoadOp := 2,
        stencilStoreOp := 1, initialLayout := 0, finalLayout := 3 }
    clear_value := { word0 := 1065353216, word1 := 0, word2 := 0, word3 := 0 } }

/-- The `RenderPassInfo` that `create_render_passes` starts from (graphics.h:326-335): four
empty arrays of capacity 1. -/
def render_pass_info_1 : RenderPassInfo :=
  { attachment := { descriptions := create_array 1, clear_values := create_array 1 }
    subpass := { infos := create_array 1, dependencies := create_array 1 } }

/-- An empty `RenderPassInfo` with room for two attachments. -/
def render_pass_info_2 : RenderPassInfo :=
  { attachment := { descriptions := create_array 2, clear_values := create_array 2 }
    subpass := { infos := create_array 1, dependencies := create_array 1 } }

/-- A `RenderPassInfo` holding one attachment, whose description list has capacity 2 and whose
clear-value list has capacity 1. -/
def render_pass_info_uneven : RenderPassInfo :=
  { attachment :=
      { descriptions := { data := [color_attachment.description], size := 2 }
        clear_values := { data := [color_attachment.clear_value], size := 1 } }
    subpass := { infos := create_array 1, dependencies := create_array 1 } }

/-- A `RenderPassInfo` with room for two attachments that holds no description and one clear
value, the one of the depth attachment. -/
def render_pass_info_shifted : RenderPassInfo :=
  { attachment :=
      { descriptions := create_array 2
        clear_values := { data := [depth_attachment.clear_value], size := 2 } }
    subpass := { infos := create_array 1, dependencies := create_array 1 } }

/-- The info of `create_render_passes` before `create_render_pass` (graphics.h:337-346): the
color attachment, and one subpass whose single color reference is attachment 0 in layout
`VK_IMAGE_LAYOUT_COLOR_ATTACHMENT_OPTIMAL`. -/
def render_pass_info_color : RenderPassInfo :=
  { attachment := (push_attachment render_pass_info_1 color_attachment).1.attachment
    subpass :=
      { infos :=
          { data :=
              [{ preserve_attachment_indexes := none
                 input_attachment_refs := none
                 color_attachment_refs := some { data := [{ attachment := 0, layout := 2 }], size := 1 }
                 depth_attachment_ref := { attachment := 0, layout := 0 } }]
            size := 1 }
        dependencies := create_array 1 } }

/-- A zero-filled `VkSubpassDescription`. -/
def zero_subpass_description : VkSubpassDescription :=
  { flags := 0, pipelineBindPoint := 0, inputAttachmentCount := 0, pInputAttachments := none,
    colorAttachmentCount := 0, pColorAttachments := none, pResolveAttachments := none,
    pDepthStencilAttachment := none, preserveAttachmentCount := 0,
    pPreserveAttachments := none }

/-- A zero-filled `VkWriteDescriptorSet`. -/
def zero_write : VkWriteDescriptorSet :=
  { sType := 0, pNext := none, dstSet := 0, dstBinding := 0, dstArrayElement := 0,
    descriptorCount := 0, descriptorType := 0, pImageInfo := none, pBufferInfo := none,
    pTexelBufferView := none }

/-- Frame state after `init_sync(gfx, 2)` with three swapchain images: slots with semaphores
11/12 and 21/22 and fences 13 and 23, framebuffers 100..102, command buffers 200..202. -/
def frame_graphics_2 : FrameGraphics :=
  { swapchain := { handle := 9, image_count := 3, extent := (1600, 900) }
    queue := { graphics := 70, present := 71 }
    render_pass :=
      { handle := 50
        attachment_clear_values := { data := [color_attachment.clear_value], size := 1 } }
    framebuffers := { data := [100, 101, 102], size := 3 }
    primary_render_cmd_bufs := { data := [200, 201, 202], size := 3 }
    sync :=
      init_sync { swap_img_idx := 0, frames := create_array 0, frame := 0, frame_idx := 0 }
        [{ img_aquired := 11, render_finished := 12, in_flight := 13 },
         { img_aquired := 21, render_finished := 22, in_flight := 23 }]
    mesh_data := { vertexes := device_array_4, indexes := device_array_8 }
    pipeline_test := { address := 1, handle := 31, layout := 32 }
    pipeline_texture := { address := 2, handle := 41, layout := 42 }
    descriptor_set_texture_handles := fun _ => 60
    calls := []
    log := [] }

/-- One entity drawn with the test pipeline: a mesh of three indexes at offsets 0. -/
def entity_data_1 : EntityData :=
  { transform := fun _ => { position := (0, 0, 0), rotation := (0, 0, 0), scale := (0, 0, 0) }
    model := fun _ => List.replicate 16 0
    mvp := fun _ => List.replicate 16 0
    mesh := fun _ =>
      { vertexes := create_array 3, indexes := { data := [0, 1, 2], size := 3 },
        vertex_offset := 0, index_offset := 0 }
    pipeline := fun _ => { address := 1, handle := 31, layout := 32 }
    count := 1 }

/-- Two bindings: a uniform buffer and a combined image sampler. -/
def bindings_buffer_image : List DescriptorBinding :=
  [{ type := VK_DESCRIPTOR_TYPE_UNIFORM_BUFFER
     buffer := { buffer := 1, offset := 0, range := 64 }
     image := { sampler := 1, imageView := 0, imageLayout := 64 } },
   { type := VK_DESCRIPTOR_TYPE_COMBINED_IMAGE_SAMPLER
     buffer := { buffer := 80, offset := 81, range := 5 }
     image := { sampler := 80, imageView := 81, imageLayout := 5 } }]

/-- The frame state `frame_graphics_2` when its current frame is slot 0. -/
def frame_graphics_slot_0 : FrameGraphics :=
  { frame_graphics_2 with sync := { frame_graphics_2.sync with frame := 0, frame_idx := 0 } }

/-- The frame state after a successful `next_frame` from slot 0 that acquires swapchain
image 2: slot 1 is current. -/
def frame_graphics_acquired : FrameGraphics :=
  (next_frame frame_graphics_slot_0 VK_SUCCESS VK_SUCCESS VK_SUCCESS 2).1

/-- A frame in which every call returns success and the acquire returns image 2. -/
def frame_results_image_2 : FrameResults :=
  { wait_result := VK_SUCCESS, reset_result := VK_SUCCESS, acquire_result := VK_SUCCESS,
    image_index := 2, begin_result := VK_SUCCESS, submit_result := VK_SUCCESS,
    present_result := VK_SUCCESS }

/-! ## Device queries, the swapchain request, image barriers and the game state -/

/-! ### Image memory barriers (`vtk.h`) -/

/-- Record `ImageMemoryInfo` (vtk.h:172-177). -/
structure ImageMemoryInfo where
  layout : Nat
  stage : Nat
  access : Nat
  queue_family_index : Nat
deriving DecidableEq

/-- Record `VkImageSubresourceRange` of Vulkan. -/
structure VkImageSubresourceRange where
  aspectMask : Nat
  baseMipLevel : Nat
  levelCount : Nat
  baseArrayLayer : Nat
  layerCount : Nat
deriving DecidableEq

/-- Record `ImageMemoryBarrier` (vtk.h:179-183). -/
structure ImageMemoryBarrier where
  src : ImageMemoryInfo
  dst : ImageMemoryInfo
  subresource_range : VkImageSubresourceRange
deriving DecidableEq

/-- Record `Image` (vtk.h:93-98). -/
structure Image where
  handle : Nat
  view : Nat
  mem : Nat
  extent : Nat × Nat × Nat
deriving DecidableEq

/-- Record `VkImageMemoryBarrier` of Vulkan, without `pNext`. -/
structure VkImageMemoryBarrier where
  sType : Nat
  srcAccessMask : Nat
  dstAccessMask : Nat
  oldLayout : Nat
  newLayout : Nat
  srcQueueFamilyIndex : Nat
  dstQueueFamilyIndex : Nat
  image : Nat
  subresourceRange : VkImageSubresourceRange
deriving DecidableEq

/-- The arguments of one `vkCmdPipelineBarrier` call; the memory and buffer barriers are given
by their counts, the image barriers as a list. -/
structure PipelineBarrierCall where
  cmd_buf : Nat
  srcStageMask : Nat
  dstStageMask : Nat
  dependencyFlags : Nat
  memoryBarrierCount : Nat
  bufferMemoryBarrierCount : Nat
  imageMemoryBarriers : List VkImageMemoryBarrier
deriving DecidableEq

/-- Constant `VK_STRUCTURE_TYPE_IMAGE_MEMORY_BARRIER` of Vulkan. -/
def VK_STRUCTURE_TYPE_IMAGE_MEMORY_BARRIER : Nat := 45

/-- Constant `VK_QUEUE_FAMILY_IGNORED` of Vulkan. -/
def VK_QUEUE_FAMILY_IGNORED : Nat := 4294967295

/-- Function `image_memory_barrier` (vtk.h:774-793): the `vkCmdPipelineBarrier` call it
records. -/
def image_memory_barrier (cmd_buf : Nat) (image : Image)
    (image_memory_barrier : ImageMemoryBarrier) : PipelineBarrierCall :=
  let vk_image_memory_barrier : VkImageMemoryBarrier :=
    { sType := VK_STRUCTURE_TYPE_IMAGE_MEMORY_BARRIER
      srcAccessMask := image_memory_barrier.src.access
      dstAccessMask := image_memory_barrier.dst.access
      oldLayout := image_memory_barrier.src.layout
      newLayout := image_memory_barrier.dst.layout
      srcQueueFamilyIndex := image_memory_barrier.src.queue_family_index
      dstQueueFamilyIndex := image_memory_barrier.src.queue_family_index
      image := image.handle
      subresourceRange := image_memory_barrier.subresource_range }
  { cmd_buf := cmd_buf
    srcStageMask := image_memory_barrier.src.stage
    dstStageMask := image_memory_barrier.dst.stage
    dependencyFlags := 0
    memoryBarrierCount := 0
    bufferMemoryBarrierCount := 0
    imageMemoryBarriers := [vk_image_memory_barrier] }

/-! ### The swapchain request (`vtk.h`) -/

/-- The members of `VkSurfaceCapabilitiesKHR` that `create_swapchain` reads. -/
structure VkSurfaceCapabilitiesKHR where
  minImageCount : Nat
  maxImageCount : Nat
  currentExtent : Nat × Nat
  currentTransform : Nat
deriving DecidableEq

/-- Record `VkSurfaceFormatKHR` of Vulkan. -/
structure VkSurfaceFormatKHR where
  format : Nat
  colorSpace : Nat
deriving DecidableEq

/-- Record `VkSwapchainCreateInfoKHR` of Vulkan, without `sType` and `pNext`;
`pQueueFamilyIndices` is the list of the indexes it points to. -/
structure VkSwapchainCreateInfoKHR where
  flags : Nat
  surface : Nat
  minImageCount : Nat
  imageFormat : Nat
  imageColorSpace : Nat
  imageExtent : Nat × Nat
  imageArrayLayers : Nat
  imageUsage : Nat
  imageSharingMode : Nat
  queueFamilyIndexCount : Nat
  pQueueFamilyIndices : List Nat
  preTransform : Nat
  compositeAlpha : Nat
  presentMode : Nat
  clipped : Nat
  oldSwapchain : Nat
deriving DecidableEq

/-- Constant `VK_FORMAT_B8G8R8A8_UNORM` of Vulkan. -/
def VK_FORMAT_B8G8R8A8_UNORM : Nat := 44

/-- Constant `VK_COLOR_SPACE_SRGB_NONLINEAR_KHR` of Vulkan. -/
def VK_COLOR_SPACE_SRGB_NONLINEAR_KHR : Nat := 0

/-- Constant `VK_PRESENT_MODE_MAILBOX_KHR` of Vulkan. -/
def VK_PRESENT_MODE_MAILBOX_KHR : Nat := 1

/-- Constant `VK_PRESENT_MODE_FIFO_KHR` of Vulkan. -/
def VK_PRESENT_MODE_FIFO_KHR : Nat := 2

/-- Constant `VK_IMAGE_USAGE_TRANSFER_DST_BIT` of Vulkan. -/
def VK_IMAGE_USAGE_TRANSFER_DST_BIT : Nat := 2

/-- Constant `VK_IMAGE_USAGE_COLOR_ATTACHMENT_BIT` of Vulkan. -/
def VK_IMAGE_USAGE_COLOR_ATTACHMENT_BIT : Nat := 16

/-- Constant `VK_COMPOSITE_ALPHA_OPAQUE_BIT_KHR` of Vulkan. -/
def VK_COMPOSITE_ALPHA_OPAQUE_BIT_KHR : Nat := 1

/-- Constant `VK_SHARING_MODE_EXCLUSIVE` of Vulkan. -/
def VK_SHARING_MODE_EXCLUSIVE : Nat := 0

/-- Constant `VK_SHARING_MODE_CONCURRENT` of Vulkan. -/
def VK_SHARING_MODE_CONCURRENT : Nat := 1

/-- Function `load_vk_objects` (vtk.h:199-207) on the objects the loader reports. The macro
`CTK_ASSERT` of ctk is not under src/; a failed assertion is taken to end the process. -/
def load_vk_objects {α : Type} (objects : List α) : Except Failure (List α) :=
  if objects.length > 0 then .ok objects else .error (.fatal "CTK_ASSERT(count > 0)")

/-- The format loop of `create_swapchain` (vtk.h:534-545): the first format that is
`VK_FORMAT_B8G8R8A8_UNORM` in the sRGB color space, else the default. -/
def select_surface_format (selected_format : VkSurfaceFormatKHR) :
    List VkSurfaceFormatKHR → VkSurfaceFormatKHR
  | [] => selected_format
  | surface_format :: rest =>
    if surface_format.format = VK_FORMAT_B8G8R8A8_UNORM ∧
        surface_format.colorSpace = VK_COLOR_SPACE_SRGB_NONLINEAR_KHR then
      surface_format
    else
      select_surface_format selected_format rest

/-- The present-mode loop of `create_swapchain` (vtk.h:548-558): mailbox if the surface has
it, else the default. -/
def select_present_mode (selected_present_mode : Nat) : List Nat → Nat
  | [] => selected_present_mode
  | surface_present_mode :: rest =>
    if surface_present_mode = VK_PRESENT_MODE_MAILBOX_KHR then
      surface_present_mode
    else
      select_present_mode selected_present_mode rest

/-- The image count of `create_swapchain` (vtk.h:561-564), a `u32`. -/
def selected_image_count (surface_capabilities : VkSurfaceCapabilitiesKHR) : Nat :=
  if surface_capabilities.maxImageCount > 0 ∧
      (surface_capabilities.minImageCount + 1) % U32_SIZE > surface_capabilities.maxImageCount then
    surface_capabilities.maxImageCount
  else
    (surface_capabilities.minImageCount + 1) % U32_SIZE

/-- The configuration part of `create_swapchain` (vtk.h:510-596): the create info passed to
`vkCreateSwapchainKHR`, from the surface capabilities, formats and present modes the device
reports and the two queue family indexes of the physical device. -/
def create_swapchain_info (surface : Nat) (surface_capabilities : VkSurfaceCapabilitiesKHR)
    (reported_formats : List VkSurfaceFormatKHR) (reported_present_modes : List Nat)
    (graphics_queue_family_idx present_queue_family_idx : Nat) :
    Except Failure VkSwapchainCreateInfoKHR :=
  match load_vk_objects reported_formats with
  | .error e => .error e
  | .ok surface_formats =>
    match load_vk_objects reported_present_modes with
    | .error e => .error e
    | .ok surface_present_modes =>
      match surface_formats.head? with
      | none => .error .out_of_bounds
      | some first_format =>
        let selected_format := select_surface_format first_format surface_formats
        let selected_present_mode :=
          select_present_mode VK_PRESENT_MODE_FIFO_KHR surface_present_modes
        if surface_capabilities.currentExtent.1 = U32_MAX then
          .error (.fatal "current extent not set for surface")
        else
          .ok
            { flags := 0
              surface := surface
              minImageCount := selected_image_count surface_capabilities
              imageFormat := selected_format.format
              imageColorSpace := selected_format.colorSpace
              imageExtent := surface_capabilities.currentExtent
              imageArrayLayers := 1
              imageUsage :=
                VK_IMAGE_USAGE_COLOR_ATTACHMENT_BIT ||| VK_IMAGE_USAGE_TRANSFER_DST_BIT
              imageSharingMode :=
                if graphics_queue_family_idx ≠ present_queue_family_idx then
                  VK_SHARING_MODE_CONCURRENT
                else VK_SHARING_MODE_EXCLUSIVE
              queueFamilyIndexCount :=
                if graphics_queue_family_idx ≠ present_queue_family_idx then 2 else 0
              pQueueFamilyIndices :=
                if graphics_queue_family_idx ≠ present_queue_family_idx then
                  [graphics_queue_family_idx, present_queue_family_idx]
                else []
              preTransform := surface_capabilities.currentTransform
              compositeAlpha := VK_COMPOSITE_ALPHA_OPAQUE_BIT_KHR
              presentMode := selected_present_mode
              clipped := VK_TRUE
              oldSwapchain := VK_NULL_HANDLE }

/-! ### Memory types (`vtk.h`) -/

/-- Record `VkMemoryType` of Vulkan. -/
structure VkMemoryType where
  propertyFlags : Nat
  heapIndex : Nat
deriving DecidableEq

/-- The members of `VkPhysicalDeviceMemoryProperties` that `find_memory_type_index` reads;
`memoryTypes` is the array of `VK_MAX_MEMORY_TYPES` entries. -/
structure VkPhysicalDeviceMemoryProperties where
  memoryTypeCount : Nat
  memoryTypes : List VkMemoryType
deriving DecidableEq

/-- Record `VkMemoryRequirements` of Vulkan. -/
structure VkMemoryRequirements where
  size : Nat
  alignment : Nat
  memoryTypeBits : Nat
deriving DecidableEq

/-- Constant `VK_MAX_MEMORY_TYPES` of Vulkan. -/
def VK_MAX_MEMORY_TYPES : Nat := 32

/-- The loop of `find_memory_type_index` (vtk.h:238-246) over the indexes that are left. For
an index of 32 or more the shift `1 << mem_type_idx` has no defined value and `memoryTypes`
has no entry: the model ends there with `out_of_bounds`. -/
def find_memory_type_index_loop (mem_reqs : VkMemoryRequirements)
    (mem_props : VkPhysicalDeviceMemoryProperties) (mem_prop_flags : Nat) :
    List Nat → Except Failure Nat
  | [] => .error (.fatal "failed to find memory type that satisfies property requirements")
  | mem_type_idx :: rest =>
    if mem_type_idx ≥ 32 then
      .error .out_of_bounds
    else if mem_reqs.memoryTypeBits &&& ((1 <<< mem_type_idx) % U32_SIZE) = 0 then
      find_memory_type_index_loop mem_reqs mem_props mem_prop_flags rest
    else
      match mem_props.memoryTypes[mem_type_idx]? with
      | none => .error .out_of_bounds
      | some memory_type =>
        if memory_type.propertyFlags &&& mem_prop_flags = mem_prop_flags then
          .ok mem_type_idx
        else
          find_memory_type_index_loop mem_reqs mem_props mem_prop_flags rest

/-- Function `find_memory_type_index` (vtk.h:233-250), on the memory properties of the
physical device. -/
def find_memory_type_index (mem_reqs : VkMemoryRequirements)
    (mem_props : VkPhysicalDeviceMemoryProperties) (mem_prop_flags : Nat) :
    Except Failure Nat :=
  find_memory_type_index_loop mem_reqs mem_props mem_prop_flags
    (List.range mem_props.memoryTypeCount)

/-- The condition of the specification on a memory type index `i`: bit `i` of the
`memoryTypeBits` of the requirement is set, and the property flags of memory type `i` include
every requested flag. -/
def memory_type_suits (mem_reqs : VkMemoryRequirements)
    (mem_props : VkPhysicalDeviceMemoryProperties) (mem_prop_flags : Nat) (i : Nat) : Prop :=
  mem_reqs.memoryTypeBits.testBit i = true ∧
    ∃ memory_type, mem_props.memoryTypes[i]? = some memory_type ∧
      ∀ b, mem_prop_flags.testBit b = true → memory_type.propertyFlags.testBit b = true

/-! ### Entities and the display (`game.h`) -/

/-- Record `EntityInfo` (game.h:12-16); the mesh and the pipeline are the objects the two
pointers point to. -/
structure EntityInfo where
  transform : Transform
  mesh : Mesh
  pipeline : Pipeline
deriving DecidableEq

/-- Constant `Game::MAX_ENTITIES` (game.h:24). -/
def MAX_ENTITIES : Nat := 1024

/-- Function `push_entity` (game.h:147-159): the entity data when the call ends, and the
entity it returns or the failure that ends the process. The count is a `u32`; a store at an
index beyond the `MAX_ENTITIES` entries of the arrays is `out_of_bounds`. -/
def push_entity (entity_data : EntityData) (info : EntityInfo) :
    EntityData × Except Failure Nat :=
  if (entity_data.count + 1) % U32_SIZE > MAX_ENTITIES then
    (entity_data, .error (.fatal "already at max entity count of %u"))
  else
    let entity := entity_data.count
    let counted : EntityData := { entity_data with count := (entity_data.count + 1) % U32_SIZE }
    if entity < MAX_ENTITIES then
      ({ counted with
         transform := Function.update counted.transform entity info.transform
         mesh := Function.update counted.mesh entity info.mesh
         pipeline := Function.update counted.pipeline entity info.pipeline },
       .ok entity)
    else
      (counted, .error .out_of_bounds)

/-- Record `Pencil` (game.h:18-21): a `u32` color and an `s32` scale. -/
structure Pencil where
  color : Nat
  scale : Int
deriving DecidableEq

/-- Member `display` of `Game` (game.h:60-65): `data` holds the `u32` pixels the pointer
points to. -/
structure Display where
  data : List Nat
  size : Nat
  width : Nat
  height : Nat
deriving DecidableEq

/-- The `u32` that four bytes form in memory, lowest byte first. -/
def u32_of_bytes (b0 b1 b2 b3 : Nat) : Nat :=
  b0 + 256 * b1 + 65536 * b2 + 16777216 * b3

/-- Function `clear_display` (game.h:183-185): `memset` converts its value to
`unsigned char` and stores it in each of the `size * sizeof(u32)` bytes, so each of the first
`size` pixels becomes the `u32` of four such bytes. A buffer shorter than `size` pixels is an
`access_violation`. -/
def clear_display (display : Display) (color : Nat) : Except Failure Display :=
  if display.size ≤ display.data.length then
    .ok
      { display with
        data :=
          List.replicate display.size
              (u32_of_bytes (color % 256) (color % 256) (color % 256) (color % 256)) ++
            display.data.drop display.size }
  else
    .error .access_violation

/-- Conversion of an integer to `s32`, modulo 2^32. -/
def s32 (n : Int) : Int :=
  (n + 2147483648) % 4294967296 - 2147483648

/-- The values a loop `for (s32 n = -(scale - 1); n < scale; ++n)` of `draw_point` gives its
variable, in turn. -/
def pencil_offsets (scale : Int) : List Int :=
  (List.range (scale - s32 (-(s32 (scale - 1)))).toNat).map
    (fun (k : Nat) => s32 (-(s32 (scale - 1))) + (k : Int))

/-- Body of the loops of `draw_point` (game.h:231-238) for the offsets `nx`, `ny`. The sums
`x + nx`, `y + ny` are taken in `u32` and converted to `s32`; the index is a `u32`. A store
beyond the pixels of the buffer is an `access_violation`. -/
def draw_pixel (display : Display) (x y : Nat) (p : Pencil) (ny nx : Int) :
    Except Failure Display :=
  let pixel_x : Int := s32 ((x : Int) + nx)
  let pixel_y : Int := s32 ((y : Int) + ny)
  if pixel_x ≥ 0 ∧ pixel_x.toNat < display.width ∧
      pixel_y ≥ 0 ∧ pixel_y.toNat < display.height then
    let index := (pixel_y.toNat * display.width + pixel_x.toNat) % U32_SIZE
    if index < display.data.length then
      .ok { display with data := display.data.set index p.color }
    else
      .error .access_violation
  else
    .ok display

/-- The inner loop of `draw_point` for one `ny`, over the values of `nx` that are left. -/
def draw_row (x y : Nat) (p : Pencil) (ny : Int) : Display → List Int → Except Failure Display
  | display, [] => .ok display
  | display, nx :: rest =>
    match draw_pixel display x y p ny nx with
    | .error e => .error e
    | .ok drawn => draw_row x y p ny drawn rest

/-- The outer loop of `draw_point`, over the values of `ny` that are left. -/
def draw_rows (x y : Nat) (p : Pencil) : Display → List Int → Except Failure Display
  | display, [] => .ok display
  | display, ny :: rest =>
    match draw_row x y p ny display (pencil_offsets p.scale) with
    | .error e => .error e
    | .ok drawn => draw_rows x y p drawn rest

/-- Function `draw_point` (game.h:228-240). -/
def draw_point (display : Display) (x y : Nat) (p : Pencil) : Except Failure Display :=
  draw_rows x y p display (pencil_offsets p.scale)

/-- Invariant of the display as `create_display` (game.h:187-193) sets it up when
`width * height` is a `u32` value: the buffer holds `size = width * height` pixels. -/
def display_ok (display : Display) : Prop :=
  display.size = display.width * display.height ∧ display.data.length = display.size ∧
    display.size < U32_SIZE

/-- The pixel index `i` is the one the loop body of `draw_point` stores to for the offsets
`ny`, `nx`: the condition of the body holds and `i` is the index it computes. -/
def pencil_hits (display : Display) (x y : Nat) (ny nx : Int) (i : Nat) : Prop :=
  s32 ((x : Int) + nx) ≥ 0 ∧ (s32 ((x : Int) + nx)).toNat < display.width ∧
    s32 ((y : Int) + ny) ≥ 0 ∧ (s32 ((y : Int) + ny)).toNat < display.height ∧
    i = (s32 ((y : Int) + ny)).toNat * display.width + (s32 ((x : Int) + nx)).toNat

/-! ### Upload of mesh data (`graphics.h`) -/

/-- Constant `VK_COMMAND_BUFFER_USAGE_ONE_TIME_SUBMIT_BIT` of Vulkan. -/
def VK_COMMAND_BUFFER_USAGE_ONE_TIME_SUBMIT_BIT : Nat := 1

/-- Function `begin_temp_cmd_buf` (vtk.h:1138-1144); the result of the call is not checked. -/
def begin_temp_cmd_buf (device : Device) (cmd_buf : Nat) : Device :=
  { device with
    calls :=
      device.calls ++
        [.vkBeginCommandBuffer cmd_buf VK_COMMAND_BUFFER_USAGE_ONE_TIME_SUBMIT_BIT] }

/-- Function `submit_temp_cmd_buf` (vtk.h:1146-1154); `submit_result` is what `vkQueueSubmit`
returns, the only result that is checked. -/
def submit_temp_cmd_buf (device : Device) (cmd_buf queue : Nat) (submit_result : Int) :
    Except Failure Device :=
  match (validate submit_result "failed to submit temp command buffer").2 with
  | some e => .error e
  | none =>
    .ok
      { device with
        calls :=
          device.calls ++
            [.vkEndCommandBuffer cmd_buf, .vkQueueSubmit queue [cmd_buf] VK_NULL_HANDLE,
             .vkQueueWaitIdle queue] }

/-- The four bytes of a `u32` in memory, lowest byte first. -/
def bytes_of_u32 (n : Nat) : List Byte :=
  [⟨n % 256, Nat.mod_lt _ (by decide)⟩, ⟨n / 256 % 256, Nat.mod_lt _ (by decide)⟩,
   ⟨n / 65536 % 256, Nat.mod_lt _ (by decide)⟩, ⟨n / 16777216 % 256, Nat.mod_lt _ (by decide)⟩]

/-- Size of a `Vertex`: five `f32`. -/
def SIZEOF_VERTEX : Nat := 20

/-- Size of a `u32` index. -/
def SIZEOF_INDEX : Nat := 4

/-- The bytes of a `Vertex` in memory: position, then uv. -/
def bytes_of_vertex (vertex : Vertex) : List Byte :=
  bytes_of_u32 vertex.position.1 ++ bytes_of_u32 vertex.position.2.1 ++
    bytes_of_u32 vertex.position.2.2 ++ bytes_of_u32 vertex.uv.1 ++ bytes_of_u32 vertex.uv.2

/-- The bytes at `mesh->vertexes->data`. -/
def bytes_of_vertexes : List Vertex → List Byte
  | [] => []
  | vertex :: rest => bytes_of_vertex vertex ++ bytes_of_vertexes rest

/-- The bytes at `mesh->indexes->data`. -/
def bytes_of_indexes : List Nat → List Byte
  | [] => []
  | index :: rest => bytes_of_u32 index ++ bytes_of_indexes rest

/-- Function `push_mesh_data` (graphics.h:877-886) on the transfer state, the graphics queue
and the two shared arrays of `mesh_data`: the mesh with its offsets, a `u32` each, the arrays
and the transfer state after the upload. `fuel` is the fuel of each `push`; `submit_result` is
what `vkQueueSubmit` returns. -/
def push_mesh_data (fuel : Nat) (gfx : Graphics) (queue_graphics : Nat) (mesh_data : MeshData)
    (mesh : Mesh) (submit_result : Int) : Except Failure (Mesh × MeshData × Graphics) :=
  let placed : Mesh :=
    { mesh with
      vertex_offset := mesh_data.vertexes.count % U32_SIZE
      index_offset := mesh_data.indexes.count % U32_SIZE }
  let cleared : Graphics :=
    { gfx with gfx_mem := { gfx.gfx_mem with staging := clear gfx.gfx_mem.staging } }
  let begun : Graphics :=
    { cleared with device := begin_temp_cmd_buf cleared.device cleared.temp_cmd_buf }
  match push fuel begun mesh_data.vertexes SIZEOF_VERTEX (bytes_of_vertexes mesh.vertexes.data)
      mesh.vertexes.count with
  | .error e => .error e
  | .ok (_, vertexes, pushed) =>
    match push fuel pushed mesh_data.indexes SIZEOF_INDEX (bytes_of_indexes mesh.indexes.data)
        mesh.indexes.count with
    | .error e => .error e
    | .ok (_, indexes, pushed_both) =>
      match submit_temp_cmd_buf pushed_both.device pushed_both.temp_cmd_buf queue_graphics
          submit_result with
      | .error e => .error e
      | .ok device =>
        .ok (placed, { vertexes := vertexes, indexes := indexes },
             { pushed_both with device := device })

/-- The uploads of `create_meshes` (game.h:129-131): `push_mesh_data` for each mesh in turn,
each with the result of its `vkQueueSubmit`. -/
def push_mesh_datas (fuel : Nat) (queue_graphics : Nat) :
    Graphics → MeshData → List (Mesh × Int) → Except Failure (List Mesh × MeshData × Graphics)
  | gfx, mesh_data, [] => .ok ([], mesh_data, gfx)
  | gfx, mesh_data, (mesh, submit_result) :: rest =>
    match push_mesh_data fuel gfx queue_graphics mesh_data mesh submit_result with
    | .error e => .error e
    | .ok (placed, mesh_data', gfx') =>
      match push_mesh_datas fuel queue_graphics gfx' mesh_data' rest with
      | .error e => .error e
      | .ok (placed_rest, mesh_data'', gfx'') => .ok (placed :: placed_rest, mesh_data'', gfx'')

/-- The offsets the specification gives to meshes uploaded one after another: each mesh starts
where the previous one ends, the first at the given offsets. -/
def place_meshes (vertex_offset index_offset : Nat) : List Mesh → List Mesh
  | [] => []
  | mesh :: rest =>
    { mesh with vertex_offset := vertex_offset, index_offset := index_offset } ::
      place_meshes (vertex_offset + mesh.vertexes.count) (index_offset + mesh.indexes.count) rest

/-! ### Selection of the physical device (`vtk.h`) -/

/-- Record `QueueFamilyIndexes` (vtk.h:48-51). -/
structure QueueFamilyIndexes where
  graphics : Nat
  present : Nat
deriving DecidableEq

/-- What Vulkan reports about one queue family of a device: the `queueFlags` of its
`VkQueueFamilyProperties` and the `VkBool32` that `vkGetPhysicalDeviceSurfaceSupportKHR`
writes for the surface. -/
structure QueueFamilyReport where
  queueFlags : Nat
  present_supported : Nat
deriving DecidableEq

/-- What the Vulkan queries of `create_physical_device` report about one enumerated device:
its handle, its queue families, the members of `VkPhysicalDeviceProperties` that are read, its
features (the `VkBool32` members of `VkPhysicalDeviceFeatures` in order), its memory
properties and the `optimalTilingFeatures` of each format. -/
structure PhysicalDeviceReport where
  handle : Nat
  queue_families : List QueueFamilyReport
  deviceType : Nat
  minUniformBufferOffsetAlignment : Nat
  maxPushConstantsSize : Nat
  features : List Nat
  mem_properties : VkPhysicalDeviceMemoryProperties
  optimal_tiling_features : Nat → Nat

/-- Record `PhysicalDevice` (vtk.h:53-64). -/
structure PhysicalDevice where
  handle : Nat
  queue_family_idxs : QueueFamilyIndexes
  type : Nat
  min_uniform_buffer_offset_alignment : Nat
  max_push_constant_size : Nat
  features : List Nat
  mem_properties : VkPhysicalDeviceMemoryProperties
  depth_image_format : Nat
deriving DecidableEq

/-- Constant `VK_QUEUE_GRAPHICS_BIT` of Vulkan. -/
def VK_QUEUE_GRAPHICS_BIT : Nat := 1

/-- Constant `VK_PHYSICAL_DEVICE_TYPE_INTEGRATED_GPU` of Vulkan. -/
def VK_PHYSICAL_DEVICE_TYPE_INTEGRATED_GPU : Nat := 1

/-- Constant `VK_PHYSICAL_DEVICE_TYPE_DISCRETE_GPU` of Vulkan. -/
def VK_PHYSICAL_DEVICE_TYPE_DISCRETE_GPU : Nat := 2

/-- Constant `VK_PHYSICAL_DEVICE_TYPE_CPU` of Vulkan. -/
def VK_PHYSICAL_DEVICE_TYPE_CPU : Nat := 4

/-- Constant `VK_FORMAT_FEATURE_DEPTH_STENCIL_ATTACHMENT_BIT` of Vulkan. -/
def VK_FORMAT_FEATURE_DEPTH_STENCIL_ATTACHMENT_BIT : Nat := 512

/-- Table `DEPTH_IMAGE_FORMATS` of `find_depth_image_format` (vtk.h:210-216):
`VK_FORMAT_D32_SFLOAT_S8_UINT`, `VK_FORMAT_D32_SFLOAT`, `VK_FORMAT_D24_UNORM_S8_UINT`,
`VK_FORMAT_D16_UNORM_S8_UINT`, `VK_FORMAT_D16_UNORM`. -/
def DEPTH_IMAGE_FORMATS : List Nat := [130, 126, 129, 128, 124]

/-- The loop of `find_depth_image_format` (vtk.h:221-228) over the formats that are left. -/
def find_depth_image_format_loop (optimal_tiling_features : Nat → Nat) :
    List Nat → Except Failure Nat
  | [] =>
    .error
      (.fatal ("failed to find physical device depth format that supports the " ++
        "depth-stencil attachment feature"))
  | depth_img_fmt :: rest =>
    if optimal_tiling_features depth_img_fmt &&& VK_FORMAT_FEATURE_DEPTH_STENCIL_ATTACHMENT_BIT
        = VK_FORMAT_FEATURE_DEPTH_STENCIL_ATTACHMENT_BIT then
      .ok depth_img_fmt
    else
      find_depth_image_format_loop optimal_tiling_features rest

/-- Function `find_depth_image_format` (vtk.h:209-231). -/
def find_depth_image_format (optimal_tiling_features : Nat → Nat) : Except Failure Nat :=
  find_depth_image_format_loop optimal_tiling_features DEPTH_IMAGE_FORMATS

/-- The loop of `find_queue_family_idxs` (vtk.h:331-342) from index `queue_family_idx` over
the queue families that are left. -/
def find_queue_family_idxs_loop :
    QueueFamilyIndexes → Nat → List QueueFamilyReport → QueueFamilyIndexes
  | queue_family_idxs, _, [] => queue_family_idxs
  | queue_family_idxs, queue_family_idx, queue_family_props :: rest =>
    let with_graphics : QueueFamilyIndexes :=
      if queue_family_props.queueFlags &&& VK_QUEUE_GRAPHICS_BIT ≠ 0 then
        { queue_family_idxs with graphics := queue_family_idx }
      else queue_family_idxs
    let with_present : QueueFamilyIndexes :=
      if queue_family_props.present_supported = VK_TRUE then
        { with_graphics with present := queue_family_idx }
      else with_graphics
    find_queue_family_idxs_loop with_present (queue_family_idx + 1) rest

/-- Function `find_queue_family_idxs` (vtk.h:323-345) on the queue families the device
reports. -/
def find_queue_family_idxs (queue_families : List QueueFamilyReport) :
    Except Failure QueueFamilyIndexes :=
  match load_vk_objects queue_families with
  | .error e => .error e
  | .ok queue_family_props_array =>
    .ok (find_queue_family_idxs_loop { graphics := U32_MAX, present := U32_MAX } 0
      queue_family_props_array)

/-- Body of the first loop of `create_physical_device` (vtk.h:400-416) for one enumerated
device; the alignment is stored in a `u32`. -/
def load_physical_device (report : PhysicalDeviceReport) : Except Failure PhysicalDevice :=
  match find_queue_family_idxs report.queue_families with
  | .error e => .error e
  | .ok queue_family_idxs =>
    match find_depth_image_format report.optimal_tiling_features with
    | .error e => .error e
    | .ok depth_image_format =>
      .ok
        { handle := report.handle
          queue_family_idxs := queue_family_idxs
          type := report.deviceType
          min_uniform_buffer_offset_alignment :=
            report.minUniformBufferOffsetAlignment % U32_SIZE
          max_push_constant_size := report.maxPushConstantsSize
          features := report.features
          mem_properties := report.mem_properties
          depth_image_format := depth_image_format }

/-- The first loop of `create_physical_device` over the devices that are left. -/
def load_physical_devices : List PhysicalDeviceReport → Except Failure (List PhysicalDevice)
  | [] => .ok []
  | report :: rest =>
    match load_physical_device report with
    | .error e => .error e
    | .ok physical_device =>
      match load_physical_devices rest with
      | .error e => .error e
      | .ok physical_devices => .ok (physical_device :: physical_devices)

/-- The second loop of `create_physical_device` (vtk.h:419-430): the discrete and the
integrated devices, each in enumeration order. Both arrays have the capacity of the device
count, so no push fails. -/
def sort_physical_devices :
    List PhysicalDevice → List PhysicalDevice × List PhysicalDevice
  | [] => ([], [])
  | curr_physical_device :: rest =>
    if curr_physical_device.type = VK_PHYSICAL_DEVICE_TYPE_DISCRETE_GPU then
      (curr_physical_device :: (sort_physical_devices rest).1, (sort_physical_devices rest).2)
    else if curr_physical_device.type = VK_PHYSICAL_DEVICE_TYPE_INTEGRATED_GPU then
      ((sort_physical_devices rest).1, curr_physical_device :: (sort_physical_devices rest).2)
    else
      sort_physical_devices rest

/-- The feature loop of `find_suitable_physical_device` (vtk.h:369-374) over the requested
features that are left. `supported` stands for `physical_device_feature_supported` of
`vtk/device_features.h`, which is not under src/. -/
def push_unsupported_features (supported : Nat → List Nat → Bool) (features : List Nat) :
    CtkArray Nat → List Nat → Except Failure (CtkArray Nat)
  | unsupported_features, [] => .ok unsupported_features
  | unsupported_features, requested_feature :: rest =>
    if ¬ supported requested_feature features then
      match unsupported_features.push requested_feature with
      | .error e => .error e
      | .ok pushed => push_unsupported_features supported features pushed rest
    else
      push_unsupported_features supported features unsupported_features rest

/-- The device loop of `find_suitable_physical_device` (vtk.h:357-385) over the devices that
are left; `unsupported_features` is cleared for every device. -/
def find_suitable_physical_device_loop (supported : Nat → List Nat → Bool)
    (requested_features : Option (List Nat)) (unsupported_features : CtkArray Nat) :
    List PhysicalDevice → Except Failure (Option PhysicalDevice)
  | [] => .ok none
  | physical_device :: rest =>
    let has_required_queue_families : Bool :=
      physical_device.queue_family_idxs.graphics ≠ U32_MAX ∧
        physical_device.queue_family_idxs.present ≠ U32_MAX
    match requested_features with
    | none =>
      if has_required_queue_families then .ok (some physical_device)
      else
        find_suitable_physical_device_loop supported requested_features unsupported_features
          rest
    | some requested =>
      match push_unsupported_features supported physical_device.features
          { unsupported_features with data := [] } requested with
      | .error e => .error e
      | .ok unsupported =>
        if has_required_queue_families ∧ ¬ unsupported.count > 0 then
          .ok (some physical_device)
        else
          find_suitable_physical_device_loop supported requested_features unsupported rest

/-- Function `find_suitable_physical_device` (vtk.h:347-388); a null `requested_features` is
`none`, and `requested_feature_count` is the length of the list. -/
def find_suitable_physical_device (supported : Nat → List Nat → Bool)
    (physical_devices : List PhysicalDevice) (requested_features : Option (List Nat)) :
    Except Failure (Option PhysicalDevice) :=
  find_suitable_physical_device_loop supported requested_features
    (create_array (match requested_features with
      | none => 0
      | some requested => requested.length))
    physical_devices

/-- Function `create_physical_device` (vtk.h:390-446) on the devices that
`vkEnumeratePhysicalDevices` reports. -/
def create_physical_device (supported : Nat → List Nat → Bool)
    (reports : List PhysicalDeviceReport) (requested_features : Option (List Nat)) :
    Except Failure PhysicalDevice :=
  match load_vk_objects reports with
  | .error e => .error e
  | .ok vk_physical_devices =>
    match load_physical_devices vk_physical_devices with
    | .error e => .error e
    | .ok physical_devices =>
      match find_suitable_physical_device supported
          (sort_physical_devices physical_devices).1 requested_features with
      | .error e => .error e
      | .ok (some suitable_device) => .ok suitable_device
      | .ok none =>
        match find_suitable_physical_device supported
            (sort_physical_devices physical_devices).2 requested_features with
        | .error e => .error e
        | .ok (some suitable_device) => .ok suitable_device
        | .ok none => .error (.fatal "failed to find any suitable device")

/-- The suitability of the specification for an enumerated device: a graphics queue family
and a present queue family were found, and every requested feature is supported. -/
def device_suitable (supported : Nat → List Nat → Bool) (requested_features : Option (List Nat))
    (report : PhysicalDeviceReport) : Bool :=
  report.queue_families.any (fun family => family.queueFlags &&& VK_QUEUE_GRAPHICS_BIT ≠ 0) &&
    report.queue_families.any (fun family => family.present_supported = VK_TRUE) &&
    (match requested_features with
     | none => true
     | some requested => requested.all (fun feature => supported feature report.features))

/-- The test of `find_suitable_physical_device` on a loaded device: both queue family indexes
differ from `U32_MAX` and no requested feature is unsupported. -/
def physical_device_passes (supported : Nat → List Nat → Bool)
    (requested_features : Option (List Nat)) (physical_device : PhysicalDevice) : Bool :=
  decide (physical_device.queue_family_idxs.graphics ≠ U32_MAX ∧
      physical_device.queue_family_idxs.present ≠ U32_MAX) &&
    (match requested_features with
     | none => true
     | some requested => requested.all (fun feature => supported feature physical_device.features))

/-- The conditions under which the queries on an enumerated device all return: it reports at
least one queue family (their count is a `u32`) and one of the five depth formats has the
depth-stencil attachment feature. -/
def report_loads (report : PhysicalDeviceReport) : Prop :=
  report.queue_families ≠ [] ∧ report.queue_families.length < U32_SIZE ∧
    ∃ depth_img_fmt ∈ DEPTH_IMAGE_FORMATS,
      report.optimal_tiling_features depth_img_fmt &&&
          VK_FORMAT_FEATURE_DEPTH_STENCIL_ATTACHMENT_BIT
        = VK_FORMAT_FEATURE_DEPTH_STENCIL_ATTACHMENT_BIT

/-! ### Concrete inputs of the device, swapchain and game evaluations -/

/-- A barrier description that hands an image over from queue family 0 to queue family 1. -/
def barrier_0_to_1 : ImageMemoryBarrier :=
  { src := { layout := 7, stage := 4096, access := 4096, queue_family_index := 0 }
    dst := { layout := 5, stage := 128, access := 32, queue_family_index := 1 }
    subresource_range :=
      { aspectMask := 1, baseMipLevel := 0, levelCount := 1, baseArrayLayer := 0,
        layerCount := 1 } }

/-- An image with handle 300. -/
def image_300 : Image := { handle := 300, view := 301, mem := 302, extent := (2, 2, 1) }

/-- A display of 2 by 2 black pixels. -/
def display_2x2 : Display := { data := [0, 0, 0, 0], size := 4, width := 2, height := 2 }

/-- The entity data of a new game: no entity; every slot holds zeroes. -/
def entity_data_0 : EntityData := { entity_data_1 with count := 0 }

/-- Entity data with every one of the `MAX_ENTITIES` slots taken. -/
def entity_data_full : EntityData := { entity_data_1 with count := MAX_ENTITIES }

/-- The first entity of `create_entities` (game.h:162-170), with the mesh `tri` and the test
pipeline; the scale is `(16.0f, 9.0f, 1.0f)` as bit patterns. -/
def entity_info_tri : EntityInfo :=
  { transform :=
      { position := (0, 0, 0), rotation := (0, 0, 0),
        scale := (1098907648, 1091567616, 1065353216) }
    mesh :=
      { vertexes := create_array 16, indexes := { data := [0, 1, 2], size := 64 },
        vertex_offset := 0, index_offset := 0 }
    pipeline := { address := 1, handle := 31, layout := 32 } }

/-- Surface capabilities with as many images at least as at most: 3. -/
def capabilities_3_3 : VkSurfaceCapabilitiesKHR :=
  { minImageCount := 3, maxImageCount := 3, currentExtent := (1600, 900), currentTransform := 1 }

/-- Surface capabilities with a minimum of 2 images and no maximum. -/
def capabilities_2_0 : VkSurfaceCapabilitiesKHR :=
  { minImageCount := 2, maxImageCount := 0, currentExtent := (1600, 900), currentTransform := 1 }

/-- Memory properties with three memory types in use: device-local (flags 1), host-visible and
coherent (flags 6), and all three (flags 7); the other 29 entries are zero. -/
def mem_properties_3 : VkPhysicalDeviceMemoryProperties :=
  { memoryTypeCount := 3
    memoryTypes :=
      [{ propertyFlags := 1, heapIndex := 0 }, { propertyFlags := 6, heapIndex := 1 },
       { propertyFlags := 7, heapIndex := 0 }] ++
        List.replicate 29 { propertyFlags := 0, heapIndex := 0 } }

/-- A requirement that allows the memory types 1 and 2 (`memoryTypeBits = 6`). -/
def mem_reqs_types_1_2 : VkMemoryRequirements :=
  { size := 256, alignment := 16, memoryTypeBits := 6 }

/-- A device whose memory objects all hold 256 zero bytes and that has received no call. -/
def device_256 : Device := { memory := fun _ => List.replicate 256 0, calls := [] }

/-- A host-visible buffer of 256 bytes. -/
def host_buffer_256 : Buffer := { handle := 1, mem := 7, size := 256 }

/-- A device-local buffer of 256 bytes. -/
def device_buffer_256 : Buffer := { handle := 2, mem := 8, size := 256 }

/-- Graphics state over `device_256` with an empty staging array of 128 bytes. -/
def gfx_256 : Graphics :=
  { device := device_256
    temp_cmd_buf := 5
    gfx_mem :=
      { host :=
          { mem := { buffer := host_buffer_256, offset := 0, size := 256, type := MemoryType.HOST }
            count := 128 }
        device :=
          { mem :=
              { buffer := device_buffer_256, offset := 0, size := 256,
                type := MemoryType.DEVICE }
            count := 224 }
        staging :=
          { mem := { buffer := host_buffer_256, offset := 0, size := 128, type := MemoryType.HOST }
            count := 0
            size := 128 } } }

/-- The shared arrays as `create_mesh_data` builds them, scaled to 8 vertexes and 16 indexes,
both empty and device-local. -/
def mesh_data_8_16 : MeshData :=
  { vertexes :=
      { mem :=
          { buffer := device_buffer_256, offset := 0, size := 160, type := MemoryType.DEVICE }
        count := 0
        size := 8 }
    indexes :=
      { mem :=
          { buffer := device_buffer_256, offset := 160, size := 64, type := MemoryType.DEVICE }
        count := 0
        size := 16 } }

/-- The mesh `tri` of `create_meshes` (game.h:87-99): three vertexes, three indexes; each
`f32` as its bit pattern. -/
def mesh_tri : Mesh :=
  { vertexes :=
      { data :=
          [{ position := (3204448256, 1056964608, 0), uv := (0, 0) },
           { position := (2147483648, 3204448256, 0), uv := (1056964608, 1065353216) },
           { position := (1056964608, 1056964608, 0), uv := (1065353216, 1065353216) }]
        size := 16 }
    indexes := { data := [0, 1, 2], size := 64 }
    vertex_offset := 0
    index_offset := 0 }

/-- The mesh `quad` of `create_meshes` (game.h:68-85): four vertexes, six indexes. -/
def mesh_quad : Mesh :=
  { vertexes :=
      { data :=
          [{ position := (3204448256, 1056964608, 0), uv := (0, 0) },
           { position := (3204448256, 3204448256, 0), uv := (0, 1065353216) },
           { position := (1056964608, 3204448256, 0), uv := (1065353216, 1065353216) },
           { position := (1056964608, 1056964608, 0), uv := (1065353216, 0) }]
        size := 16 }
    indexes := { data := [0, 1, 2, 0, 2, 3], size := 64 }
    vertex_offset := 0
    index_offset := 0 }

/-- The feature test of the concrete evaluations: feature `f` is supported when entry `f` of
the features is `VK_TRUE`. -/
def feature_is_true (feature : Nat) (features : List Nat) : Bool :=
  decide (features[feature]? = some VK_TRUE)

/-- A discrete GPU with one queue family that has graphics and present support, the feature 0
and the depth format `VK_FORMAT_D32_SFLOAT`. -/
def report_discrete : PhysicalDeviceReport :=
  { handle := 401
    queue_families := [{ queueFlags := 15, present_supported := 1 }]
    deviceType := VK_PHYSICAL_DEVICE_TYPE_DISCRETE_GPU
    minUniformBufferOffsetAlignment := 256
    maxPushConstantsSize := 128
    features := [1, 0]
    mem_properties := mem_properties_3
    optimal_tiling_features := fun format => if format = 126 then 512 else 0 }

/-- An integrated GPU like `report_discrete`. -/
def report_integrated : PhysicalDeviceReport :=
  { report_discrete with handle := 402, deviceType := VK_PHYSICAL_DEVICE_TYPE_INTEGRATED_GPU }

/-- A CPU device with a compute-only queue family and no depth format that can be a
depth-stencil attachment. -/
def report_cpu_no_depth : PhysicalDeviceReport :=
  { handle := 403
    queue_families := [{ queueFlags := 2, present_supported := 0 }]
    deviceType := VK_PHYSICAL_DEVICE_TYPE_CPU
    minUniformBufferOffsetAlignment := 64
    maxPushConstantsSize := 128
    features := [0, 0]
    mem_properties := mem_properties_3
    optimal_tiling_features := fun _ => 0 }

/-! ## Arithmetic of the allocator -/

theorem u64_of_lt {n : Nat} (h : n < U64_SIZE) : u64 n = n := Nat.mod_eq_of_lt h

theorem u64_lt (n : Nat) : u64 n < U64_SIZE := Nat.mod_lt _ (by decide)

theorem sub64_of_le {a b : Nat} (hb : b ≤ a) (ha : a < U64_SIZE) : sub64 a b = a - b := by
  unfold sub64
  have hb' : b % U64_SIZE = b := Nat.mod_eq_of_lt (lt_of_le_of_lt hb ha)
  rw [hb']
  have : a + U64_SIZE - b = (a - b) + U64_SIZE := by omega
  rw [this, Nat.add_mod_right]
  exact Nat.mod_eq_of_lt (by omega)

/-- The aligned offset is at or above `count`. -/
theorem align_offset_ge (count align : Nat) : count ≤ align_offset count align := by
  unfold align_offset; omega

theorem align_offset_mod (count align : Nat) (h : 0 < align) :
    align_offset count align % align = 0 := by
  unfold align_offset
  split
  · have hlt : count % align < align := Nat.mod_lt _ h
    have hdm := Nat.div_add_mod count align
    have : count + (align - count % align) = align * (count / align + 1) := by
      rw [Nat.mul_add, Nat.mul_one]; omega
    rw [this]; exact Nat.mul_mod_right _ _
  · rename_i hz
    simpa using hz

theorem align_offset_least (count align o : Nat) (h : 0 < align) (hge : count ≤ o)
    (hmod : o % align = 0) : align_offset count align ≤ o := by
  unfold align_offset
  split
  · rename_i hne
    have hlt : count % align < align := Nat.mod_lt _ h
    have hdm := Nat.div_add_mod count align
    have ho := Nat.div_add_mod o align
    rw [hmod, Nat.add_zero] at ho
    have hdiv : count / align ≤ o / align := Nat.div_le_div_right hge
    rcases Nat.lt_or_ge (count / align) (o / align) with hlt2 | hge2
    · have : align * (count / align + 1) ≤ align * (o / align) := Nat.mul_le_mul_left _ hlt2
      rw [Nat.mul_add, Nat.mul_one] at this
      omega
    · have heq : count / align = o / align := le_antisymm hdiv hge2
      rw [heq] at hdm
      omega
  · omega

/-- The wrapped computation of `allocate` agrees with `align_offset` whenever the latter is
representable. -/
theorem allocate_offset_eq (count align : Nat) (h : 0 < align)
    (hrep : align_offset count align < U64_SIZE) :
    u64 (count + (if count % align ≠ 0 then sub64 align (count % align) else 0))
      = align_offset count align := by
  have hlt : count % align < align := Nat.mod_lt _ h
  unfold align_offset at hrep ⊢
  by_cases hz : count % align ≠ 0
  · simp only [if_pos hz] at hrep ⊢
    have hle : count % align ≤ count := Nat.mod_le _ _
    have ha : align < U64_SIZE := by omega
    rw [sub64_of_le (le_of_lt hlt) ha]
    exact u64_of_lt hrep
  · simp only [if_neg hz] at hrep ⊢
    exact u64_of_lt hrep

/-! ## Claims on `allocate` and `create_graphics_array` -/

theorem allocate_eq_of_fits (stack : GraphicsStack) (size align : Nat)
    (halign : 0 < align) (hrep : align_offset stack.count align + size < U64_SIZE) :
    allocate stack size align =
      if align_offset stack.count align + size > stack.mem.size then
        .error (.stack_overflow size align (align_offset stack.count align) stack.mem.size
          (sub64 (align_offset stack.count align + size) stack.mem.size))
      else
        .ok ({ buffer := stack.mem.buffer
               offset := align_offset stack.count align
               size := size
               type := stack.mem.type },
             { stack with count := align_offset stack.count align + size }) := by
  have hne : align ≠ 0 := Nat.pos_iff_ne_zero.mp halign
  have hoff := allocate_offset_eq stack.count align halign (by omega)
  unfold allocate
  rw [if_neg hne]
  simp only [hoff, u64_of_lt hrep]

/-- C1: for every stack with cursor `c` and capacity `C` and every request `(size, align)` with
`align > 0`, if `align_offset(c, align) + size <= C` then `allocate` succeeds, the cursor
afterwards is `align_offset(c, align) + size`, and the region has offset
`align_offset(c, align)`, size `size`, and the buffer and visibility type of the stack. -/
theorem allocate_succeeds_when_request_fits (stack : GraphicsStack) (size align : Nat)
    (halign : 0 < align) (hcap : stack.mem.size < U64_SIZE)
    (hfit : align_offset stack.count align + size ≤ stack.mem.size) :
    allocate stack size align =
      .ok ({ buffer := stack.mem.buffer
             offset := align_offset stack.count align
             size := size
             type := stack.mem.type },
           { mem := stack.mem, count := align_offset stack.count align + size }) := by
  rw [allocate_eq_of_fits stack size align halign (by omega), if_neg (by omega)]

/-- Witness of C1: 600 bytes aligned by 16 on the empty 1024-byte stack. -/
theorem allocate_succeeds_when_request_fits_witness :
    allocate stack_1024 600 16 =
      .ok ({ buffer := buffer_1024, offset := 0, size := 600, type := MemoryType.HOST },
           { mem := stack_1024.mem, count := 600 }) :=
  allocate_succeeds_when_request_fits stack_1024 600 16 (by decide) (by decide) (by decide)

/-- Where the sum `align_offset(c, align) + size` fits in 64 bits and exceeds the capacity,
`allocate` ends in its fatal error, reporting the excess. -/
theorem allocate_fails_when_request_exceeds (stack : GraphicsStack) (size align : Nat)
    (halign : 0 < align) (hrep : align_offset stack.count align + size < U64_SIZE)
    (hexc : align_offset stack.count align + size > stack.mem.size) :
    allocate stack size align =
      .error (.stack_overflow size align (align_offset stack.count align) stack.mem.size
        (align_offset stack.count align + size - stack.mem.size)) := by
  rw [allocate_eq_of_fits stack size align halign hrep, if_pos hexc,
    sub64_of_le (le_of_lt hexc) hrep]

/-- The scenario of the specification: on a stack of 1024 bytes, 600 bytes aligned by 16 are
granted and a further 500 bytes aligned by 16 are refused with a reported overflow of 84. -/
theorem allocate_scenario_overflow_84 :
    allocate stack_1024 600 16 =
      .ok ({ buffer := buffer_1024, offset := 0, size := 600, type := MemoryType.HOST },
           { stack_1024 with count := 600 }) ∧
    allocate { stack_1024 with count := 600 } 500 16 =
      .error (.stack_overflow 500 16 608 1024 84) := by
  constructor <;> rfl

/-- C2, evaluated at the failing input: on the 1024-byte stack, after 16 bytes were
allocated, a request of `2^64 - 16` bytes has `align_offset(c, align) + size = 2^64 > 1024`,
yet `allocate` returns a region and moves the cursor (to 0) instead of failing. -/
theorem allocate_accepts_request_beyond_capacity :
    allocate stack_1024 16 1 =
      .ok ({ buffer := buffer_1024, offset := 0, size := 16, type := MemoryType.HOST },
           { stack_1024 with count := 16 }) ∧
    align_offset 16 1 + (U64_SIZE - 16) > 1024 ∧
    allocate { stack_1024 with count := 16 } (U64_SIZE - 16) 1 =
      .ok ({ buffer := buffer_1024, offset := 16, size := U64_SIZE - 16,
             type := MemoryType.HOST },
           { stack_1024 with count := 0 }) := by
  refine ⟨rfl, by decide, rfl⟩

/-- C3, counterexample: on a stack of `2^64 - 1` bytes whose cursor is `2^64 - 1`, a request
aligned by 2 is given the offset 0, which is below the cursor. -/
theorem allocate_offset_wraps_below_cursor :
    allocate stack_max (U64_SIZE - 1) 1 =
      .ok ({ buffer := stack_max.mem.buffer, offset := 0, size := U64_SIZE - 1,
             type := MemoryType.HOST },
           { stack_max with count := U64_SIZE - 1 }) ∧
    allocate { stack_max with count := U64_SIZE - 1 } 0 2 =
      .ok ({ buffer := stack_max.mem.buffer, offset := 0, size := 0, type := MemoryType.HOST },
           { stack_max with count := 0 }) ∧
    ¬ (U64_SIZE - 1 ≤ 0) := by
  refine ⟨rfl, rfl, by decide⟩

/-- C3, amended: for every cursor `c` and every `align > 0` for which some 64-bit value at or
above `c` is a multiple of `align`, the offset `allocate` gives the new region is the least
`o` with `o >= c` and `o % align == 0`; it is `c` when `c` is already aligned. -/
theorem allocate_offset_is_least_aligned (stack stack' : GraphicsStack) (region : GraphicsMemory)
    (size align : Nat) (halign : 0 < align)
    (hrep : ∃ o, o < U64_SIZE ∧ stack.count ≤ o ∧ o % align = 0)
    (hok : allocate stack size align = .ok (region, stack')) :
    stack.count ≤ region.offset ∧ region.offset % align = 0 ∧
      (∀ o, stack.count ≤ o → o % align = 0 → region.offset ≤ o) ∧
      (stack.count % align = 0 → region.offset = stack.count) := by
  obtain ⟨o, holt, hoge, homod⟩ := hrep
  have hleast := align_offset_least stack.count align o halign hoge homod
  have hoff := allocate_offset_eq stack.count align halign (by omega)
  have hne : align ≠ 0 := Nat.pos_iff_ne_zero.mp halign
  unfold allocate at hok
  rw [if_neg hne] at hok
  simp only [hoff] at hok
  split at hok
  · exact absurd hok (by simp)
  · simp only [Except.ok.injEq, Prod.mk.injEq] at hok
    obtain ⟨hreg, -⟩ := hok
    subst hreg
    refine ⟨align_offset_ge _ _, align_offset_mod _ _ halign,
      fun o' h1 h2 => align_offset_least _ _ o' halign h1 h2, fun hz => ?_⟩
    show align_offset stack.count align = stack.count
    unfold align_offset
    rw [if_neg (by simpa using hz)]
    rfl

/-- Witness of the amended C3: cursor 600, alignment 16, offset 608. -/
theorem allocate_offset_is_least_aligned_witness :
    (600 : Nat) ≤ 608 ∧ 608 % 16 = 0 ∧
      (∀ o, 600 ≤ o → o % 16 = 0 → 608 ≤ o) ∧ (600 % 16 = 0 → 608 = 600) :=
  allocate_offset_is_least_aligned { stack_1024 with count := 600 }
    { stack_1024 with count := 708 }
    { buffer := buffer_1024, offset := 608, size := 100, type := MemoryType.HOST } 100 16
    (by decide) ⟨608, by decide, by decide, by decide⟩ rfl

theorem allocate_ok_inv {stack stack' : GraphicsStack} {size align : Nat}
    {region : GraphicsMemory} (h : allocate stack size align = .ok (region, stack')) :
    stack'.count ≤ stack.mem.size ∧ stack'.mem = stack.mem := by
  unfold allocate at h
  by_cases hz : align = 0
  · rw [if_pos hz] at h
    exact absurd h (by simp)
  · rw [if_neg hz] at h
    simp only at h
    generalize u64 (stack.count + _) = off at h
    by_cases hg : u64 (off + size) > stack.mem.size
    · rw [if_pos hg] at h
      exact absurd h (by simp)
    · rw [if_neg hg] at h
      simp only [Except.ok.injEq, Prod.mk.injEq] at h
      obtain ⟨-, hs⟩ := h
      subst hs
      exact ⟨Nat.le_of_not_gt hg, rfl⟩

theorem stack_after_count_le (stack : GraphicsStack) (request : Nat × Nat)
    (h : stack.count ≤ stack.mem.size) :
    (stack_after stack request).count ≤ (stack_after stack request).mem.size ∧
      (stack_after stack request).mem = stack.mem := by
  unfold stack_after
  split
  · rename_i r s' heq
    have hinv := allocate_ok_inv heq
    exact ⟨by rw [hinv.2]; exact hinv.1, hinv.2⟩
  · exact ⟨h, rfl⟩

theorem stack_after_all_count_le (requests : List (Nat × Nat)) :
    ∀ stack : GraphicsStack, stack.count ≤ stack.mem.size →
      (stack_after_all stack requests).count ≤ (stack_after_all stack requests).mem.size ∧
        (stack_after_all stack requests).mem = stack.mem := by
  induction requests with
  | nil => intro stack h; exact ⟨h, rfl⟩
  | cons r rest ih =>
    intro stack h
    have h1 := stack_after_count_le stack r h
    have h2 := ih (stack_after stack r) h1.1
    unfold stack_after_all at h2 ⊢
    rw [List.foldl_cons]
    exact ⟨h2.1, h2.2.trans h1.2⟩

/-- C4: starting from a stack made by `create_graphics_stack` (cursor 0), after every sequence
of `allocate` calls, successful or failing, with any sizes and alignments and with 64-bit
wrapping arithmetic, the cursor `count` is at most the size of the stack, which is still the
size `create_graphics_stack` gave it. -/
theorem stack_count_le_size (buffer : Buffer) (buffer_info : BufferInfo)
    (requests : List (Nat × Nat)) :
    (stack_after_all (create_graphics_stack buffer buffer_info) requests).count
        ≤ (stack_after_all (create_graphics_stack buffer buffer_info) requests).mem.size ∧
      (stack_after_all (create_graphics_stack buffer buffer_info) requests).mem.size
        = buffer_info.size := by
  have h := stack_after_all_count_le requests (create_graphics_stack buffer buffer_info)
    (Nat.zero_le _)
  exact ⟨h.1, by rw [h.2]; rfl⟩

/-- C5, evaluated at the failing input: on the 1024-byte stack the three calls
`allocate(16, 1)`, `allocate(2^64 - 16, 1)`, `allocate(16, 1)` all return. The second region
ends at `2^64`, beyond the 1024 bytes of the buffer, and sets the cursor back to 0; the third
region is `[0, 16)`, the same bytes as the first. -/
theorem allocate_regions_escape_and_overlap :
    allocate stack_1024 16 1 =
      .ok ({ buffer := buffer_1024, offset := 0, size := 16, type := MemoryType.HOST },
           { stack_1024 with count := 16 }) ∧
    allocate { stack_1024 with count := 16 } (U64_SIZE - 16) 1 =
      .ok ({ buffer := buffer_1024, offset := 16, size := U64_SIZE - 16,
             type := MemoryType.HOST },
           { stack_1024 with count := 0 }) ∧
    allocate { stack_1024 with count := 0 } 16 1 =
      .ok ({ buffer := buffer_1024, offset := 0, size := 16, type := MemoryType.HOST },
           { stack_1024 with count := 16 }) ∧
    ¬ (16 + (U64_SIZE - 16) ≤ stack_1024.mem.size) := by
  refine ⟨rfl, rfl, rfl, by decide⟩

/-- C6: `create_graphics_array<T>(stack, capacity, align)` is `allocate(stack,
capacity * sizeof(T), align)` on the stack, the byte size being the 64-bit product: it fails
when that call fails, with the same error, and otherwise leaves the stack as that call does
and returns the array whose region is the allocation, whose count is 0 and whose capacity
`size` is `capacity`. -/
theorem create_graphics_array_is_allocate (sizeof_type : Nat) (stack : GraphicsStack)
    (capacity align : Nat) :
    create_graphics_array sizeof_type stack capacity align =
      (allocate stack (u64 (capacity * sizeof_type)) align).map
        (fun r => ({ mem := r.1, count := 0, size := capacity }, r.2)) := by
  unfold create_graphics_array
  cases allocate stack (u64 (capacity * sizeof_type)) align with
  | error e => rfl
  | ok r => rfl

/-! ## Byte-level effect of a write -/

theorem copy_bytes_length (contents data : List Byte) (offset size : Nat)
    (hrange : offset + size ≤ contents.length) (hdata : size ≤ data.length) :
    (copy_bytes contents offset size data).length = contents.length := by
  unfold copy_bytes
  simp only [List.length_append, List.length_take, List.length_drop]
  omega

theorem read_bytes_copy_bytes (contents data : List Byte) (offset size : Nat)
    (hrange : offset + size ≤ contents.length) (hdata : size ≤ data.length) :
    read_bytes (copy_bytes contents offset size data) offset size = data.take size := by
  unfold read_bytes copy_bytes
  have h1 : (contents.take offset).length = offset := by
    rw [List.length_take]; omega
  have h2 : (data.take size).length = size := by
    rw [List.length_take]; omega
  rw [List.append_assoc, List.drop_append_eq_append_drop, h1, Nat.sub_self, List.drop_zero,
    List.drop_of_length_le (le_of_eq h1), List.nil_append,
    List.take_append_eq_append_take, h2, Nat.sub_self, List.take_zero, List.append_nil,
    List.take_of_length_le (le_of_eq h2)]

theorem getElem?_copy_bytes_outside (contents data : List Byte) (offset size j : Nat)
    (hrange : offset + size ≤ contents.length) (hdata : size ≤ data.length)
    (hj : j < offset ∨ offset + size ≤ j) :
    (copy_bytes contents offset size data)[j]? = contents[j]? := by
  unfold copy_bytes
  have h1 : (contents.take offset).length = offset := by
    rw [List.length_take]; omega
  have h2 : (data.take size).length = size := by
    rw [List.length_take]; omega
  rcases hj with hj | hj
  · rw [List.append_assoc, List.getElem?_append_left (by omega), List.getElem?_take_of_lt hj]
  · rw [List.getElem?_append_right (by simp only [List.length_append, h1, h2]; omega)]
    simp only [List.length_append, h1, h2, List.getElem?_drop]
    congr 1
    omega

/-! ## Claims on `push` -/

/-- Unfolding of `push` on a host-visible array: the guard, then one `write_to_buffer`. -/
theorem push_host_def (fuel : Nat) (gfx : Graphics) (array : GraphicsArray) (sizeof_type : Nat)
    (data : List Byte) (count : Nat) (hty : array.mem.type = MemoryType.HOST) :
    push (fuel + 1) gfx array sizeof_type data count =
      if u64 (array.count + count) > array.size then
        .error (.array_overflow count (sub64 (u64 (array.count + count)) array.size))
      else
        match write_to_buffer gfx.device
            { buffer := array.mem.buffer
              offset := count_offset sizeof_type array
              data := data
              size := u64 (count * sizeof_type) } with
        | .error e => .error e
        | .ok device' =>
          .ok (array.count, { array with count := u64 (array.count + count) },
               { gfx with device := device' }) := by
  rw [push]
  simp only [hty]

/-- Unfolding of `push` on a device-local array: the guard, the push onto the staging array,
then one `copy_to_buffer`. -/
theorem push_device_def (fuel : Nat) (gfx : Graphics) (array : GraphicsArray) (sizeof_type : Nat)
    (data : List Byte) (count : Nat) (hty : array.mem.type = MemoryType.DEVICE) :
    push (fuel + 1) gfx array sizeof_type data count =
      if u64 (array.count + count) > array.size then
        .error (.array_overflow count (sub64 (u64 (array.count + count)) array.size))
      else
        match push fuel gfx gfx.gfx_mem.staging 1 data (u64 (count * sizeof_type)) with
        | .error e => .error e
        | .ok (staging_offset, staging', gfx') =>
          .ok (array.count, { array with count := u64 (array.count + count) },
               { device :=
                   copy_to_buffer gfx'.device gfx'.temp_cmd_buf
                     { src_buffer := staging'.mem.buffer
                       src_offset := staging_offset
                       dst_buffer := array.mem.buffer
                       dst_offset := count_offset sizeof_type array
                       size := u64 (count * sizeof_type) }
                 temp_cmd_buf := gfx'.temp_cmd_buf
                 gfx_mem := { gfx'.gfx_mem with staging := staging' } }) := by
  rw [push]
  simp only [hty]

theorem write_to_buffer_ok (device : Device) (info : BufferWriteInfo)
    (hrange : info.offset + info.size ≤ (device.memory info.buffer.mem).length)
    (hdata : info.size ≤ info.data.length) :
    write_to_buffer device info =
      .ok { memory :=
              Function.update device.memory info.buffer.mem
                (copy_bytes (device.memory info.buffer.mem) info.offset info.size info.data)
            calls :=
              device.calls ++
                [VkCall.vkMapMemory info.buffer.mem info.offset info.size,
                 VkCall.vkUnmapMemory info.buffer.mem] } := by
  unfold write_to_buffer
  rw [if_pos ⟨hrange, hdata⟩]

theorem write_to_buffer_ok_iff (device device' : Device) (info : BufferWriteInfo)
    (h : write_to_buffer device info = .ok device') :
    info.offset + info.size ≤ (device.memory info.buffer.mem).length ∧
      info.size ≤ info.data.length := by
  unfold write_to_buffer at h
  by_cases hv : info.offset + info.size ≤ (device.memory info.buffer.mem).length
      ∧ info.size ≤ info.data.length
  · exact hv
  · rw [if_neg hv] at h
    exact absurd h (by simp)

theorem count_offset_eq (device : Device) (sizeof_type : Nat) (array : GraphicsArray)
    (hok : array_ok device sizeof_type array) :
    count_offset sizeof_type array = array.mem.offset + array.count * sizeof_type ∧
      array.mem.offset + array.count * sizeof_type ≤ array.mem.offset + array.mem.size := by
  obtain ⟨_, hcount, hcap, hin, hlen⟩ := hok
  have h1 : array.count * sizeof_type ≤ array.size * sizeof_type :=
    Nat.mul_le_mul_right _ hcount
  unfold count_offset
  rw [u64_of_lt (show array.count * sizeof_type < U64_SIZE by omega),
    u64_of_lt (show array.mem.offset + array.count * sizeof_type < U64_SIZE by omega)]
  exact ⟨rfl, by omega⟩

/-- A host-visible `push` that stays within the capacity returns, and this is its result. -/
theorem push_host_ok (fuel : Nat) (gfx : Graphics) (array : GraphicsArray) (sizeof_type : Nat)
    (data : List Byte) (count : Nat) (hty : array.mem.type = MemoryType.HOST)
    (hok : array_ok gfx.device sizeof_type array) (hdata : data.length = count * sizeof_type)
    (hfit : array.count + count ≤ array.size) :
    push (fuel + 1) gfx array sizeof_type data count =
      .ok (array.count, { array with count := array.count + count },
           { gfx with
             device :=
               { memory :=
                   Function.update gfx.device.memory array.mem.buffer.mem
                     (copy_bytes (gfx.device.memory array.mem.buffer.mem)
                       (array.mem.offset + array.count * sizeof_type) (count * sizeof_type) data)
                 calls :=
                   gfx.device.calls ++
                     [VkCall.vkMapMemory array.mem.buffer.mem
                        (array.mem.offset + array.count * sizeof_type) (count * sizeof_type),
                      VkCall.vkUnmapMemory array.mem.buffer.mem] } }) := by
  have hoff := (count_offset_eq gfx.device sizeof_type array hok).1
  obtain ⟨hsz, hcount, hcap, hin, hlen⟩ := hok
  have h1 : (array.count + count) * sizeof_type ≤ array.size * sizeof_type :=
    Nat.mul_le_mul_right _ hfit
  rw [Nat.add_mul] at h1
  have h2 : count ≤ count * sizeof_type := Nat.le_mul_of_pos_right _ hsz
  have h3 : array.count ≤ array.count * sizeof_type := Nat.le_mul_of_pos_right _ hsz
  rw [push_host_def fuel gfx array sizeof_type data count hty,
    u64_of_lt (show array.count + count < U64_SIZE by omega), if_neg (by omega),
    u64_of_lt (show count * sizeof_type < U64_SIZE by omega), hoff,
    write_to_buffer_ok _ _ (by simp only; omega) (by simp only; omega)]

/-- What a returning host-visible `push` did to the device: one map/unmap pair at
`count_offset(array)`, the bytes of `data` stored there, everything else untouched. -/
theorem push_host_write_effect (fuel : Nat) (gfx gfx' : Graphics)
    (array array' : GraphicsArray) (sizeof_type : Nat) (data : List Byte) (n start : Nat)
    (hty : array.mem.type = MemoryType.HOST) (hdata : data.length = n * sizeof_type)
    (hlen : data.length < U64_SIZE)
    (hpush : push (fuel + 1) gfx array sizeof_type data n = .ok (start, array', gfx')) :
    gfx'.device.calls =
        gfx.device.calls ++
          [VkCall.vkMapMemory array.mem.buffer.mem (count_offset sizeof_type array)
             (n * sizeof_type),
           VkCall.vkUnmapMemory array.mem.buffer.mem] ∧
      read_bytes (gfx'.device.memory array.mem.buffer.mem) (count_offset sizeof_type array)
          (n * sizeof_type) = data ∧
      (∀ j, j < count_offset sizeof_type array
            ∨ count_offset sizeof_type array + n * sizeof_type ≤ j →
          (gfx'.device.memory array.mem.buffer.mem)[j]?
            = (gfx.device.memory array.mem.buffer.mem)[j]?) ∧
      (gfx'.device.memory array.mem.buffer.mem).length
        = (gfx.device.memory array.mem.buffer.mem).length ∧
      (∀ m, m ≠ array.mem.buffer.mem → gfx'.device.memory m = gfx.device.memory m) := by
  rw [push_host_def fuel gfx array sizeof_type data n hty] at hpush
  by_cases hg : u64 (array.count + n) > array.size
  · rw [if_pos hg] at hpush
    exact absurd hpush (by simp)
  · rw [if_neg hg] at hpush
    split at hpush
    · exact absurd hpush (by simp)
    · rename_i device' hw
      have hbytes : u64 (n * sizeof_type) = n * sizeof_type := u64_of_lt (by omega)
      rw [hbytes] at hw
      obtain ⟨hrange, hsize⟩ := write_to_buffer_ok_iff _ _ _ hw
      rw [write_to_buffer_ok _ _ hrange hsize] at hw
      simp only at hrange hsize
      simp only [Except.ok.injEq] at hw
      simp only [Except.ok.injEq, Prod.mk.injEq] at hpush
      obtain ⟨-, -, h3⟩ := hpush
      subst h3 hw
      refine ⟨rfl, ?_, ?_, ?_, ?_⟩
      · simp only [Function.update_same]
        rw [read_bytes_copy_bytes _ _ _ _ hrange hsize, List.take_of_length_le (by omega)]
      · intro j hj
        simp only [Function.update_same]
        exact getElem?_copy_bytes_outside _ _ _ _ j hrange hsize hj
      · simp only [Function.update_same]
        exact copy_bytes_length _ _ _ _ hrange hsize
      · intro m hm
        simp only [Function.update_noteq hm]

/-- C9: on the host-visible path, after a successful push of `data` (`n` elements), the
`n * sizeof(T)` bytes read back from the offset the push wrote to are exactly the bytes of
`data`; the bytes of the backing memory outside that range, its length, and every other memory
object are unchanged. -/
theorem push_host_round_trip (fuel : Nat) (gfx gfx' : Graphics)
    (array array' : GraphicsArray) (sizeof_type : Nat) (data : List Byte) (n start : Nat)
    (hty : array.mem.type = MemoryType.HOST) (hdata : data.length = n * sizeof_type)
    (hlen : data.length < U64_SIZE)
    (hpush : push (fuel + 1) gfx array sizeof_type data n = .ok (start, array', gfx')) :
    gfx'.device.calls =
        gfx.device.calls ++
          [VkCall.vkMapMemory array.mem.buffer.mem (count_offset sizeof_type array)
             (n * sizeof_type),
           VkCall.vkUnmapMemory array.mem.buffer.mem] ∧
      read_bytes (gfx'.device.memory array.mem.buffer.mem) (count_offset sizeof_type array)
          (n * sizeof_type) = data ∧
      (∀ j, j < count_offset sizeof_type array
            ∨ count_offset sizeof_type array + n * sizeof_type ≤ j →
          (gfx'.device.memory array.mem.buffer.mem)[j]?
            = (gfx.device.memory array.mem.buffer.mem)[j]?) ∧
      (gfx'.device.memory array.mem.buffer.mem).length
        = (gfx.device.memory array.mem.buffer.mem).length ∧
      (∀ m, m ≠ array.mem.buffer.mem → gfx'.device.memory m = gfx.device.memory m) :=
  push_host_write_effect fuel gfx gfx' array array' sizeof_type data n start hty hdata hlen hpush

/-- Witness of C9: two 4-byte elements pushed to `host_array_4` are read back unchanged. -/
theorem push_host_round_trip_witness :
    [VkCall.vkMapMemory 7 20 8, VkCall.vkUnmapMemory 7] =
        device_64.calls ++
          [VkCall.vkMapMemory host_array_4.mem.buffer.mem (count_offset 4 host_array_4) (2 * 4),
           VkCall.vkUnmapMemory host_array_4.mem.buffer.mem] ∧
      read_bytes
          (Function.update device_64.memory 7 (copy_bytes (device_64.memory 7) 20 8 data_8)
            host_array_4.mem.buffer.mem)
          (count_offset 4 host_array_4) (2 * 4) = data_8 ∧
      (∀ j, j < count_offset 4 host_array_4 ∨ count_offset 4 host_array_4 + 2 * 4 ≤ j →
          (Function.update device_64.memory 7 (copy_bytes (device_64.memory 7) 20 8 data_8)
              host_array_4.mem.buffer.mem)[j]?
            = (device_64.memory host_array_4.mem.buffer.mem)[j]?) ∧
      (Function.update device_64.memory 7 (copy_bytes (device_64.memory 7) 20 8 data_8)
          host_array_4.mem.buffer.mem).length
        = (device_64.memory host_array_4.mem.buffer.mem).length ∧
      (∀ m, m ≠ host_array_4.mem.buffer.mem →
          Function.update device_64.memory 7 (copy_bytes (device_64.memory 7) 20 8 data_8) m
            = device_64.memory m) :=
  push_host_round_trip 0
    { device := device_64, temp_cmd_buf := 5,
      gfx_mem := { host := stack_1024, device := stack_1024, staging := host_array_4 } }
    { device :=
        { memory :=
            Function.update device_64.memory 7
              (copy_bytes (device_64.memory 7) 20 8 data_8)
          calls := [VkCall.vkMapMemory 7 20 8, VkCall.vkUnmapMemory 7] }
      temp_cmd_buf := 5
      gfx_mem := { host := stack_1024, device := stack_1024, staging := host_array_4 } }
    host_array_4 { host_array_4 with count := 3 } 4 data_8 2 1 rfl rfl (by decide) rfl

/-- What `create_graphics_memory` sets up for the staging array: an empty host-visible array at
offset 0 of the host buffer. -/
theorem create_graphics_memory_staging (megabyte : Nat → Nat) (host_buffer device_buffer : Buffer)
    (gfx_mem : GfxMem)
    (h : create_graphics_memory megabyte host_buffer device_buffer = .ok gfx_mem) :
    gfx_mem.staging.mem.offset = 0 ∧ gfx_mem.staging.mem.type = MemoryType.HOST ∧
      gfx_mem.staging.mem.buffer = host_buffer ∧ gfx_mem.staging.count = 0 := by
  unfold create_graphics_memory create_graphics_array at h
  simp only at h
  split at h
  · exact absurd h (by simp)
  · rename_i staging host' hcreate
    split at hcreate
    · exact absurd hcreate (by simp)
    · rename_i mem stack' halloc
      simp only [Except.ok.injEq, Prod.mk.injEq] at hcreate h
      obtain ⟨hs, -⟩ := hcreate
      subst h hs
      unfold allocate at halloc
      rw [if_neg (by decide)] at halloc
      simp only [Nat.mod_one, ne_eq, not_true_eq_false, if_false] at halloc
      split at halloc
      · exact absurd halloc (by simp)
      · simp only [Except.ok.injEq, Prod.mk.injEq] at halloc
        obtain ⟨hm, -⟩ := halloc
        subst hm
        refine ⟨rfl, ?_, rfl, rfl⟩
        simp [create_graphics_stack, VK_MEMORY_PROPERTY_HOST_VISIBLE_BIT,
          VK_MEMORY_PROPERTY_HOST_COHERENT_BIT, VK_MEMORY_PROPERTY_DEVICE_LOCAL_BIT]

/-- C10: for every push of `n` elements to a device-local `GraphicsArray<T>` with count `c`,
the data is first pushed as `n * sizeof(T)` bytes onto the shared staging array (the array
`create_graphics_memory` set up), and the buffer copy then recorded has size
`n * sizeof(T)`, destination offset `array.mem.offset + c * sizeof(T)`, and as source offset
the byte offset of the staging buffer at which the staged bytes were written. -/
theorem push_device_stages_then_copies (fuel : Nat) (megabyte : Nat → Nat)
    (host_buffer device_buffer : Buffer) (created : GfxMem) (gfx gfx' : Graphics)
    (array array' : GraphicsArray) (sizeof_type : Nat) (data : List Byte) (n start : Nat)
    (hcreated : create_graphics_memory megabyte host_buffer device_buffer = .ok created)
    (hstaging : gfx.gfx_mem.staging.mem = created.staging.mem)
    (hcount : gfx.gfx_mem.staging.count < U64_SIZE)
    (hty : array.mem.type = MemoryType.DEVICE)
    (hdst : array.mem.offset + array.count * sizeof_type < U64_SIZE)
    (hdata : data.length = n * sizeof_type) (hlen : data.length < U64_SIZE)
    (hpush : push (fuel + 2) gfx array sizeof_type data n = .ok (start, array', gfx')) :
    ∃ staged : Graphics,
      push (fuel + 1) gfx gfx.gfx_mem.staging 1 data (n * sizeof_type)
          = .ok (gfx.gfx_mem.staging.count, gfx'.gfx_mem.staging, staged) ∧
        staged.device.calls =
          gfx.device.calls ++
            [VkCall.vkMapMemory gfx.gfx_mem.staging.mem.buffer.mem
               (gfx.gfx_mem.staging.mem.offset + gfx.gfx_mem.staging.count) (n * sizeof_type),
             VkCall.vkUnmapMemory gfx.gfx_mem.staging.mem.buffer.mem] ∧
        read_bytes (staged.device.memory gfx.gfx_mem.staging.mem.buffer.mem)
            (gfx.gfx_mem.staging.mem.offset + gfx.gfx_mem.staging.count) (n * sizeof_type)
          = data ∧
        gfx'.device.memory = staged.device.memory ∧
        gfx'.device.calls =
          staged.device.calls ++
            [VkCall.vkCmdCopyBuffer gfx.temp_cmd_buf gfx.gfx_mem.staging.mem.buffer.handle
               array.mem.buffer.handle
               (gfx.gfx_mem.staging.mem.offset + gfx.gfx_mem.staging.count)
               (array.mem.offset + array.count * sizeof_type) (n * sizeof_type)] := by
  obtain ⟨hoff0, hhost, -, -⟩ :=
    create_graphics_memory_staging megabyte host_buffer device_buffer created hcreated
  rw [← hstaging] at hoff0 hhost
  have hbytes : u64 (n * sizeof_type) = n * sizeof_type := u64_of_lt (by omega)
  have hsrc : count_offset 1 gfx.gfx_mem.staging
      = gfx.gfx_mem.staging.mem.offset + gfx.gfx_mem.staging.count := by
    unfold count_offset
    rw [hoff0, Nat.mul_one, Nat.zero_add, u64_of_lt hcount, u64_of_lt hcount, Nat.zero_add]
  have hdstoff : count_offset sizeof_type array = array.mem.offset + array.count * sizeof_type := by
    unfold count_offset
    rw [u64_of_lt (show array.count * sizeof_type < U64_SIZE by omega), u64_of_lt hdst]
  rw [push_device_def (fuel + 1) gfx array sizeof_type data n hty] at hpush
  by_cases hg : u64 (array.count + n) > array.size
  · rw [if_pos hg] at hpush
    exact absurd hpush (by simp)
  · rw [if_neg hg, hbytes] at hpush
    split at hpush
    · exact absurd hpush (by simp)
    · rename_i staging_offset staging' staged hinner
      simp only [Except.ok.injEq, Prod.mk.injEq] at hpush
      obtain ⟨-, -, hgfx⟩ := hpush
      subst hgfx
      have hround := push_host_write_effect fuel gfx staged gfx.gfx_mem.staging staging' 1 data
        (n * sizeof_type) staging_offset hhost (by rw [Nat.mul_one]; exact hdata) hlen hinner
      rw [Nat.mul_one, hsrc] at hround
      have hinner' := hinner
      rw [push_host_def fuel gfx gfx.gfx_mem.staging 1 data (n * sizeof_type) hhost] at hinner'
      split at hinner'
      · exact absurd hinner' (by simp)
      · split at hinner'
        · exact absurd hinner' (by simp)
        · simp only [Except.ok.injEq, Prod.mk.injEq] at hinner'
          obtain ⟨h1, h2, h3⟩ := hinner'
          refine ⟨staged, ?_, hround.1, hround.2.1, rfl, ?_⟩
          · rw [hinner, h1]
          · subst h1 h2 h3
            simp only [copy_to_buffer, hdstoff, hsrc]
            rw [hoff0, Nat.zero_add]

/-- Witness of C10: two 4-byte elements pushed to `device_array_4` over the staging array of
`gfx_mem_64`, which already holds four bytes. -/
theorem push_device_stages_then_copies_witness :
    ∃ staged : Graphics,
      push 1 gfx_64 gfx_64.gfx_mem.staging 1 data_8 (2 * 4)
          = .ok (gfx_64.gfx_mem.staging.count,
              ({ gfx_mem_64.staging with count := 12 } : GraphicsArray), staged) ∧
        staged.device.calls =
          gfx_64.device.calls ++
            [VkCall.vkMapMemory gfx_64.gfx_mem.staging.mem.buffer.mem
               (gfx_64.gfx_mem.staging.mem.offset + gfx_64.gfx_mem.staging.count) (2 * 4),
             VkCall.vkUnmapMemory gfx_64.gfx_mem.staging.mem.buffer.mem] ∧
        read_bytes (staged.device.memory gfx_64.gfx_mem.staging.mem.buffer.mem)
            (gfx_64.gfx_mem.staging.mem.offset + gfx_64.gfx_mem.staging.count) (2 * 4)
          = data_8 ∧
        Function.update device_64.memory 7 (copy_bytes (device_64.memory 7) 4 8 data_8)
          = staged.device.memory ∧
        [VkCall.vkMapMemory 7 4 8, VkCall.vkUnmapMemory 7,
            VkCall.vkCmdCopyBuffer 5 1 2 4 20 8] =
          staged.device.calls ++
            [VkCall.vkCmdCopyBuffer gfx_64.temp_cmd_buf
               gfx_64.gfx_mem.staging.mem.buffer.handle device_array_4.mem.buffer.handle
               (gfx_64.gfx_mem.staging.mem.offset + gfx_64.gfx_mem.staging.count)
               (device_array_4.mem.offset + device_array_4.count * 4) (2 * 4)] :=
  push_device_stages_then_copies 0 (fun n => n / 8) host_buffer_64 device_buffer_64 gfx_mem_64
    gfx_64
    { device :=
        { memory := Function.update device_64.memory 7 (copy_bytes (device_64.memory 7) 4 8 data_8)
          calls :=
            [VkCall.vkMapMemory 7 4 8, VkCall.vkUnmapMemory 7,
             VkCall.vkCmdCopyBuffer 5 1 2 4 20 8] }
      temp_cmd_buf := 5
      gfx_mem := { gfx_mem_64 with staging := { gfx_mem_64.staging with count := 12 } } }
    device_array_4 { device_array_4 with count := 3 } 4 data_8 2 1
    (by rfl) rfl (by decide) rfl (by decide) rfl (by decide) (by rfl)

/-! ## Sequences of pushes -/

theorem array_ok_of_length_eq (device device' : Device) (sizeof_type : Nat)
    (array array' : GraphicsArray)
    (hlen : ∀ m, (device'.memory m).length = (device.memory m).length)
    (hmem : array'.mem = array.mem) (hsize : array'.size = array.size)
    (hcount : array'.count ≤ array.size) (hok : array_ok device sizeof_type array) :
    array_ok device' sizeof_type array' := by
  obtain ⟨hsz, _, hcap, hin, hmlen⟩ := hok
  unfold array_ok region_in_memory
  rw [hmem, hsize, hlen]
  exact ⟨hsz, hcount, hcap, hin, hmlen⟩

theorem update_copy_bytes_length (memory : Nat → List Byte) (m offset size : Nat)
    (data : List Byte) (hrange : offset + size ≤ (memory m).length) (hdata : size ≤ data.length)
    (m' : Nat) :
    (Function.update memory m (copy_bytes (memory m) offset size data) m').length
      = (memory m').length := by
  by_cases h : m' = m
  · subst h
    rw [Function.update_same]
    exact copy_bytes_length _ _ _ _ hrange hdata
  · rw [Function.update_noteq h]

/-- A device-local `push` within the capacity, over a host-visible staging array with room for
the bytes, returns, and this is its result. -/
theorem push_device_ok (fuel : Nat) (gfx : Graphics) (array : GraphicsArray) (sizeof_type : Nat)
    (data : List Byte) (count : Nat) (hty : array.mem.type = MemoryType.DEVICE)
    (hok : array_ok gfx.device sizeof_type array)
    (hsty : gfx.gfx_mem.staging.mem.type = MemoryType.HOST)
    (hsok : array_ok gfx.device 1 gfx.gfx_mem.staging)
    (hroom : gfx.gfx_mem.staging.count + count * sizeof_type ≤ gfx.gfx_mem.staging.size)
    (hdata : data.length = count * sizeof_type)
    (hfit : array.count + count ≤ array.size) :
    push (fuel + 2) gfx array sizeof_type data count =
      .ok (array.count, { array with count := array.count + count },
           { device :=
               { memory :=
                   Function.update gfx.device.memory gfx.gfx_mem.staging.mem.buffer.mem
                     (copy_bytes (gfx.device.memory gfx.gfx_mem.staging.mem.buffer.mem)
                       (gfx.gfx_mem.staging.mem.offset + gfx.gfx_mem.staging.count)
                       (count * sizeof_type) data)
                 calls :=
                   gfx.device.calls ++
                     [VkCall.vkMapMemory gfx.gfx_mem.staging.mem.buffer.mem
                        (gfx.gfx_mem.staging.mem.offset + gfx.gfx_mem.staging.count)
                        (count * sizeof_type),
                      VkCall.vkUnmapMemory gfx.gfx_mem.staging.mem.buffer.mem,
                      VkCall.vkCmdCopyBuffer gfx.temp_cmd_buf
                        gfx.gfx_mem.staging.mem.buffer.handle array.mem.buffer.handle
                        gfx.gfx_mem.staging.count
                        (array.mem.offset + array.count * sizeof_type) (count * sizeof_type)] }
             temp_cmd_buf := gfx.temp_cmd_buf
             gfx_mem :=
               { gfx.gfx_mem with
                 staging :=
                   { gfx.gfx_mem.staging with
                     count := gfx.gfx_mem.staging.count + count * sizeof_type } } }) := by
  have hoff := (count_offset_eq gfx.device sizeof_type array hok).1
  have hinner := push_host_ok fuel gfx gfx.gfx_mem.staging 1 data (count * sizeof_type) hsty hsok
    (by rw [Nat.mul_one]; exact hdata) hroom
  obtain ⟨hsz, hcount, hcap, hin, hlen⟩ := hok
  have h1 : (array.count + count) * sizeof_type ≤ array.size * sizeof_type :=
    Nat.mul_le_mul_right _ hfit
  rw [Nat.add_mul] at h1
  have h2 : count ≤ count * sizeof_type := Nat.le_mul_of_pos_right _ hsz
  have h3 : array.count ≤ array.count * sizeof_type := Nat.le_mul_of_pos_right _ hsz
  rw [push_device_def (fuel + 1) gfx array sizeof_type data count hty,
    u64_of_lt (show array.count + count < U64_SIZE by omega), if_neg (by omega),
    u64_of_lt (show count * sizeof_type < U64_SIZE by omega), hinner, hoff]
  simp only [copy_to_buffer, Nat.mul_one, List.append_assoc, List.cons_append, List.nil_append]

/-- Effect of one `push` that stays within the capacity of the array and, for a device-local
array, within the room of the staging array. -/
theorem push_ok (fuel : Nat) (gfx : Graphics) (array : GraphicsArray) (sizeof_type : Nat)
    (data : List Byte) (count : Nat)
    (hok : array_ok gfx.device sizeof_type array)
    (hstaging : array.mem.type = MemoryType.DEVICE →
      gfx.gfx_mem.staging.mem.type = MemoryType.HOST ∧
        array_ok gfx.device 1 gfx.gfx_mem.staging ∧
        gfx.gfx_mem.staging.count + count * sizeof_type ≤ gfx.gfx_mem.staging.size)
    (hdata : data.length = count * sizeof_type)
    (hfit : array.count + count ≤ array.size) :
    ∃ gfx' : Graphics,
      push (fuel + 2) gfx array sizeof_type data count
          = .ok (array.count, { array with count := array.count + count }, gfx') ∧
        (∀ m, (gfx'.device.memory m).length = (gfx.device.memory m).length) ∧
        gfx'.gfx_mem.staging.mem = gfx.gfx_mem.staging.mem ∧
        gfx'.gfx_mem.staging.size = gfx.gfx_mem.staging.size ∧
        (array.mem.type = MemoryType.DEVICE →
          gfx'.gfx_mem.staging.count = gfx.gfx_mem.staging.count + count * sizeof_type) := by
  cases hty : array.mem.type with
  | HOST =>
    refine ⟨_, push_host_ok (fuel + 1) gfx array sizeof_type data count hty hok hdata hfit,
      ?_, rfl, rfl, fun h => absurd h (by simp)⟩
    intro m
    have hoff := count_offset_eq gfx.device sizeof_type array hok
    obtain ⟨hsz, hcount, hcap, hin, hlen⟩ := hok
    have h1 : (array.count + count) * sizeof_type ≤ array.size * sizeof_type :=
      Nat.mul_le_mul_right _ hfit
    rw [Nat.add_mul] at h1
    exact update_copy_bytes_length _ _ _ _ _ (by omega) (by omega) m
  | DEVICE =>
    obtain ⟨hsty, hsok, hroom⟩ := hstaging hty
    refine ⟨_, push_device_ok fuel gfx array sizeof_type data count hty hok hsty hsok hroom
      hdata hfit, ?_, rfl, rfl, fun _ => rfl⟩
    intro m
    obtain ⟨hsz, hcount, hcap, hin, hlen⟩ := hsok
    have h1 : gfx.gfx_mem.staging.count * 1 = gfx.gfx_mem.staging.count := Nat.mul_one _
    have h2 : gfx.gfx_mem.staging.size * 1 = gfx.gfx_mem.staging.size := Nat.mul_one _
    exact update_copy_bytes_length _ _ _ _ _ (by omega) (by omega) m

theorem push_each_ok (fuel sizeof_type : Nat) :
    ∀ (pushes : List (List Byte × Nat)) (gfx : Graphics) (array : GraphicsArray),
      array_ok gfx.device sizeof_type array →
      (∀ p ∈ pushes, p.1.length = p.2 * sizeof_type) →
      (array.mem.type = MemoryType.DEVICE →
        gfx.gfx_mem.staging.mem.type = MemoryType.HOST ∧
          array_ok gfx.device 1 gfx.gfx_mem.staging ∧
          gfx.gfx_mem.staging.count + (pushes.map Prod.snd).sum * sizeof_type
            ≤ gfx.gfx_mem.staging.size) →
      array.count + (pushes.map Prod.snd).sum ≤ array.size →
      ∃ gfx' : Graphics,
        push_each (fuel + 2) sizeof_type gfx array pushes
          = (none, { array with count := array.count + (pushes.map Prod.snd).sum }, gfx') := by
  intro pushes
  induction pushes with
  | nil =>
    intro gfx array _ _ _ _
    exact ⟨gfx, by simp [push_each]⟩
  | cons p rest ih =>
    obtain ⟨data, count⟩ := p
    intro gfx array hok hdata hstaging hfit
    simp only [List.map_cons, List.sum_cons] at hstaging hfit ⊢
    have hd : data.length = count * sizeof_type := hdata (data, count) (List.mem_cons_self _ _)
    obtain ⟨gfx1, hpush, hlen, hsmem, hssize, hscount⟩ :=
      push_ok fuel gfx array sizeof_type data count hok
        (fun hty => by
          obtain ⟨h1, h2, h3⟩ := hstaging hty
          rw [Nat.add_mul] at h3
          exact ⟨h1, h2, by omega⟩)
        hd (by omega)
    have hok1 : array_ok gfx1.device sizeof_type { array with count := array.count + count } :=
      array_ok_of_length_eq gfx.device gfx1.device sizeof_type array _ hlen rfl rfl
        (by show array.count + count ≤ array.size; omega) hok
    obtain ⟨gfx2, hrest⟩ := ih gfx1 { array with count := array.count + count } hok1
      (fun q hq => hdata q (List.mem_cons_of_mem _ hq))
      (fun hty => by
        obtain ⟨h1, h2, h3⟩ := hstaging hty
        rw [Nat.add_mul] at h3
        have hc := hscount hty
        refine ⟨by rw [hsmem]; exact h1, ?_, by rw [hc, hssize]; omega⟩
        exact array_ok_of_length_eq gfx.device gfx1.device 1 gfx.gfx_mem.staging _ hlen hsmem
          hssize (by rw [hc]; omega) h2)
      (by show array.count + count + (rest.map Prod.snd).sum ≤ array.size; omega)
    refine ⟨gfx2, ?_⟩
    rw [push_each, hpush]
    simp only [hrest, Nat.add_assoc]

theorem push_each_append (fuel sizeof_type : Nat) :
    ∀ (pre post : List (List Byte × Nat)) (gfx gfx' : Graphics) (array array' : GraphicsArray),
      push_each fuel sizeof_type gfx array pre = (none, array', gfx') →
      push_each fuel sizeof_type gfx array (pre ++ post)
        = push_each fuel sizeof_type gfx' array' post := by
  intro pre
  induction pre with
  | nil =>
    intro post gfx gfx' array array' h
    simp only [push_each, Prod.mk.injEq, true_and] at h
    obtain ⟨h1, h2⟩ := h
    subst h1 h2
    rfl
  | cons p rest ih =>
    obtain ⟨data, count⟩ := p
    intro post gfx gfx' array array' h
    rw [List.cons_append, push_each]
    rw [push_each] at h
    split at h
    · simp at h
    · rename_i start array1 gfx1 hpush
      exact ih post gfx1 gfx' array1 array' h

/-- The guard of `push`: a push whose count does not fit the capacity, the sum being a 64-bit
value, ends in the fatal error before any call is issued. -/
theorem push_overflow (fuel : Nat) (gfx : Graphics) (array : GraphicsArray) (sizeof_type : Nat)
    (data : List Byte) (count : Nat) (hrep : array.count + count < U64_SIZE)
    (hexc : array.count + count > array.size) :
    push (fuel + 1) gfx array sizeof_type data count =
      .error (.array_overflow count (array.count + count - array.size)) := by
  rw [push, u64_of_lt hrep, if_pos hexc, sub64_of_le (le_of_lt hexc) hrep]

/-- C7, counterexample: an empty device-local array of capacity 8 receives one push of 5
elements (20 bytes). The only prefix sum, 5, is within the capacity, yet the push fails: the
staging array has room for 16 bytes only. -/
theorem push_within_capacity_fails_on_staging :
    device_array_8.count = 0 ∧ 5 ≤ device_array_8.size ∧
      (push_each 2 4 gfx_fresh_64 device_array_8 [(data_20, 5)]).1
        = some (Failure.array_overflow 20 4) := by
  refine ⟨rfl, by decide, rfl⟩

/-- C7, amended: for every `GraphicsArray` of capacity `N` with initial count 0 whose region
holds the capacity inside the memory of its buffer, and every sequence of pushes of sizes
`s_1..s_k`, each with data of `s_i` elements, where for a device-local array the staging
array is host-visible and every prefix that fits the array also fits, in bytes, the room left
in the staging array: if every prefix sum is at most `N`, all pushes succeed and the final
count is the sum of the `s_i`; otherwise, when the first prefix sum that exceeds `N` is a
64-bit value, that push fails with the array-overflow error, the count of the array is left at
the sum of the preceding sizes and the graphics state is the one the preceding pushes left, so
no write or copy is issued by the failing push. -/
theorem push_sequence_counts (fuel sizeof_type : Nat) (gfx : Graphics) (array : GraphicsArray)
    (pushes : List (List Byte × Nat)) (hinit : array.count = 0)
    (hok : array_ok gfx.device sizeof_type array)
    (hdata : ∀ p ∈ pushes, p.1.length = p.2 * sizeof_type)
    (hstaging : array.mem.type = MemoryType.DEVICE →
      gfx.gfx_mem.staging.mem.type = MemoryType.HOST ∧
        array_ok gfx.device 1 gfx.gfx_mem.staging ∧
        ∀ k ≤ pushes.length, ((pushes.take k).map Prod.snd).sum ≤ array.size →
          gfx.gfx_mem.staging.count + ((pushes.take k).map Prod.snd).sum * sizeof_type
            ≤ gfx.gfx_mem.staging.size) :
    ((∀ k ≤ pushes.length, ((pushes.take k).map Prod.snd).sum ≤ array.size) →
        ∃ gfx' : Graphics,
          push_each (fuel + 2) sizeof_type gfx array pushes
            = (none, { array with count := (pushes.map Prod.snd).sum }, gfx')) ∧
      (∀ (pre post : List (List Byte × Nat)) (data : List Byte) (count : Nat),
        pushes = pre ++ (data, count) :: post →
        (pre.map Prod.snd).sum ≤ array.size →
        (pre.map Prod.snd).sum + count > array.size →
        (pre.map Prod.snd).sum + count < U64_SIZE →
        ∃ gfx_pre : Graphics,
          push_each (fuel + 2) sizeof_type gfx array pre
              = (none, { array with count := (pre.map Prod.snd).sum }, gfx_pre) ∧
            push_each (fuel + 2) sizeof_type gfx array pushes
              = (some (Failure.array_overflow count
                    ((pre.map Prod.snd).sum + count - array.size)),
                  { array with count := (pre.map Prod.snd).sum }, gfx_pre)) := by
  constructor
  · intro hall
    have htotal := hall pushes.length (le_refl _)
    rw [List.take_length] at htotal
    obtain ⟨gfx', h⟩ := push_each_ok fuel sizeof_type pushes gfx array hok hdata
      (fun hty => by
        obtain ⟨h1, h2, h3⟩ := hstaging hty
        have h4 := h3 pushes.length (le_refl _)
        rw [List.take_length] at h4
        exact ⟨h1, h2, h4 htotal⟩)
      (by omega)
    rw [hinit, Nat.zero_add] at h
    exact ⟨gfx', h⟩
  · intro pre post data count hsplit hpre hexc hrep
    subst hsplit
    have htake : (pre ++ (data, count) :: post).take pre.length = pre := List.take_left' rfl
    obtain ⟨gfx_pre, h⟩ := push_each_ok fuel sizeof_type pre gfx array hok
      (fun q hq => hdata q (List.mem_append_left _ hq))
      (fun hty => by
        obtain ⟨h1, h2, h3⟩ := hstaging hty
        have h4 := h3 pre.length (by simp)
        rw [htake] at h4
        exact ⟨h1, h2, h4 hpre⟩)
      (by omega)
    rw [hinit, Nat.zero_add] at h
    refine ⟨gfx_pre, h, ?_⟩
    have hov := push_overflow (fuel + 1) gfx_pre
      { array with count := (pre.map Prod.snd).sum } sizeof_type data count hrep hexc
    rw [push_each_append (fuel + 2) sizeof_type pre ((data, count) :: post) gfx gfx_pre array _ h,
      push_each, hov]

/-- Witness of the amended C7: on the empty host-visible array of capacity 4, the pushes of 2
and 2 elements succeed and the push of 1 more element fails. -/
theorem push_sequence_counts_witness :
    ((∀ k ≤ pushes_2_2_1.length,
          ((pushes_2_2_1.take k).map Prod.snd).sum ≤ host_array_0.size) →
        ∃ gfx' : Graphics,
          push_each 2 4 gfx_fresh_64 host_array_0 pushes_2_2_1
            = (none, { host_array_0 with count := (pushes_2_2_1.map Prod.snd).sum }, gfx')) ∧
      (∀ (pre post : List (List Byte × Nat)) (data : List Byte) (count : Nat),
        pushes_2_2_1 = pre ++ (data, count) :: post →
        (pre.map Prod.snd).sum ≤ host_array_0.size →
        (pre.map Prod.snd).sum + count > host_array_0.size →
        (pre.map Prod.snd).sum + count < U64_SIZE →
        ∃ gfx_pre : Graphics,
          push_each 2 4 gfx_fresh_64 host_array_0 pre
              = (none, { host_array_0 with count := (pre.map Prod.snd).sum }, gfx_pre) ∧
            push_each 2 4 gfx_fresh_64 host_array_0 pushes_2_2_1
              = (some (Failure.array_overflow count
                    ((pre.map Prod.snd).sum + count - host_array_0.size)),
                  { host_array_0 with count := (pre.map Prod.snd).sum }, gfx_pre)) :=
  push_sequence_counts 0 4 gfx_fresh_64 host_array_0 pushes_2_2_1 rfl
    ⟨by decide, by decide, by decide, by decide, by decide⟩ (by decide)
    (fun h => absurd h (by decide))

/-! ## Claims on the render-pass builder -/

theorem push_attachment_ok (info : RenderPassInfo) (attachment_info : AttachmentInfo)
    (hd : info.attachment.descriptions.count ≠ info.attachment.descriptions.size)
    (hc : info.attachment.clear_values.count ≠ info.attachment.clear_values.size) :
    push_attachment info attachment_info =
      ({ info with
         attachment :=
           { descriptions :=
               { info.attachment.descriptions with
                 data := info.attachment.descriptions.data ++ [attachment_info.description] }
             clear_values :=
               { info.attachment.clear_values with
                 data := info.attachment.clear_values.data ++ [attachment_info.clear_value] } } },
       .ok info.attachment.descriptions.count) := by
  unfold push_attachment
  rw [if_neg hd]
  simp only [CtkArray.push, if_neg hd, if_neg hc]

theorem push_attachment_full (info : RenderPassInfo) (attachment_info : AttachmentInfo)
    (hd : info.attachment.descriptions.count = info.attachment.descriptions.size) :
    push_attachment info attachment_info =
      (info, .error (.fatal "cannot push any more attachments to RenderPassInfo")) := by
  unfold push_attachment
  rw [if_pos hd]

theorem push_attachments_ok :
    ∀ (attachments : List AttachmentInfo) (info : RenderPassInfo),
      info.attachment.descriptions.count + attachments.length
          ≤ info.attachment.descriptions.size →
      info.attachment.clear_values.count + attachments.length
          ≤ info.attachment.clear_values.size →
      push_attachments info attachments =
        ({ info with
           attachment :=
             { descriptions :=
                 { info.attachment.descriptions with
                   data :=
                     info.attachment.descriptions.data
                       ++ attachments.map AttachmentInfo.description }
               clear_values :=
                 { info.attachment.clear_values with
                   data :=
                     info.attachment.clear_values.data
                       ++ attachments.map AttachmentInfo.clear_value } } },
         .ok (List.range' info.attachment.descriptions.count attachments.length)) := by
  intro attachments
  induction attachments with
  | nil =>
    intro info _ _
    simp [push_attachments]
  | cons a rest ih =>
    intro info hd hc
    simp only [List.length_cons] at hd hc
    have h1 := push_attachment_ok info a (by omega) (by omega)
    simp only [CtkArray.count] at hd hc
    have hd' : (info.attachment.descriptions.data ++ [a.description]).length + rest.length
        ≤ info.attachment.descriptions.size := by
      rw [List.length_append, List.length_singleton]; omega
    have hc' : (info.attachment.clear_values.data ++ [a.clear_value]).length + rest.length
        ≤ info.attachment.clear_values.size := by
      rw [List.length_append, List.length_singleton]; omega
    have hrest := ih
      { info with
        attachment :=
          { descriptions :=
              { info.attachment.descriptions with
                data := info.attachment.descriptions.data ++ [a.description] }
            clear_values :=
              { info.attachment.clear_values with
                data := info.attachment.clear_values.data ++ [a.clear_value] } } }
      hd' hc'
    rw [push_attachments, h1]
    simp only
    rw [hrest]
    simp [CtkArray.count, List.range'_succ]

/-- C11, counterexample: two infos whose description list is not full, so the guard of
`push_attachment` does not fire. On the first, with one description and one clear value and a
clear-value list of capacity 1, the call does not return an index: it ends on the full
clear-value list. On the second, with no description and one clear value, the call returns
index 0 and the clear value it appends is at index 1; index 0 keeps the old clear value. -/
theorem push_attachment_index_needs_even_lists :
    render_pass_info_uneven.attachment.descriptions.count
        ≠ render_pass_info_uneven.attachment.descriptions.size ∧
      (push_attachment render_pass_info_uneven depth_attachment).2 = .error Failure.array_full ∧
      render_pass_info_shifted.attachment.descriptions.count
        ≠ render_pass_info_shifted.attachment.descriptions.size ∧
      (push_attachment render_pass_info_shifted color_attachment).2 = .ok 0 ∧
      (push_attachment render_pass_info_shifted color_attachment).1.attachment.clear_values.data
        = [depth_attachment.clear_value, color_attachment.clear_value] ∧
      (push_attachment render_pass_info_shifted color_attachment).1.attachment.clear_values.data[0]?
        ≠ some color_attachment.clear_value := by
  refine ⟨by decide, rfl, by decide, rfl, rfl, by decide⟩

/-- C11, amended: for every `RenderPassInfo` with as many clear values as descriptions and
room in both lists for the attachments pushed, `push_attachment` returns the number of
attachments present before the call and appends the description and the clear value at that
index; over a sequence of calls the `k`-th pushed attachment gets the index `count + k` (`k`
on an empty info), and `descriptions[count + k]`, `clear_values[count + k]` are the `k`-th
pushed pair. -/
theorem push_attachment_returns_index (info : RenderPassInfo) (first : AttachmentInfo)
    (rest : List AttachmentInfo)
    (hcount : info.attachment.descriptions.count = info.attachment.clear_values.count)
    (hd : info.attachment.descriptions.count + (first :: rest).length
        ≤ info.attachment.descriptions.size)
    (hc : info.attachment.clear_values.count + (first :: rest).length
        ≤ info.attachment.clear_values.size) :
    (push_attachment info first).2 = .ok info.attachment.descriptions.count ∧
      (push_attachment info first).1.attachment.descriptions.data
        = info.attachment.descriptions.data ++ [first.description] ∧
      (push_attachment info first).1.attachment.clear_values.data
        = info.attachment.clear_values.data ++ [first.clear_value] ∧
      (push_attachments info (first :: rest)).2
        = .ok (List.range' info.attachment.descriptions.count (first :: rest).length) ∧
      ∀ k (hk : k < (first :: rest).length),
        (List.range' info.attachment.descriptions.count (first :: rest).length)[k]?
            = some (info.attachment.descriptions.count + k) ∧
          (push_attachments info (first :: rest)).1.attachment.descriptions.data[
              info.attachment.descriptions.count + k]?
            = some ((first :: rest).get ⟨k, hk⟩).description ∧
          (push_attachments info (first :: rest)).1.attachment.clear_values.data[
              info.attachment.descriptions.count + k]?
            = some ((first :: rest).get ⟨k, hk⟩).clear_value := by
  simp only [List.length_cons] at hd hc
  rw [push_attachment_ok info first (by omega) (by omega),
    push_attachments_ok (first :: rest) info (by simpa using hd) (by simpa using hc)]
  refine ⟨rfl, rfl, rfl, rfl, ?_⟩
  intro k hk
  refine ⟨?_, ?_, ?_⟩
  · rw [List.getElem?_range' _ _ hk]
    simp
  · show (info.attachment.descriptions.data
        ++ (first :: rest).map AttachmentInfo.description)[info.attachment.descriptions.count + k]?
      = _
    have hsub : info.attachment.descriptions.count + k
        - info.attachment.descriptions.data.length = k := by simp [CtkArray.count]
    rw [List.getElem?_append_right (by simp [CtkArray.count]), hsub, List.getElem?_map,
      List.getElem?_eq_getElem hk]
    rfl
  · show (info.attachment.clear_values.data
        ++ (first :: rest).map AttachmentInfo.clear_value)[info.attachment.descriptions.count + k]?
      = _
    have hsub : info.attachment.clear_values.count + k
        - info.attachment.clear_values.data.length = k := by simp [CtkArray.count]
    rw [hcount, List.getElem?_append_right (by simp [CtkArray.count]), hsub, List.getElem?_map,
      List.getElem?_eq_getElem hk]
    rfl

/-- Witness of the amended C11: the color and the depth attachment pushed onto an empty info
with room for two. -/
theorem push_attachment_returns_index_witness :
    (push_attachment render_pass_info_2 color_attachment).2
        = .ok render_pass_info_2.attachment.descriptions.count ∧
      (push_attachment render_pass_info_2 color_attachment).1.attachment.descriptions.data
        = render_pass_info_2.attachment.descriptions.data ++ [color_attachment.description] ∧
      (push_attachment render_pass_info_2 color_attachment).1.attachment.clear_values.data
        = render_pass_info_2.attachment.clear_values.data ++ [color_attachment.clear_value] ∧
      (push_attachments render_pass_info_2 (color_attachment :: [depth_attachment])).2
        = .ok (List.range' render_pass_info_2.attachment.descriptions.count
            (color_attachment :: [depth_attachment]).length) ∧
      ∀ k (hk : k < (color_attachment :: [depth_attachment]).length),
        (List.range' render_pass_info_2.attachment.descriptions.count
              (color_attachment :: [depth_attachment]).length)[k]?
            = some (render_pass_info_2.attachment.descriptions.count + k) ∧
          (push_attachments render_pass_info_2
              (color_attachment :: [depth_attachment])).1.attachment.descriptions.data[
              render_pass_info_2.attachment.descriptions.count + k]?
            = some ((color_attachment :: [depth_attachment]).get ⟨k, hk⟩).description ∧
          (push_attachments render_pass_info_2
              (color_attachment :: [depth_attachment])).1.attachment.clear_values.data[
              render_pass_info_2.attachment.descriptions.count + k]?
            = some ((color_attachment :: [depth_attachment]).get ⟨k, hk⟩).clear_value :=
  push_attachment_returns_index render_pass_info_2 color_attachment [depth_attachment] rfl
    (by decide) (by decide)

/-- C12, counterexample: the info holds one description and one clear value, so the counts are
equal, and the description list is not full. The call appends the description and then fails
on the full clear-value list: it fails and a list has changed. -/
theorem push_attachment_fails_after_description :
    render_pass_info_uneven.attachment.descriptions.count
        = render_pass_info_uneven.attachment.clear_values.count ∧
      (push_attachment render_pass_info_uneven depth_attachment).2 = .error Failure.array_full ∧
      (push_attachment render_pass_info_uneven depth_attachment).1.attachment.descriptions.data
        = [color_attachment.description, depth_attachment.description] ∧
      (push_attachment render_pass_info_uneven depth_attachment).1.attachment.descriptions
        ≠ render_pass_info_uneven.attachment.descriptions := by
  refine ⟨rfl, rfl, rfl, by decide⟩

/-- C12, amended: for every `RenderPassInfo` with `descriptions.count == clear_values.count`
whose clear-value list has at least the capacity of the description list, either the call
succeeds and both counts grow by exactly one, or it fails (attachment list full) and neither
list is changed; the counts are equal afterwards and the capacities are unchanged, so the
property is preserved by every call. -/
theorem push_attachment_atomic (info : RenderPassInfo) (attachment_info : AttachmentInfo)
    (hcount : info.attachment.descriptions.count = info.attachment.clear_values.count)
    (hwf : info.attachment.descriptions.count ≤ info.attachment.descriptions.size)
    (hcap : info.attachment.descriptions.size ≤ info.attachment.clear_values.size) :
    (((push_attachment info attachment_info).2 = .ok info.attachment.descriptions.count ∧
          (push_attachment info attachment_info).1.attachment.descriptions.count
            = info.attachment.descriptions.count + 1 ∧
          (push_attachment info attachment_info).1.attachment.clear_values.count
            = info.attachment.clear_values.count + 1) ∨
        (info.attachment.descriptions.count = info.attachment.descriptions.size ∧
          push_attachment info attachment_info =
            (info, .error (.fatal "cannot push any more attachments to RenderPassInfo")))) ∧
      (push_attachment info attachment_info).1.attachment.descriptions.count
        = (push_attachment info attachment_info).1.attachment.clear_values.count ∧
      (push_attachment info attachment_info).1.attachment.descriptions.count
        ≤ (push_attachment info attachment_info).1.attachment.descriptions.size ∧
      (push_attachment info attachment_info).1.attachment.descriptions.size
        ≤ (push_attachment info attachment_info).1.attachment.clear_values.size := by
  by_cases hd : info.attachment.descriptions.count = info.attachment.descriptions.size
  · rw [push_attachment_full info attachment_info hd]
    exact ⟨Or.inr ⟨hd, rfl⟩, hcount, hwf, hcap⟩
  · have hc : info.attachment.clear_values.count ≠ info.attachment.clear_values.size := by
      omega
    rw [push_attachment_ok info attachment_info hd hc]
    simp only [CtkArray.count, List.length_append, List.length_singleton] at hcount hwf hd ⊢
    refine ⟨Or.inl ⟨trivial, trivial, trivial⟩, by omega, by omega, hcap⟩

/-- Witness of the amended C12: the first attachment of `create_render_passes`. -/
theorem push_attachment_atomic_witness :
    (((push_attachment render_pass_info_1 color_attachment).2
            = .ok render_pass_info_1.attachment.descriptions.count ∧
          (push_attachment render_pass_info_1 color_attachment).1.attachment.descriptions.count
            = render_pass_info_1.attachment.descriptions.count + 1 ∧
          (push_attachment render_pass_info_1 color_attachment).1.attachment.clear_values.count
            = render_pass_info_1.attachment.clear_values.count + 1) ∨
        (render_pass_info_1.attachment.descriptions.count
            = render_pass_info_1.attachment.descriptions.size ∧
          push_attachment render_pass_info_1 color_attachment =
            (render_pass_info_1,
              .error (.fatal "cannot push any more attachments to RenderPassInfo")))) ∧
      (push_attachment render_pass_info_1 color_attachment).1.attachment.descriptions.count
        = (push_attachment render_pass_info_1 color_attachment).1.attachment.clear_values.count ∧
      (push_attachment render_pass_info_1 color_attachment).1.attachment.descriptions.count
        ≤ (push_attachment render_pass_info_1 color_attachment).1.attachment.descriptions.size ∧
      (push_attachment render_pass_info_1 color_attachment).1.attachment.descriptions.size
        ≤ (push_attachment render_pass_info_1 color_attachment).1.attachment.clear_values.size :=
  push_attachment_atomic render_pass_info_1 color_attachment rfl (by decide) (by decide)

theorem validate_success (fail_message : String) :
    validate VK_SUCCESS fail_message = ([], none) := by
  unfold validate
  rw [if_neg (by simp)]

theorem push_subpass_descriptions_ok (fresh : VkSubpassDescription) :
    ∀ (infos : List SubpassInfo) (descriptions : CtkArray VkSubpassDescription),
      descriptions.count + infos.length ≤ descriptions.size →
      push_subpass_descriptions fresh infos descriptions =
        .ok { descriptions with
              data := descriptions.data ++ infos.map (subpass_description fresh) } := by
  intro infos
  induction infos with
  | nil =>
    intro descriptions _
    simp [push_subpass_descriptions]
  | cons subpass_info rest ih =>
    intro descriptions h
    simp only [List.length_cons, CtkArray.count] at h
    have hne : descriptions.count ≠ descriptions.size := by
      simp only [CtkArray.count]; omega
    have hrest := ih
      { descriptions with data := descriptions.data ++ [subpass_description fresh subpass_info] }
      (by simp only [CtkArray.count, List.length_append, List.length_singleton]; omega)
    rw [push_subpass_descriptions]
    simp only [CtkArray.push, if_neg hne]
    rw [hrest]
    simp

theorem create_render_pass_ok (fresh : VkSubpassDescription) (info : RenderPassInfo)
    (handle : Nat) :
    create_render_pass fresh info handle VK_SUCCESS =
      ([], .ok ({ handle := handle
                  attachment_clear_values :=
                    { data := info.attachment.clear_values.data
                      size := info.attachment.clear_values.count } },
                { attachmentCount := info.attachment.descriptions.count
                  pAttachments := info.attachment.descriptions.data
                  subpassCount := info.subpass.infos.count
                  pSubpasses := info.subpass.infos.data.map (subpass_description fresh)
                  dependencyCount := info.subpass.dependencies.count
                  pDependencies := info.subpass.dependencies.data })) := by
  have hconcat : (create_array info.attachment.clear_values.count).concat
      info.attachment.clear_values =
        .ok { data := info.attachment.clear_values.data
              size := info.attachment.clear_values.count } := by
    simp [CtkArray.concat, create_array, CtkArray.count]
  have hsub := push_subpass_descriptions_ok fresh info.subpass.infos.data
    (create_array info.subpass.infos.count) (by simp [create_array, CtkArray.count])
  unfold create_render_pass
  rw [hconcat, hsub, validate_success]
  simp [create_array, CtkArray.count]

theorem checked_success (gfx : FrameGraphics) (call : FrameCall) (fail_message : String) :
    checked gfx call VK_SUCCESS fail_message =
      ({ gfx with calls := gfx.calls ++ [call] }, none) := by
  unfold checked
  rw [validate_success]
  simp

/-- C13: for every `RenderPassInfo`, the render pass that `create_render_pass` produces carries
a clear-value array equal, element for element and in the same order, to the clear values of
the info, and `begin_render_cmds` passes exactly that array and its count as the clear values
of the begin info. -/
theorem render_pass_keeps_clear_values (fresh : VkSubpassDescription) (info : RenderPassInfo)
    (handle : Nat) (gfx : FrameGraphics) (cmd_buf framebuffer : Nat)
    (hframebuffer : gfx.framebuffers.data[gfx.sync.swap_img_idx]? = some framebuffer) :
    ∃ (render_pass : RenderPass) (create_info : VkRenderPassCreateInfo),
      create_render_pass fresh info handle VK_SUCCESS = ([], .ok (render_pass, create_info)) ∧
        render_pass.attachment_clear_values.data = info.attachment.clear_values.data ∧
        render_pass.attachment_clear_values.count = info.attachment.clear_values.count ∧
        (begin_render_cmds { gfx with render_pass := render_pass } cmd_buf VK_SUCCESS).2 = none ∧
        (begin_render_cmds { gfx with render_pass := render_pass } cmd_buf VK_SUCCESS).1.calls =
          gfx.calls ++
            [FrameCall.vkBeginCommandBuffer cmd_buf,
             FrameCall.vkCmdBeginRenderPass cmd_buf
               { renderPass := handle
                 framebuffer := framebuffer
                 clearValueCount := info.attachment.clear_values.count
                 pClearValues := info.attachment.clear_values.data
                 renderArea_offset := (0, 0)
                 renderArea_extent := gfx.swapchain.extent }
               VK_SUBPASS_CONTENTS_INLINE] := by
  refine ⟨_, _, create_render_pass_ok fresh info handle, rfl, rfl, ?_, ?_⟩
  · unfold begin_render_cmds
    rw [checked_success]
    simp only [hframebuffer]
  · unfold begin_render_cmds
    rw [checked_success]
    simp only [hframebuffer, CtkArray.count, List.append_assoc, List.singleton_append]

/-- The scenario of the specification: the render pass built from the one color attachment
with clear value `(0.1, 0.1, 0.1, 1)` and one subpass referencing attachment 0 has a
clear-value array of exactly that one entry, and the subpass refers to attachment 0. -/
theorem create_render_pass_scenario :
    create_render_pass zero_subpass_description render_pass_info_color 50 VK_SUCCESS =
      ([], .ok ({ handle := 50
                  attachment_clear_values :=
                    { data :=
                        [{ word0 := 1036831949, word1 := 1036831949, word2 := 1036831949,
                           word3 := 1065353216 }]
                      size := 1 } },
                { attachmentCount := 1
                  pAttachments := [color_attachment.description]
                  subpassCount := 1
                  pSubpasses :=
                    [{ zero_subpass_description with
                       colorAttachmentCount := 1
                       pColorAttachments := some [{ attachment := 0, layout := 2 }] }]
                  dependencyCount := 0
                  pDependencies := [] })) := by
  rw [create_render_pass_ok]
  rfl

/-- Witness of C13: the render pass of the scenario, begun on command buffer 201 while the
acquired swapchain image is image 1. -/
theorem render_pass_keeps_clear_values_witness :
    ∃ (render_pass : RenderPass) (create_info : VkRenderPassCreateInfo),
      create_render_pass zero_subpass_description render_pass_info_color 50 VK_SUCCESS
          = ([], .ok (render_pass, create_info)) ∧
        render_pass.attachment_clear_values.data
          = render_pass_info_color.attachment.clear_values.data ∧
        render_pass.attachment_clear_values.count
          = render_pass_info_color.attachment.clear_values.count ∧
        (begin_render_cmds
            { ({ frame_graphics_2 with
                 sync := { frame_graphics_2.sync with swap_img_idx := 1 } } : FrameGraphics) with
              render_pass := render_pass } 201 VK_SUCCESS).2 = none ∧
        (begin_render_cmds
            { ({ frame_graphics_2 with
                 sync := { frame_graphics_2.sync with swap_img_idx := 1 } } : FrameGraphics) with
              render_pass := render_pass } 201 VK_SUCCESS).1.calls =
          ({ frame_graphics_2 with
             sync := { frame_graphics_2.sync with swap_img_idx := 1 } } : FrameGraphics).calls ++
            [FrameCall.vkBeginCommandBuffer 201,
             FrameCall.vkCmdBeginRenderPass 201
               { renderPass := 50
                 framebuffer := 101
                 clearValueCount := render_pass_info_color.attachment.clear_values.count
                 pClearValues := render_pass_info_color.attachment.clear_values.data
                 renderArea_offset := (0, 0)
                 renderArea_extent :=
                   ({ frame_graphics_2 with
                      sync := { frame_graphics_2.sync with swap_img_idx := 1 } }
                     : FrameGraphics).swapchain.extent }
               VK_SUBPASS_CONTENTS_INLINE] :=
  render_pass_keeps_clear_values zero_subpass_description render_pass_info_color 50
    { frame_graphics_2 with sync := { frame_graphics_2.sync with swap_img_idx := 1 } } 201 101
    rfl

/-! ## Claims on `update_descriptor_set` -/

theorem descriptor_write_buffer (fresh : VkWriteDescriptorSet) (descriptor_set i : Nat)
    (binding : DescriptorBinding)
    (h : binding.type = VK_DESCRIPTOR_TYPE_UNIFORM_BUFFER ∨
      binding.type = VK_DESCRIPTOR_TYPE_UNIFORM_BUFFER_DYNAMIC ∨
      binding.type = VK_DESCRIPTOR_TYPE_STORAGE_BUFFER) :
    descriptor_write fresh descriptor_set i binding =
      .ok { fresh with
            sType := VK_STRUCTURE_TYPE_WRITE_DESCRIPTOR_SET
            dstSet := descriptor_set
            dstBinding := i
            dstArrayElement := 0
            descriptorCount := 1
            descriptorType := binding.type
            pBufferInfo := some binding.buffer } := by
  unfold descriptor_write
  rw [if_pos h]

theorem descriptor_write_image (fresh : VkWriteDescriptorSet) (descriptor_set i : Nat)
    (binding : DescriptorBinding)
    (h : binding.type = VK_DESCRIPTOR_TYPE_COMBINED_IMAGE_SAMPLER) :
    descriptor_write fresh descriptor_set i binding =
      .ok { fresh with
            sType := VK_STRUCTURE_TYPE_WRITE_DESCRIPTOR_SET
            dstSet := descriptor_set
            dstBinding := i
            dstArrayElement := 0
            descriptorCount := 1
            descriptorType := binding.type
            pImageInfo := some binding.image } := by
  unfold descriptor_write
  rw [if_neg (by rw [h]; decide), if_pos h]

theorem descriptor_write_unhandled (fresh : VkWriteDescriptorSet) (descriptor_set i : Nat)
    (binding : DescriptorBinding)
    (h : ¬ (binding.type = VK_DESCRIPTOR_TYPE_UNIFORM_BUFFER ∨
      binding.type = VK_DESCRIPTOR_TYPE_UNIFORM_BUFFER_DYNAMIC ∨
      binding.type = VK_DESCRIPTOR_TYPE_STORAGE_BUFFER ∨
      binding.type = VK_DESCRIPTOR_TYPE_COMBINED_IMAGE_SAMPLER)) :
    descriptor_write fresh descriptor_set i binding =
      .error (.fatal "unhandled descriptor type when updating descriptor set") := by
  unfold descriptor_write
  rw [if_neg (by tauto), if_neg (by tauto)]

theorem descriptor_write_handled (fresh : VkWriteDescriptorSet) (descriptor_set i : Nat)
    (binding : DescriptorBinding)
    (h : binding.type = VK_DESCRIPTOR_TYPE_UNIFORM_BUFFER ∨
      binding.type = VK_DESCRIPTOR_TYPE_UNIFORM_BUFFER_DYNAMIC ∨
      binding.type = VK_DESCRIPTOR_TYPE_STORAGE_BUFFER ∨
      binding.type = VK_DESCRIPTOR_TYPE_COMBINED_IMAGE_SAMPLER) :
    ∃ write, descriptor_write fresh descriptor_set i binding = .ok write := by
  rcases h with h | h | h | h
  · exact ⟨_, descriptor_write_buffer fresh descriptor_set i binding (Or.inl h)⟩
  · exact ⟨_, descriptor_write_buffer fresh descriptor_set i binding (Or.inr (Or.inl h))⟩
  · exact ⟨_, descriptor_write_buffer fresh descriptor_set i binding (Or.inr (Or.inr h))⟩
  · exact ⟨_, descriptor_write_image fresh descriptor_set i binding h⟩

theorem push_descriptor_writes_ok (fresh : VkWriteDescriptorSet) (descriptor_set : Nat) :
    ∀ (bindings : List DescriptorBinding) (i : Nat) (writes : CtkArray VkWriteDescriptorSet),
      (∀ b ∈ bindings, b.type = VK_DESCRIPTOR_TYPE_UNIFORM_BUFFER ∨
        b.type = VK_DESCRIPTOR_TYPE_UNIFORM_BUFFER_DYNAMIC ∨
        b.type = VK_DESCRIPTOR_TYPE_STORAGE_BUFFER ∨
        b.type = VK_DESCRIPTOR_TYPE_COMBINED_IMAGE_SAMPLER) →
      writes.count + bindings.length ≤ writes.size →
      ∃ added : List VkWriteDescriptorSet,
        push_descriptor_writes fresh descriptor_set i bindings writes
            = .ok { writes with data := writes.data ++ added } ∧
          added.length = bindings.length ∧
          ∀ k (hk : k < bindings.length), ∃ write,
            added[k]? = some write ∧
              descriptor_write fresh descriptor_set (i + k) (bindings.get ⟨k, hk⟩)
                = .ok write := by
  intro bindings
  induction bindings with
  | nil =>
    intro i writes _ _
    exact ⟨[], by simp [push_descriptor_writes], rfl, fun k hk => absurd hk (by simp)⟩
  | cons binding rest ih =>
    intro i writes hall hroom
    simp only [List.length_cons, CtkArray.count] at hroom
    obtain ⟨write, hwrite⟩ := descriptor_write_handled fresh descriptor_set i binding
      (hall binding (List.mem_cons_self _ _))
    have hne : writes.count ≠ writes.size := by
      simp only [CtkArray.count]; omega
    obtain ⟨added, hrest, hlen, hget⟩ := ih (i + 1) { writes with data := writes.data ++ [write] }
      (fun b hb => hall b (List.mem_cons_of_mem _ hb))
      (by simp only [CtkArray.count, List.length_append, List.length_singleton]; omega)
    refine ⟨write :: added, ?_, by simp [hlen], ?_⟩
    · rw [push_descriptor_writes, hwrite]
      simp only [CtkArray.push, if_neg hne]
      rw [hrest]
      simp
    · intro k hk
      cases k with
      | zero => exact ⟨write, by simp, hwrite⟩
      | succ k =>
        obtain ⟨w, hw1, hw2⟩ := hget k (by simpa using hk)
        refine ⟨w, by simpa using hw1, ?_⟩
        have hidx : i + (k + 1) = i + 1 + k := by omega
        rw [hidx]
        exact hw2

theorem push_descriptor_writes_unhandled (fresh : VkWriteDescriptorSet) (descriptor_set : Nat) :
    ∀ (bindings : List DescriptorBinding) (i : Nat) (writes : CtkArray VkWriteDescriptorSet),
      (∃ b ∈ bindings, ¬ (b.type = VK_DESCRIPTOR_TYPE_UNIFORM_BUFFER ∨
        b.type = VK_DESCRIPTOR_TYPE_UNIFORM_BUFFER_DYNAMIC ∨
        b.type = VK_DESCRIPTOR_TYPE_STORAGE_BUFFER ∨
        b.type = VK_DESCRIPTOR_TYPE_COMBINED_IMAGE_SAMPLER)) →
      writes.count + bindings.length ≤ writes.size →
      push_descriptor_writes fresh descriptor_set i bindings writes
        = .error (.fatal "unhandled descriptor type when updating descriptor set") := by
  intro bindings
  induction bindings with
  | nil =>
    intro i writes h _
    obtain ⟨b, hb, -⟩ := h
    exact absurd hb (by simp)
  | cons binding rest ih =>
    intro i writes h hroom
    simp only [List.length_cons, CtkArray.count] at hroom
    by_cases hhead : binding.type = VK_DESCRIPTOR_TYPE_UNIFORM_BUFFER ∨
        binding.type = VK_DESCRIPTOR_TYPE_UNIFORM_BUFFER_DYNAMIC ∨
        binding.type = VK_DESCRIPTOR_TYPE_STORAGE_BUFFER ∨
        binding.type = VK_DESCRIPTOR_TYPE_COMBINED_IMAGE_SAMPLER
    · obtain ⟨write, hwrite⟩ := descriptor_write_handled fresh descriptor_set i binding hhead
      have hne : writes.count ≠ writes.size := by
        simp only [CtkArray.count]; omega
      have htail : ∃ b ∈ rest, ¬ (b.type = VK_DESCRIPTOR_TYPE_UNIFORM_BUFFER ∨
          b.type = VK_DESCRIPTOR_TYPE_UNIFORM_BUFFER_DYNAMIC ∨
          b.type = VK_DESCRIPTOR_TYPE_STORAGE_BUFFER ∨
          b.type = VK_DESCRIPTOR_TYPE_COMBINED_IMAGE_SAMPLER) := by
        obtain ⟨b, hb, hbad⟩ := h
        rcases List.mem_cons.mp hb with heq | hmem
        · subst heq
          exact absurd hhead hbad
        · exact ⟨b, hmem, hbad⟩
      have hrest := ih (i + 1) { writes with data := writes.data ++ [write] } htail
        (by simp only [CtkArray.count, List.length_append, List.length_singleton]; omega)
      rw [push_descriptor_writes, hwrite]
      simp only [CtkArray.push, if_neg hne]
      rw [hrest]
    · rw [push_descriptor_writes, descriptor_write_unhandled fresh descriptor_set i binding hhead]

/-- C14: `update_descriptor_set` dispatches on the descriptor type of each binding `i`. When
every type is a buffer type (`UNIFORM_BUFFER`, `UNIFORM_BUFFER_DYNAMIC`, `STORAGE_BUFFER`) or
`COMBINED_IMAGE_SAMPLER`, the one descriptor update has a write per binding, write `i` targets
binding index `i`, and it carries the buffer info of binding `i` and no image info for a
buffer type, the image info of binding `i` and no buffer info for a combined image sampler.
When some binding has any other type, the call fails with the "unhandled descriptor type"
error and no descriptor update is issued. The storage that ctk hands out for a write has null
info pointers (`hfresh`). -/
theorem update_descriptor_set_dispatches (fresh : VkWriteDescriptorSet) (descriptor_set : Nat)
    (bindings : List DescriptorBinding)
    (hfresh : fresh.pBufferInfo = none ∧ fresh.pImageInfo = none) :
    ((∀ b ∈ bindings, b.type = VK_DESCRIPTOR_TYPE_UNIFORM_BUFFER ∨
          b.type = VK_DESCRIPTOR_TYPE_UNIFORM_BUFFER_DYNAMIC ∨
          b.type = VK_DESCRIPTOR_TYPE_STORAGE_BUFFER ∨
          b.type = VK_DESCRIPTOR_TYPE_COMBINED_IMAGE_SAMPLER) →
        ∃ writes : List VkWriteDescriptorSet,
          update_descriptor_set fresh descriptor_set bindings = .ok writes ∧
            writes.length = bindings.length ∧
            ∀ i (hi : i < bindings.length), ∃ write,
              writes[i]? = some write ∧ write.dstBinding = i ∧
                write.dstSet = descriptor_set ∧
                write.descriptorType = (bindings.get ⟨i, hi⟩).type ∧
                (((bindings.get ⟨i, hi⟩).type = VK_DESCRIPTOR_TYPE_UNIFORM_BUFFER ∨
                    (bindings.get ⟨i, hi⟩).type = VK_DESCRIPTOR_TYPE_UNIFORM_BUFFER_DYNAMIC ∨
                    (bindings.get ⟨i, hi⟩).type = VK_DESCRIPTOR_TYPE_STORAGE_BUFFER) →
                  write.pBufferInfo = some (bindings.get ⟨i, hi⟩).buffer ∧
                    write.pImageInfo = none) ∧
                ((bindings.get ⟨i, hi⟩).type = VK_DESCRIPTOR_TYPE_COMBINED_IMAGE_SAMPLER →
                  write.pImageInfo = some (bindings.get ⟨i, hi⟩).image ∧
                    write.pBufferInfo = none)) ∧
      ((∃ b ∈ bindings, ¬ (b.type = VK_DESCRIPTOR_TYPE_UNIFORM_BUFFER ∨
          b.type = VK_DESCRIPTOR_TYPE_UNIFORM_BUFFER_DYNAMIC ∨
          b.type = VK_DESCRIPTOR_TYPE_STORAGE_BUFFER ∨
          b.type = VK_DESCRIPTOR_TYPE_COMBINED_IMAGE_SAMPLER)) →
        update_descriptor_set fresh descriptor_set bindings
          = .error (.fatal "unhandled descriptor type when updating descriptor set")) := by
  obtain ⟨hfb, hfi⟩ := hfresh
  constructor
  · intro hall
    obtain ⟨added, hpush, hlen, hget⟩ := push_descriptor_writes_ok fresh descriptor_set bindings 0
      (create_array bindings.length) hall (by simp [create_array, CtkArray.count])
    refine ⟨added, ?_, hlen, ?_⟩
    · unfold update_descriptor_set
      rw [hpush]
      simp [create_array]
    · intro i hi
      obtain ⟨write, hw1, hw2⟩ := hget i hi
      rw [Nat.zero_add] at hw2
      refine ⟨write, hw1, ?_⟩
      rcases hall _ (List.get_mem bindings i hi) with h | h | h | h
      · rw [descriptor_write_buffer fresh descriptor_set i _ (Or.inl h)] at hw2
        simp only [Except.ok.injEq] at hw2
        subst hw2
        exact ⟨rfl, rfl, rfl, fun _ => ⟨rfl, hfi⟩, fun hc => absurd (h.symm.trans hc) (by decide)⟩
      · rw [descriptor_write_buffer fresh descriptor_set i _ (Or.inr (Or.inl h))] at hw2
        simp only [Except.ok.injEq] at hw2
        subst hw2
        exact ⟨rfl, rfl, rfl, fun _ => ⟨rfl, hfi⟩, fun hc => absurd (h.symm.trans hc) (by decide)⟩
      · rw [descriptor_write_buffer fresh descriptor_set i _ (Or.inr (Or.inr h))] at hw2
        simp only [Except.ok.injEq] at hw2
        subst hw2
        exact ⟨rfl, rfl, rfl, fun _ => ⟨rfl, hfi⟩, fun hc => absurd (h.symm.trans hc) (by decide)⟩
      · rw [descriptor_write_image fresh descriptor_set i _ h] at hw2
        simp only [Except.ok.injEq] at hw2
        subst hw2
        refine ⟨rfl, rfl, rfl, fun hb => ?_, fun _ => ⟨rfl, hfb⟩⟩
        rcases hb with hb | hb | hb
        · exact absurd (h.symm.trans hb) (by decide)
        · exact absurd (h.symm.trans hb) (by decide)
        · exact absurd (h.symm.trans hb) (by decide)
  · intro hbad
    unfold update_descriptor_set
    rw [push_descriptor_writes_unhandled fresh descriptor_set bindings 0
      (create_array bindings.length) hbad (by simp [create_array, CtkArray.count])]

/-- Witness of C14: a uniform buffer and a combined image sampler, on zero-filled storage. -/
theorem update_descriptor_set_dispatches_witness :
    ((∀ b ∈ bindings_buffer_image, b.type = VK_DESCRIPTOR_TYPE_UNIFORM_BUFFER ∨
          b.type = VK_DESCRIPTOR_TYPE_UNIFORM_BUFFER_DYNAMIC ∨
          b.type = VK_DESCRIPTOR_TYPE_STORAGE_BUFFER ∨
          b.type = VK_DESCRIPTOR_TYPE_COMBINED_IMAGE_SAMPLER) →
        ∃ writes : List VkWriteDescriptorSet,
          update_descriptor_set zero_write 60 bindings_buffer_image = .ok writes ∧
            writes.length = bindings_buffer_image.length ∧
            ∀ i (hi : i < bindings_buffer_image.length), ∃ write,
              writes[i]? = some write ∧ write.dstBinding = i ∧
                write.dstSet = 60 ∧
                write.descriptorType = (bindings_buffer_image.get ⟨i, hi⟩).type ∧
                (((bindings_buffer_image.get ⟨i, hi⟩).type = VK_DESCRIPTOR_TYPE_UNIFORM_BUFFER ∨
                    (bindings_buffer_image.get ⟨i, hi⟩).type
                      = VK_DESCRIPTOR_TYPE_UNIFORM_BUFFER_DYNAMIC ∨
                    (bindings_buffer_image.get ⟨i, hi⟩).type
                      = VK_DESCRIPTOR_TYPE_STORAGE_BUFFER) →
                  write.pBufferInfo = some (bindings_buffer_image.get ⟨i, hi⟩).buffer ∧
                    write.pImageInfo = none) ∧
                ((bindings_buffer_image.get ⟨i, hi⟩).type
                    = VK_DESCRIPTOR_TYPE_COMBINED_IMAGE_SAMPLER →
                  write.pImageInfo = some (bindings_buffer_image.get ⟨i, hi⟩).image ∧
                    write.pBufferInfo = none)) ∧
      ((∃ b ∈ bindings_buffer_image, ¬ (b.type = VK_DESCRIPTOR_TYPE_UNIFORM_BUFFER ∨
          b.type = VK_DESCRIPTOR_TYPE_UNIFORM_BUFFER_DYNAMIC ∨
          b.type = VK_DESCRIPTOR_TYPE_STORAGE_BUFFER ∨
          b.type = VK_DESCRIPTOR_TYPE_COMBINED_IMAGE_SAMPLER)) →
        update_descriptor_set zero_write 60 bindings_buffer_image
          = .error (.fatal "unhandled descriptor type when updating descriptor set")) :=
  update_descriptor_set_dispatches zero_write 60 bindings_buffer_image ⟨rfl, rfl⟩

/-- The two outcomes of `update_descriptor_set` on concrete bindings: writes 0 and 1 for the
buffer and the image, and the fatal error when a storage image (type 3) is among them. -/
theorem update_descriptor_set_examples :
    update_descriptor_set zero_write 60 bindings_buffer_image =
        .ok [{ zero_write with
               sType := 35, dstSet := 60, dstBinding := 0, descriptorCount := 1,
               descriptorType := 6, pBufferInfo := some { buffer := 1, offset := 0, range := 64 } },
             { zero_write with
               sType := 35, dstSet := 60, dstBinding := 1, descriptorCount := 1,
               descriptorType := 1,
               pImageInfo := some { sampler := 80, imageView := 81, imageLayout := 5 } }] ∧
      update_descriptor_set zero_write 60
          (bindings_buffer_image ++
            [{ type := 3
               buffer := { buffer := 0, offset := 0, range := 0 }
               image := { sampler := 0, imageView := 0, imageLayout := 0 } }])
        = .error (.fatal "unhandled descriptor type when updating descriptor set") := by
  constructor <;> rfl

/-! ## Claims on `validate` -/

theorem find_res_info_some :
    ∀ (table : List VkResultInfo) (result : Int) (res_info : VkResultInfo),
      ∃ found, find_res_info table result (some res_info) = some found := by
  intro table
  induction table with
  | nil => intro result res_info; exact ⟨res_info, rfl⟩
  | cons entry rest ih =>
    intro result res_info
    rw [find_res_info]
    split
    · exact ⟨entry, rfl⟩
    · exact ih result entry

/-- The call `print_result` never reaches its own fatal error: the table is not empty, so
`res_info` is not null after the loop. -/
theorem print_result_ok (result : Int) : ∃ entry, print_result result = .ok entry := by
  have h : ∃ found, find_res_info VK_RESULT_DEBUG_INFOS result none = some found := by
    unfold VK_RESULT_DEBUG_INFOS
    rw [find_res_info]
    split
    · exact ⟨_, rfl⟩
    · exact find_res_info_some _ _ _
  obtain ⟨found, hfound⟩ := h
  unfold print_result
  rw [hfound]
  simp only
  split
  · exact ⟨_, rfl⟩
  · split
    · exact ⟨_, rfl⟩
    · exact ⟨_, rfl⟩

theorem validate_failure (result : Int) (entry : LogEntry) (fail_message : String)
    (hresult : result ≠ VK_SUCCESS) (hentry : print_result result = .ok entry) :
    validate result fail_message = ([entry], some (.fatal fail_message)) := by
  unfold validate
  rw [if_pos hresult, hentry]

set_option maxRecDepth 100000 in
theorem print_result_of_table_option :
    ∀ entry ∈ VK_RESULT_DEBUG_INFOS,
      (print_result entry.result).toOption =
        some { severity :=
                 if entry.result = 0 then Severity.info
                 else if entry.result > 0 then Severity.warning else Severity.error
               name := entry.name
               message := entry.message } := by
  decide

/-- What `print_result` logs for a status of its table: the name and message of that entry,
as information for 0, as a warning for a positive and as an error for a negative status. -/
theorem print_result_of_table (entry : VkResultInfo) (hentry : entry ∈ VK_RESULT_DEBUG_INFOS) :
    print_result entry.result =
      .ok { severity :=
              if entry.result = 0 then Severity.info
              else if entry.result > 0 then Severity.warning else Severity.error
            name := entry.name
            message := entry.message } := by
  obtain ⟨logged, hlogged⟩ := print_result_ok entry.result
  have h := print_result_of_table_option entry hentry
  rw [hlogged] at h ⊢
  simp only [Except.toOption, Option.some.injEq] at h
  rw [h]

set_option maxRecDepth 100000 in
/-- C19, counterexample: the status -13 (`VK_ERROR_UNKNOWN`) has no entry in the table of
`print_result`; `validate` then logs the line of the last entry,
`VK_ERROR_FULL_SCREEN_EXCLUSIVE_MODE_LOST_EXT`, which is the diagnostic of another status,
before it terminates with the failure message of the caller. -/
theorem validate_logs_another_status :
    (∀ entry ∈ VK_RESULT_DEBUG_INFOS, entry.result ≠ -13) ∧
      (validate (-13) "vkQueueSubmit failed").1.map LogEntry.name
        = ["VK_ERROR_FULL_SCREEN_EXCLUSIVE_MODE_LOST_EXT"] ∧
      (validate (-13) "vkQueueSubmit failed").1
        = (validate VK_ERROR_FULL_SCREEN_EXCLUSIVE_MODE_LOST_EXT "vkQueueSubmit failed").1 ∧
      (validate (-13) "vkQueueSubmit failed").2 = some (Failure.fatal "vkQueueSubmit failed") := by
  decide

/-- C19, amended: `validate(result, message)` is a no-op (no diagnostic, no termination) if
and only if `result` is the success status; for every other status that has an entry in the
table of `print_result` it logs the diagnostic of that status, as a warning for a positive and
as an error for a negative status, and terminates with the failure message of the caller. -/
theorem validate_noop_iff_success (result : Int) (fail_message : String) :
    (validate result fail_message = ([], none) ↔ result = VK_SUCCESS) ∧
      (∀ entry ∈ VK_RESULT_DEBUG_INFOS, entry.result = result → result ≠ VK_SUCCESS →
        validate result fail_message =
          ([{ severity := if result > 0 then Severity.warning else Severity.error
              name := entry.name
              message := entry.message }],
           some (.fatal fail_message))) := by
  constructor
  · constructor
    · intro h
      by_contra hne
      obtain ⟨entry, hentry⟩ := print_result_ok result
      rw [validate_failure result entry fail_message hne hentry] at h
      simp at h
    · intro h
      rw [h, validate_success]
  · intro entry hmem heq hne
    have hprint := print_result_of_table entry hmem
    rw [heq] at hprint
    have hzero : ¬ result = 0 := hne
    rw [if_neg hzero] at hprint
    exact validate_failure result _ fail_message hne hprint

/-- Witness of the amended C19: the status `VK_TIMEOUT` of a fence wait. -/
theorem validate_noop_iff_success_witness :
    validate VK_TIMEOUT "vkWaitForFences failed" =
      ([{ severity := Severity.warning
          name := "VK_TIMEOUT"
          message :=
            "VULKAN SPEC ERROR MESSAGE: A wait operation has not completed in the specified time." }],
       some (.fatal "vkWaitForFences failed")) :=
  (validate_noop_iff_success VK_TIMEOUT "vkWaitForFences failed").2
    { result := VK_TIMEOUT
      name := "VK_TIMEOUT"
      message :=
        "VULKAN SPEC ERROR MESSAGE: A wait operation has not completed in the specified time." }
    (by decide) rfl (by decide)

/-! ## Claims on the frame loop -/

/-- The result of `next_frame` in each of its four courses, once the selected slot exists. -/
theorem next_frame_eq (gfx : FrameGraphics) (wait_result reset_result acquire_result : Int)
    (image_index : Nat) (frame : Frame)
    (hslot : gfx.sync.frames.data[next_frame_idx gfx.sync.frame_idx gfx.sync.frames.size]?
      = some frame) :
    next_frame gfx wait_result reset_result acquire_result image_index =
      if wait_result ≠ VK_SUCCESS then
        ({ gfx with
           sync :=
             { gfx.sync with
               frame_idx := next_frame_idx gfx.sync.frame_idx gfx.sync.frames.size
               frame := next_frame_idx gfx.sync.frame_idx gfx.sync.frames.size }
           calls := gfx.calls ++ [.vkWaitForFences [frame.in_flight] VK_TRUE U64_MAX]
           log := gfx.log ++ (validate wait_result "vkWaitForFences failed").1 },
         some (.fatal "vkWaitForFences failed"))
      else if reset_result ≠ VK_SUCCESS then
        ({ gfx with
           sync :=
             { gfx.sync with
               frame_idx := next_frame_idx gfx.sync.frame_idx gfx.sync.frames.size
               frame := next_frame_idx gfx.sync.frame_idx gfx.sync.frames.size }
           calls :=
             gfx.calls ++
               [.vkWaitForFences [frame.in_flight] VK_TRUE U64_MAX,
                .vkResetFences [frame.in_flight]]
           log := gfx.log ++ (validate reset_result "vkResetFences failed").1 },
         some (.fatal "vkResetFences failed"))
      else
        ({ gfx with
           sync :=
             { gfx.sync with
               swap_img_idx := image_index
               frame_idx := next_frame_idx gfx.sync.frame_idx gfx.sync.frames.size
               frame := next_frame_idx gfx.sync.frame_idx gfx.sync.frames.size }
           calls :=
             gfx.calls ++
               [.vkWaitForFences [frame.in_flight] VK_TRUE U64_MAX,
                .vkResetFences [frame.in_flight],
                .vkAcquireNextImageKHR gfx.swapchain.handle U64_MAX frame.img_aquired
                  VK_NULL_HANDLE]
           log :=
             gfx.log ++ (validate acquire_result "failed to aquire next swapchain image").1 },
         if acquire_result ≠ VK_SUCCESS then
           some (.fatal "failed to aquire next swapchain image")
         else none) := by
  unfold next_frame
  simp only [hslot]
  by_cases hw : wait_result ≠ VK_SUCCESS
  · obtain ⟨entry, hentry⟩ := print_result_ok wait_result
    rw [if_pos hw]
    simp only [checked, validate_failure wait_result entry _ hw hentry]
  · rw [if_neg hw]
    have hw0 : wait_result = VK_SUCCESS := not_not.mp hw
    subst hw0
    by_cases hr : reset_result ≠ VK_SUCCESS
    · obtain ⟨entry, hentry⟩ := print_result_ok reset_result
      rw [if_pos hr]
      simp only [checked, validate_success, validate_failure reset_result entry _ hr hentry,
        List.append_nil, List.append_assoc, List.singleton_append, List.cons_append,
          List.nil_append]
    · rw [if_neg hr]
      have hr0 : reset_result = VK_SUCCESS := not_not.mp hr
      subst hr0
      by_cases ha : acquire_result ≠ VK_SUCCESS
      · obtain ⟨entry, hentry⟩ := print_result_ok acquire_result
        rw [if_pos ha]
        simp only [checked, validate_success, validate_failure acquire_result entry _ ha hentry,
          List.append_nil, List.append_assoc, List.singleton_append, List.cons_append,
          List.nil_append]
      · rw [if_neg ha]
        have ha0 : acquire_result = VK_SUCCESS := not_not.mp ha
        subst ha0
        simp only [checked, validate_success, List.append_nil, List.append_assoc,
          List.singleton_append, List.cons_append, List.nil_append]

/-- Whatever the device returns, `next_frame` leaves the frame index and the current frame at
the slot its first statement selects, and the slots themselves as they were. -/
theorem next_frame_sync (gfx : FrameGraphics) (wait_result reset_result acquire_result : Int)
    (image_index : Nat) :
    (next_frame gfx wait_result reset_result acquire_result image_index).1.sync.frame_idx
        = next_frame_idx gfx.sync.frame_idx gfx.sync.frames.size ∧
      (next_frame gfx wait_result reset_result acquire_result image_index).1.sync.frame
        = next_frame_idx gfx.sync.frame_idx gfx.sync.frames.size ∧
      (next_frame gfx wait_result reset_result acquire_result image_index).1.sync.frames
        = gfx.sync.frames := by
  cases hslot : gfx.sync.frames.data[next_frame_idx gfx.sync.frame_idx gfx.sync.frames.size]? with
  | none =>
    unfold next_frame
    simp only [hslot]
    exact ⟨trivial, trivial, trivial⟩
  | some frame =>
    rw [next_frame_eq gfx wait_result reset_result acquire_result image_index frame hslot]
    split
    · exact ⟨rfl, rfl, rfl⟩
    · split
      · exact ⟨rfl, rfl, rfl⟩
      · exact ⟨rfl, rfl, rfl⟩

/-- On a ring of `size` slots, `size` a `u32`, the first statement of `next_frame` takes an
index below `size` to its successor modulo `size`. -/
theorem next_frame_idx_mod (frame_idx size : Nat) (hidx : frame_idx < size)
    (hsize : size < U32_SIZE) : next_frame_idx frame_idx size = (frame_idx + 1) % size := by
  unfold next_frame_idx
  have h32 : (frame_idx + 1) % U32_SIZE = frame_idx + 1 := Nat.mod_eq_of_lt (by omega)
  rw [h32]
  by_cases h : frame_idx + 1 ≥ size
  · rw [if_pos h]
    have heq : frame_idx + 1 = size := by omega
    rw [heq, Nat.mod_self]
  · rw [if_neg h]
    exact (Nat.mod_eq_of_lt (by omega)).symm

/-- The slots of a run of successful `next_frame` calls from frame index `i`: the successors
of `i` modulo the slot count, in turn. -/
theorem next_frame_slots_from :
    ∀ (results : List (Int × Int × Int × Nat)) (gfx : FrameGraphics),
      gfx.sync.frames.size < U32_SIZE →
      gfx.sync.frames.data.length = gfx.sync.frames.size →
      gfx.sync.frame_idx < gfx.sync.frames.size →
      (∀ x ∈ results, x.1 = VK_SUCCESS ∧ x.2.1 = VK_SUCCESS ∧ x.2.2.1 = VK_SUCCESS) →
      next_frame_slots gfx results =
        (List.range results.length).map
          (fun j => (gfx.sync.frame_idx + 1 + j) % gfx.sync.frames.size) := by
  intro results
  induction results with
  | nil => intro gfx _ _ _ _; rfl
  | cons x rest ih =>
    intro gfx hsize hlen hidx hall
    obtain ⟨wait_result, reset_result, acquire_result, image_index⟩ := x
    have hx := hall _ (List.mem_cons_self _ _)
    simp only at hx
    obtain ⟨hw, hr, ha⟩ := hx
    subst hw hr ha
    have hnext := next_frame_idx_mod _ _ hidx hsize
    have hlt : (gfx.sync.frame_idx + 1) % gfx.sync.frames.size < gfx.sync.frames.size :=
      Nat.mod_lt _ (by omega)
    have hsync := next_frame_sync gfx VK_SUCCESS VK_SUCCESS VK_SUCCESS image_index
    have hslot : gfx.sync.frames.data[next_frame_idx gfx.sync.frame_idx gfx.sync.frames.size]?
        = some (gfx.sync.frames.data.get
            ⟨next_frame_idx gfx.sync.frame_idx gfx.sync.frames.size, by rw [hnext, hlen]; exact hlt⟩) :=
      List.getElem?_eq_getElem _
    have hnone : (next_frame gfx VK_SUCCESS VK_SUCCESS VK_SUCCESS image_index).2 = none := by
      rw [next_frame_eq gfx _ _ _ image_index _ hslot]
      simp
    rw [next_frame_slots]
    cases hout : next_frame gfx VK_SUCCESS VK_SUCCESS VK_SUCCESS image_index with
    | mk gfx' failure =>
      rw [hout] at hsync hnone
      simp only at hsync hnone
      subst hnone
      obtain ⟨hidx', hframe', hframes'⟩ := hsync
      simp only
      have hrest := ih gfx' (by rw [hframes']; exact hsize) (by rw [hframes']; exact hlen)
        (by rw [hframes', hidx', hnext]; exact hlt)
        (fun y hy => hall y (List.mem_cons_of_mem _ hy))
      rw [hrest, hframe', hidx', hframes', hnext, List.length_cons, List.range_succ_eq_map,
        List.map_cons, List.map_map]
      congr 1
      apply List.map_congr_left
      intro j _
      simp only [Function.comp_apply]
      rw [Nat.add_assoc ((gfx.sync.frame_idx + 1) % gfx.sync.frames.size), Nat.mod_add_mod]
      congr 1
      omega

/-- The successors modulo `n + 1` of 0, 1, .., `n`: the indexes 1 to `n`, then 0. -/
theorem ring_successors (n : Nat) :
    (List.range (n + 1)).map (fun j => (0 + 1 + j) % (n + 1)) = List.range' 1 n ++ [0] := by
  rw [List.range_succ, List.map_append, List.map_singleton]
  congr 1
  · rw [List.range'_eq_map_range]
    apply List.map_congr_left
    intro j hj
    rw [List.mem_range] at hj
    rw [Nat.zero_add]
    exact Nat.mod_eq_of_lt (by omega)
  · rw [Nat.zero_add, Nat.add_comm 1 n, Nat.mod_self]

/-- C15: on a ring of N >= 1 slots (N a `u32`) with frame index i < N, one `next_frame` sets
the frame index and the current frame to (i + 1) mod N, whatever the device returns; and N
successful `next_frame` calls that start at frame slot 0 select every slot exactly once, the
last of them slot 0. -/
theorem next_frame_ring (gfx : FrameGraphics) (wait_result reset_result acquire_result : Int)
    (image_index : Nat) (hslots : 1 ≤ gfx.sync.frames.size)
    (hsize : gfx.sync.frames.size < U32_SIZE)
    (hidx : gfx.sync.frame_idx < gfx.sync.frames.size) :
    (next_frame gfx wait_result reset_result acquire_result image_index).1.sync.frame_idx
        = (gfx.sync.frame_idx + 1) % gfx.sync.frames.size ∧
      (next_frame gfx wait_result reset_result acquire_result image_index).1.sync.frame
        = (gfx.sync.frame_idx + 1) % gfx.sync.frames.size ∧
      (gfx.sync.frame_idx = 0 →
        gfx.sync.frames.data.length = gfx.sync.frames.size →
        ∀ results : List (Int × Int × Int × Nat),
          results.length = gfx.sync.frames.size →
          (∀ x ∈ results, x.1 = VK_SUCCESS ∧ x.2.1 = VK_SUCCESS ∧ x.2.2.1 = VK_SUCCESS) →
          (next_frame_slots gfx results).Perm (List.range gfx.sync.frames.size) ∧
            (next_frame_slots gfx results).getLast? = some 0) := by
  have hsync := next_frame_sync gfx wait_result reset_result acquire_result image_index
  have hnext := next_frame_idx_mod _ _ hidx hsize
  refine ⟨by rw [hsync.1, hnext], by rw [hsync.2.1, hnext], ?_⟩
  intro hzero hlen results hcount hall
  have hrun := next_frame_slots_from results gfx hsize hlen hidx hall
  obtain ⟨n, hn⟩ : ∃ n, gfx.sync.frames.size = n + 1 := ⟨gfx.sync.frames.size - 1, by omega⟩
  rw [hcount, hzero, hn, ring_successors] at hrun
  rw [hrun, hn]
  constructor
  · rw [List.range_eq_range', List.range'_succ]
    exact List.perm_append_singleton 0 (List.range' 1 n)
  · simp

/-- Witness of C15: the two slots of `frame_graphics_slot_0`; two successful calls from slot 0
select slot 1, then slot 0. -/
theorem next_frame_ring_witness :
    (next_frame frame_graphics_slot_0 VK_SUCCESS VK_SUCCESS VK_SUCCESS 2).1.sync.frame_idx
        = (0 + 1) % 2 ∧
      (next_frame_slots frame_graphics_slot_0
          [(VK_SUCCESS, VK_SUCCESS, VK_SUCCESS, 2), (VK_SUCCESS, VK_SUCCESS, VK_SUCCESS, 0)]).Perm
        (List.range 2) ∧
      (next_frame_slots frame_graphics_slot_0
          [(VK_SUCCESS, VK_SUCCESS, VK_SUCCESS, 2),
           (VK_SUCCESS, VK_SUCCESS, VK_SUCCESS, 0)]).getLast? = some 0 :=
  ⟨(next_frame_ring frame_graphics_slot_0 VK_SUCCESS VK_SUCCESS VK_SUCCESS 2
      (by decide) (by decide) (by decide)).1,
   (next_frame_ring frame_graphics_slot_0 VK_SUCCESS VK_SUCCESS VK_SUCCESS 2
      (by decide) (by decide) (by decide)).2.2 rfl rfl
      [(VK_SUCCESS, VK_SUCCESS, VK_SUCCESS, 2), (VK_SUCCESS, VK_SUCCESS, VK_SUCCESS, 0)] rfl
      (by decide)⟩

/-- The run of `next_frame` calls from the state `init_sync` leaves: the first call selects
slot 0, the next ones slot 1 and slot 0 again. -/
theorem next_frame_slots_example :
    next_frame_slots frame_graphics_2
        [(VK_SUCCESS, VK_SUCCESS, VK_SUCCESS, 0), (VK_SUCCESS, VK_SUCCESS, VK_SUCCESS, 1),
         (VK_SUCCESS, VK_SUCCESS, VK_SUCCESS, 2)] = [0, 1, 0] ∧
      next_frame_slots frame_graphics_slot_0
        [(VK_SUCCESS, VK_SUCCESS, VK_SUCCESS, 2), (VK_SUCCESS, VK_SUCCESS, VK_SUCCESS, 0)]
        = [1, 0] := by
  decide

/-- C16: every `next_frame` call first waits on the in-flight fence of the newly selected
slot, then, if the wait returned success, resets that fence, then, if the reset returned
success, acquires the next swapchain image with the image-acquired semaphore of the same slot;
a result other than success of any of the three ends the call with that call's failure
message, before the later steps. -/
theorem next_frame_orders_calls (gfx : FrameGraphics)
    (wait_result reset_result acquire_result : Int) (image_index : Nat) (frame : Frame)
    (hslot : gfx.sync.frames.data[next_frame_idx gfx.sync.frame_idx gfx.sync.frames.size]?
      = some frame) :
    (next_frame gfx wait_result reset_result acquire_result image_index).1.sync.frame
        = next_frame_idx gfx.sync.frame_idx gfx.sync.frames.size ∧
      (next_frame gfx wait_result reset_result acquire_result image_index).1.calls
        = gfx.calls ++
          (FrameCall.vkWaitForFences [frame.in_flight] VK_TRUE U64_MAX ::
            if wait_result = VK_SUCCESS then
              FrameCall.vkResetFences [frame.in_flight] ::
                if reset_result = VK_SUCCESS then
                  [FrameCall.vkAcquireNextImageKHR gfx.swapchain.handle U64_MAX
                    frame.img_aquired VK_NULL_HANDLE]
                else []
            else []) ∧
      (next_frame gfx wait_result reset_result acquire_result image_index).2
        = (if wait_result ≠ VK_SUCCESS then some (.fatal "vkWaitForFences failed")
           else if reset_result ≠ VK_SUCCESS then some (.fatal "vkResetFences failed")
           else if acquire_result ≠ VK_SUCCESS then
             some (.fatal "failed to aquire next swapchain image")
           else none) := by
  rw [next_frame_eq gfx wait_result reset_result acquire_result image_index frame hslot]
  by_cases hw : wait_result = VK_SUCCESS
  · by_cases hr : reset_result = VK_SUCCESS
    · simp [hw, hr]
    · simp [hw, hr]
  · simp [hw]

/-- Witness of C16: the first frame after `init_sync`, with a reset that returns
`VK_ERROR_DEVICE_LOST`: the wait and the reset on fence 13 of slot 0, no acquire. -/
theorem next_frame_orders_calls_witness :
    (next_frame frame_graphics_2 VK_SUCCESS VK_ERROR_DEVICE_LOST VK_SUCCESS 1).1.calls
        = [FrameCall.vkWaitForFences [13] VK_TRUE U64_MAX, FrameCall.vkResetFences [13]] ∧
      (next_frame frame_graphics_2 VK_SUCCESS VK_ERROR_DEVICE_LOST VK_SUCCESS 1).2
        = some (.fatal "vkResetFences failed") :=
  ⟨(next_frame_orders_calls frame_graphics_2 VK_SUCCESS VK_ERROR_DEVICE_LOST VK_SUCCESS 1
      { img_aquired := 11, render_finished := 12, in_flight := 13 } rfl).2.1,
   (next_frame_orders_calls frame_graphics_2 VK_SUCCESS VK_ERROR_DEVICE_LOST VK_SUCCESS 1
      { img_aquired := 11, render_finished := 12, in_flight := 13 } rfl).2.2⟩

/-- The result of `submit_render_cmds` in each of its courses, once the current slot and the
command buffer of the current image exist. -/
theorem submit_render_cmds_eq (gfx : FrameGraphics) (submit_result present_result : Int)
    (frame : Frame) (cmd_buf : Nat)
    (hframe : gfx.sync.frames.data[gfx.sync.frame]? = some frame)
    (hcmd : gfx.primary_render_cmd_bufs.data[gfx.sync.swap_img_idx]? = some cmd_buf) :
    submit_render_cmds gfx submit_result present_result =
      if submit_result ≠ VK_SUCCESS then
        ({ gfx with
           calls :=
             gfx.calls ++
               [.vkQueueSubmit gfx.queue.graphics
                 [{ waitSemaphoreCount := 1
                    pWaitSemaphores := [frame.img_aquired]
                    pWaitDstStageMask := [VK_PIPELINE_STAGE_COLOR_ATTACHMENT_OUTPUT_BIT]
                    commandBufferCount := 1
                    pCommandBuffers := [cmd_buf]
                    signalSemaphoreCount := 1
                    pSignalSemaphores := [frame.render_finished] }]
                 frame.in_flight]
           log := gfx.log ++ (validate submit_result "vkQueueSubmit failed").1 },
         some (.fatal "vkQueueSubmit failed"))
      else
        ({ gfx with
           calls :=
             gfx.calls ++
               [.vkQueueSubmit gfx.queue.graphics
                 [{ waitSemaphoreCount := 1
                    pWaitSemaphores := [frame.img_aquired]
                    pWaitDstStageMask := [VK_PIPELINE_STAGE_COLOR_ATTACHMENT_OUTPUT_BIT]
                    commandBufferCount := 1
                    pCommandBuffers := [cmd_buf]
                    signalSemaphoreCount := 1
                    pSignalSemaphores := [frame.render_finished] }]
                 frame.in_flight,
                .vkQueuePresentKHR gfx.queue.present
                 { waitSemaphoreCount := 1
                   pWaitSemaphores := [frame.render_finished]
                   swapchainCount := 1
                   pSwapchains := [gfx.swapchain.handle]
                   pImageIndices := [gfx.sync.swap_img_idx] }]
           log := gfx.log ++ (validate present_result "vkQueuePresentKHR failed").1 },
         if present_result ≠ VK_SUCCESS then some (.fatal "vkQueuePresentKHR failed")
         else none) := by
  unfold submit_render_cmds
  simp only [hframe, hcmd]
  by_cases hs : submit_result ≠ VK_SUCCESS
  · obtain ⟨entry, hentry⟩ := print_result_ok submit_result
    rw [if_pos hs]
    simp only [checked, validate_failure submit_result entry _ hs hentry]
  · rw [if_neg hs]
    have hs0 : submit_result = VK_SUCCESS := not_not.mp hs
    subst hs0
    by_cases hp : present_result ≠ VK_SUCCESS
    · obtain ⟨entry, hentry⟩ := print_result_ok present_result
      rw [if_pos hp]
      simp only [checked, validate_success, validate_failure present_result entry _ hp hentry,
        List.append_nil, List.append_assoc, List.singleton_append, List.cons_append,
        List.nil_append]
    · rw [if_neg hp]
      have hp0 : present_result = VK_SUCCESS := not_not.mp hp
      subst hp0
      simp only [checked, validate_success, List.append_nil, List.append_assoc,
        List.singleton_append, List.cons_append, List.nil_append]

/-- C17: `submit_render_cmds` submits one `VkSubmitInfo` with exactly one command buffer (the
one of image `swap_img_idx`), whose wait semaphore is the image-acquired semaphore of the
current slot at the color-attachment-output stage, whose signal semaphore is the
render-finished semaphore of that slot, with the in-flight fence of that slot; only if that
submission returns success it presents image `swap_img_idx`, waiting on the same
render-finished semaphore. -/
theorem submit_render_cmds_submits_then_presents (gfx : FrameGraphics)
    (submit_result present_result : Int) (frame : Frame) (cmd_buf : Nat)
    (hframe : gfx.sync.frames.data[gfx.sync.frame]? = some frame)
    (hcmd : gfx.primary_render_cmd_bufs.data[gfx.sync.swap_img_idx]? = some cmd_buf) :
    (submit_render_cmds gfx submit_result present_result).1.calls
        = gfx.calls ++
          (FrameCall.vkQueueSubmit gfx.queue.graphics
              [{ waitSemaphoreCount := 1
                 pWaitSemaphores := [frame.img_aquired]
                 pWaitDstStageMask := [VK_PIPELINE_STAGE_COLOR_ATTACHMENT_OUTPUT_BIT]
                 commandBufferCount := 1
                 pCommandBuffers := [cmd_buf]
                 signalSemaphoreCount := 1
                 pSignalSemaphores := [frame.render_finished] }]
              frame.in_flight ::
            if submit_result = VK_SUCCESS then
              [FrameCall.vkQueuePresentKHR gfx.queue.present
                { waitSemaphoreCount := 1
                  pWaitSemaphores := [frame.render_finished]
                  swapchainCount := 1
                  pSwapchains := [gfx.swapchain.handle]
                  pImageIndices := [gfx.sync.swap_img_idx] }]
            else []) ∧
      (submit_render_cmds gfx submit_result present_result).2
        = (if submit_result ≠ VK_SUCCESS then some (.fatal "vkQueueSubmit failed")
           else if present_result ≠ VK_SUCCESS then some (.fatal "vkQueuePresentKHR failed")
           else none) := by
  rw [submit_render_cmds_eq gfx submit_result present_result frame cmd_buf hframe hcmd]
  by_cases hs : submit_result = VK_SUCCESS
  · simp [hs]
  · simp [hs]

/-- Witness of C17: slot 1 is current and image 2 acquired; the submission of command buffer
202 waits on semaphore 21 and signals semaphore 22 and fence 23, and the presentation that
follows it waits on semaphore 22 and presents image 2. -/
theorem submit_render_cmds_submits_then_presents_witness :
    (submit_render_cmds frame_graphics_acquired VK_SUCCESS VK_SUCCESS).1.calls
        = frame_graphics_acquired.calls ++
          [FrameCall.vkQueueSubmit 70
             [{ waitSemaphoreCount := 1
                pWaitSemaphores := [21]
                pWaitDstStageMask := [VK_PIPELINE_STAGE_COLOR_ATTACHMENT_OUTPUT_BIT]
                commandBufferCount := 1
                pCommandBuffers := [202]
                signalSemaphoreCount := 1
                pSignalSemaphores := [22] }]
             23,
           FrameCall.vkQueuePresentKHR 71
             { waitSemaphoreCount := 1
               pWaitSemaphores := [22]
               swapchainCount := 1
               pSwapchains := [9]
               pImageIndices := [2] }] ∧
      (submit_render_cmds frame_graphics_acquired VK_SUCCESS VK_SUCCESS).2 = none :=
  submit_render_cmds_submits_then_presents frame_graphics_acquired VK_SUCCESS VK_SUCCESS
    { img_aquired := 21, render_finished := 22, in_flight := 23 } 202 rfl rfl

/-- The calls recorded for the entities depend on the frame state only through the mesh
buffers, the two pipelines and the texture descriptor set. -/
theorem record_entities_congr (entity_data : EntityData) (gfx' gfx : FrameGraphics)
    (cmd_buf : Nat) (hmesh : gfx'.mesh_data = gfx.mesh_data)
    (htest : gfx'.pipeline_test = gfx.pipeline_test)
    (htexture : gfx'.pipeline_texture = gfx.pipeline_texture)
    (hsets : gfx'.descriptor_set_texture_handles = gfx.descriptor_set_texture_handles) :
    ∀ entities : List Nat,
      record_entities entity_data gfx' cmd_buf entities
        = record_entities entity_data gfx cmd_buf entities := by
  intro entities
  induction entities with
  | nil => rfl
  | cons i rest ih =>
    rw [record_entities, record_entities, ih]
    simp only [record_entity, bind_mesh_data, hmesh, htest, htexture, hsets]

/-- C18: in a frame whose calls all return success, with `k` the image index the acquire of
`next_frame` returns, the command buffer recorded and submitted is entry `k` of
`primary_render_cmd_bufs`, the framebuffer of the render pass is entry `k` of `framebuffers`
and the image presented is `k`, for every frame slot index; the slot only selects the fence
and the semaphores. -/
theorem render_frame_uses_image_index (entity_data : EntityData) (gfx : FrameGraphics)
    (results : FrameResults) (frame : Frame) (cmd_buf framebuffer : Nat)
    (hresults : results.wait_result = VK_SUCCESS ∧ results.reset_result = VK_SUCCESS ∧
      results.acquire_result = VK_SUCCESS ∧ results.begin_result = VK_SUCCESS ∧
      results.submit_result = VK_SUCCESS ∧ results.present_result = VK_SUCCESS)
    (hslot : gfx.sync.frames.data[next_frame_idx gfx.sync.frame_idx gfx.sync.frames.size]?
      = some frame)
    (hcmd : gfx.primary_render_cmd_bufs.data[results.image_index]? = some cmd_buf)
    (hframebuffer : gfx.framebuffers.data[results.image_index]? = some framebuffer) :
    (render_frame entity_data gfx results).1.calls
        = gfx.calls ++
          [FrameCall.vkWaitForFences [frame.in_flight] VK_TRUE U64_MAX,
           FrameCall.vkResetFences [frame.in_flight],
           FrameCall.vkAcquireNextImageKHR gfx.swapchain.handle U64_MAX frame.img_aquired
             VK_NULL_HANDLE,
           FrameCall.vkBeginCommandBuffer cmd_buf,
           FrameCall.vkCmdBeginRenderPass cmd_buf
             { renderPass := gfx.render_pass.handle
               framebuffer := framebuffer
               clearValueCount := gfx.render_pass.attachment_clear_values.count
               pClearValues := gfx.render_pass.attachment_clear_values.data
               renderArea_offset := (0, 0)
               renderArea_extent := gfx.swapchain.extent }
             VK_SUBPASS_CONTENTS_INLINE] ++
          record_entities entity_data gfx cmd_buf (List.range entity_data.count) ++
          end_render_cmds cmd_buf ++
          [FrameCall.vkQueueSubmit gfx.queue.graphics
             [{ waitSemaphoreCount := 1
                pWaitSemaphores := [frame.img_aquired]
                pWaitDstStageMask := [VK_PIPELINE_STAGE_COLOR_ATTACHMENT_OUTPUT_BIT]
                commandBufferCount := 1
                pCommandBuffers := [cmd_buf]
                signalSemaphoreCount := 1
                pSignalSemaphores := [frame.render_finished] }]
             frame.in_flight,
           FrameCall.vkQueuePresentKHR gfx.queue.present
             { waitSemaphoreCount := 1
               pWaitSemaphores := [frame.render_finished]
               swapchainCount := 1
               pSwapchains := [gfx.swapchain.handle]
               pImageIndices := [results.image_index] }] ∧
      (render_frame entity_data gfx results).2 = none := by
  obtain ⟨hw, hr, ha, hb, hs, hp⟩ := hresults
  unfold render_frame
  rw [hw, hr, ha, hb, hs, hp,
    next_frame_eq gfx VK_SUCCESS VK_SUCCESS VK_SUCCESS results.image_index frame hslot]
  simp only [ne_eq, not_true_eq_false, if_false, validate_success, List.append_nil,
    record_render_cmds, hcmd, begin_render_cmds, checked, hframebuffer, submit_render_cmds,
    hslot]
  simp only [List.append_assoc, List.cons_append, List.nil_append, and_true]
  congr 7
  refine record_entities_congr entity_data _ gfx cmd_buf ?_ ?_ ?_ ?_ _ <;> rfl

/-- Witness of C18: a frame from slot 0 that acquires image 2 selects slot 1 (fence 23,
semaphores 21 and 22) and records, submits and presents with command buffer 202, framebuffer
102 and image 2, the entries of index 2 and not those of the slot index 1. -/
theorem render_frame_uses_image_index_witness :
    (render_frame entity_data_1 frame_graphics_slot_0 frame_results_image_2).1.calls
        = [FrameCall.vkWaitForFences [23] VK_TRUE U64_MAX,
           FrameCall.vkResetFences [23],
           FrameCall.vkAcquireNextImageKHR 9 U64_MAX 21 VK_NULL_HANDLE,
           FrameCall.vkBeginCommandBuffer 202,
           FrameCall.vkCmdBeginRenderPass 202
             { renderPass := 50
               framebuffer := 102
               clearValueCount := 1
               pClearValues := [color_attachment.clear_value]
               renderArea_offset := (0, 0)
               renderArea_extent := (1600, 900) }
             VK_SUBPASS_CONTENTS_INLINE] ++
          record_entities entity_data_1 frame_graphics_slot_0 202 [0] ++
          [FrameCall.vkCmdEndRenderPass 202,
           FrameCall.vkEndCommandBuffer 202,
           FrameCall.vkQueueSubmit 70
             [{ waitSemaphoreCount := 1
                pWaitSemaphores := [21]
                pWaitDstStageMask := [VK_PIPELINE_STAGE_COLOR_ATTACHMENT_OUTPUT_BIT]
                commandBufferCount := 1
                pCommandBuffers := [202]
                signalSemaphoreCount := 1
                pSignalSemaphores := [22] }]
             23,
           FrameCall.vkQueuePresentKHR 71
             { waitSemaphoreCount := 1
               pWaitSemaphores := [22]
               swapchainCount := 1
               pSwapchains := [9]
               pImageIndices := [2] }] ∧
      (render_frame entity_data_1 frame_graphics_slot_0 frame_results_image_2).2 = none :=
  render_frame_uses_image_index entity_data_1 frame_graphics_slot_0 frame_results_image_2
    { img_aquired := 21, render_finished := 22, in_flight := 23 } 202 102
    ⟨rfl, rfl, rfl, rfl, rfl, rfl⟩ rfl rfl rfl

/-! ## Claims on non-success statuses in the frame loop -/

set_option maxRecDepth 100000 in
/-- C20, counterexample: a fence wait that returns `VK_TIMEOUT` in the first frame logs a
warning and then terminates `next_frame` with `vkWaitForFences failed`, the reset and the
acquire are not issued; a present that returns `VK_SUBOPTIMAL_KHR` terminates
`submit_render_cmds` with `vkQueuePresentKHR failed`. -/
theorem timeout_terminates_next_frame :
    (next_frame frame_graphics_2 VK_TIMEOUT VK_SUCCESS VK_SUCCESS 0).2
        = some (Failure.fatal "vkWaitForFences failed") ∧
      (next_frame frame_graphics_2 VK_TIMEOUT VK_SUCCESS VK_SUCCESS 0).1.calls
        = [FrameCall.vkWaitForFences [13] VK_TRUE U64_MAX] ∧
      (next_frame frame_graphics_2 VK_TIMEOUT VK_SUCCESS VK_SUCCESS 0).1.log.map
          (fun entry => (entry.severity, entry.name))
        = [(Severity.warning, "VK_TIMEOUT")] ∧
      (submit_render_cmds frame_graphics_acquired VK_SUCCESS VK_SUBOPTIMAL_KHR).2
        = some (Failure.fatal "vkQueuePresentKHR failed") ∧
      (submit_render_cmds frame_graphics_acquired VK_SUCCESS VK_SUBOPTIMAL_KHR).1.log.map
          (fun entry => (entry.severity, entry.name))
        = [(Severity.warning, "VK_SUBOPTIMAL_KHR")] := by
  decide

/-- C20, amended: when a fence wait, fence reset, image acquire, queue submit or present
returns any status other than success, informational statuses such as a timeout included,
the line of `print_result` is logged and the status is escalated: `next_frame` or
`submit_render_cmds` terminates with the failure message of that call. -/
theorem status_other_than_success_terminates (gfx : FrameGraphics)
    (wait_result reset_result acquire_result : Int) (image_index : Nat)
    (submit_result present_result : Int) (selected current : Frame) (cmd_buf : Nat)
    (hslot : gfx.sync.frames.data[next_frame_idx gfx.sync.frame_idx gfx.sync.frames.size]?
      = some selected)
    (hframe : gfx.sync.frames.data[gfx.sync.frame]? = some current)
    (hcmd : gfx.primary_render_cmd_bufs.data[gfx.sync.swap_img_idx]? = some cmd_buf) :
    (wait_result ≠ VK_SUCCESS →
        ∃ entry, print_result wait_result = .ok entry ∧
          (next_frame gfx wait_result reset_result acquire_result image_index).1.log
            = gfx.log ++ [entry] ∧
          (next_frame gfx wait_result reset_result acquire_result image_index).2
            = some (.fatal "vkWaitForFences failed")) ∧
      (wait_result = VK_SUCCESS → reset_result ≠ VK_SUCCESS →
        ∃ entry, print_result reset_result = .ok entry ∧
          (next_frame gfx wait_result reset_result acquire_result image_index).1.log
            = gfx.log ++ [entry] ∧
          (next_frame gfx wait_result reset_result acquire_result image_index).2
            = some (.fatal "vkResetFences failed")) ∧
      (wait_result = VK_SUCCESS → reset_result = VK_SUCCESS → acquire_result ≠ VK_SUCCESS →
        ∃ entry, print_result acquire_result = .ok entry ∧
          (next_frame gfx wait_result reset_result acquire_result image_index).1.log
            = gfx.log ++ [entry] ∧
          (next_frame gfx wait_result reset_result acquire_result image_index).2
            = some (.fatal "failed to aquire next swapchain image")) ∧
      (submit_result ≠ VK_SUCCESS →
        ∃ entry, print_result submit_result = .ok entry ∧
          (submit_render_cmds gfx submit_result present_result).1.log = gfx.log ++ [entry] ∧
          (submit_render_cmds gfx submit_result present_result).2
            = some (.fatal "vkQueueSubmit failed")) ∧
      (submit_result = VK_SUCCESS → present_result ≠ VK_SUCCESS →
        ∃ entry, print_result present_result = .ok entry ∧
          (submit_render_cmds gfx submit_result present_result).1.log = gfx.log ++ [entry] ∧
          (submit_render_cmds gfx submit_result present_result).2
            = some (.fatal "vkQueuePresentKHR failed")) := by
  rw [next_frame_eq gfx wait_result reset_result acquire_result image_index selected hslot,
    submit_render_cmds_eq gfx submit_result present_result current cmd_buf hframe hcmd]
  refine ⟨?_, ?_, ?_, ?_, ?_⟩
  · intro hw
    obtain ⟨entry, hentry⟩ := print_result_ok wait_result
    refine ⟨entry, hentry, ?_, ?_⟩
    · rw [if_pos hw, validate_failure wait_result entry _ hw hentry]
    · rw [if_pos hw]
  · intro hw hr
    obtain ⟨entry, hentry⟩ := print_result_ok reset_result
    refine ⟨entry, hentry, ?_, ?_⟩
    · rw [if_neg (not_not.mpr hw), if_pos hr, validate_failure reset_result entry _ hr hentry]
    · rw [if_neg (not_not.mpr hw), if_pos hr]
  · intro hw hr ha
    obtain ⟨entry, hentry⟩ := print_result_ok acquire_result
    refine ⟨entry, hentry, ?_, ?_⟩
    · rw [if_neg (not_not.mpr hw), if_neg (not_not.mpr hr),
        validate_failure acquire_result entry _ ha hentry]
    · rw [if_neg (not_not.mpr hw), if_neg (not_not.mpr hr), if_pos ha]
  · intro hs
    obtain ⟨entry, hentry⟩ := print_result_ok submit_result
    refine ⟨entry, hentry, ?_, ?_⟩
    · rw [if_pos hs, validate_failure submit_result entry _ hs hentry]
    · rw [if_pos hs]
  · intro hs hp
    obtain ⟨entry, hentry⟩ := print_result_ok present_result
    refine ⟨entry, hentry, ?_, ?_⟩
    · rw [if_neg (not_not.mpr hs), validate_failure present_result entry _ hp hentry]
    · rw [if_neg (not_not.mpr hs), if_pos hp]

/-- Witness of the amended C20: on `frame_graphics_acquired` a fence wait that returns
`VK_TIMEOUT` and a queue submission that returns `VK_NOT_READY`. -/
theorem status_other_than_success_terminates_witness :
    (∃ entry, print_result VK_TIMEOUT = .ok entry ∧
        (next_frame frame_graphics_acquired VK_TIMEOUT VK_SUCCESS VK_SUCCESS 0).1.log
          = frame_graphics_acquired.log ++ [entry] ∧
        (next_frame frame_graphics_acquired VK_TIMEOUT VK_SUCCESS VK_SUCCESS 0).2
          = some (.fatal "vkWaitForFences failed")) ∧
      (∃ entry, print_result VK_NOT_READY = .ok entry ∧
        (submit_render_cmds frame_graphics_acquired VK_NOT_READY VK_SUCCESS).1.log
          = frame_graphics_acquired.log ++ [entry] ∧
        (submit_render_cmds frame_graphics_acquired VK_NOT_READY VK_SUCCESS).2
          = some (.fatal "vkQueueSubmit failed")) :=
  ⟨(status_other_than_success_terminates frame_graphics_acquired VK_TIMEOUT VK_SUCCESS
      VK_SUCCESS 0 VK_NOT_READY VK_SUCCESS
      { img_aquired := 11, render_finished := 12, in_flight := 13 }
      { img_aquired := 21, render_finished := 22, in_flight := 23 } 202 rfl rfl rfl).1
      (by decide),
   (status_other_than_success_terminates frame_graphics_acquired VK_TIMEOUT VK_SUCCESS
      VK_SUCCESS 0 VK_NOT_READY VK_SUCCESS
      { img_aquired := 11, render_finished := 12, in_flight := 13 }
      { img_aquired := 21, render_finished := 22, in_flight := 23 } 202 rfl rfl rfl).2.2.2.1
      (by decide)⟩

/-! ## Claims on the image barrier, `print_result` and the first frame -/

/-- The fields of the recorded barrier that `image_memory_barrier` takes from the side of the
description they belong to. -/
theorem image_memory_barrier_fields (cmd_buf : Nat) (image : Image)
    (barrier : ImageMemoryBarrier) :
    ∃ vk_barrier,
      (image_memory_barrier cmd_buf image barrier).imageMemoryBarriers = [vk_barrier] ∧
        vk_barrier.oldLayout = barrier.src.layout ∧
        vk_barrier.newLayout = barrier.dst.layout ∧
        vk_barrier.srcAccessMask = barrier.src.access ∧
        vk_barrier.dstAccessMask = barrier.dst.access ∧
        vk_barrier.srcQueueFamilyIndex = barrier.src.queue_family_index ∧
        vk_barrier.image = image.handle ∧
        vk_barrier.subresourceRange = barrier.subresource_range ∧
        (image_memory_barrier cmd_buf image barrier).srcStageMask = barrier.src.stage ∧
        (image_memory_barrier cmd_buf image barrier).dstStageMask = barrier.dst.stage :=
  ⟨_, rfl, rfl, rfl, rfl, rfl, rfl, rfl, rfl, rfl, rfl⟩

/-- C30, failing input: for a description that hands the image from queue family 0 to queue
family 1 the recorded barrier has destination queue family index 0, the index of `src`, and
not `dst.queue_family_index`, which is 1. -/
theorem image_memory_barrier_dst_queue_family_from_src :
    barrier_0_to_1.dst.queue_family_index = 1 ∧
      (image_memory_barrier 5 image_300 barrier_0_to_1).imageMemoryBarriers.map
          (fun vk_barrier => vk_barrier.dstQueueFamilyIndex) = [0] ∧
      (∀ cmd_buf image barrier,
        (image_memory_barrier cmd_buf image barrier).imageMemoryBarriers.map
            (fun vk_barrier => vk_barrier.dstQueueFamilyIndex)
          = [barrier.src.queue_family_index]) :=
  ⟨rfl, rfl, fun _ _ _ => rfl⟩

set_option maxRecDepth 100000 in
/-- C29, failing input: the status -13 (`VK_ERROR_UNKNOWN`) matches no entry of the table, and
`print_result` does not fail: it reports the name and the message of the last entry,
`VK_ERROR_FULL_SCREEN_EXCLUSIVE_MODE_LOST_EXT`, as `print_result` does for that status
itself. -/
theorem print_result_reports_last_entry :
    (∀ entry ∈ VK_RESULT_DEBUG_INFOS, entry.result ≠ -13) ∧
      ((print_result (-13)).toOption.map LogEntry.name
        = some "VK_ERROR_FULL_SCREEN_EXCLUSIVE_MODE_LOST_EXT") ∧
      (print_result (-13)).toOption
        = (print_result VK_ERROR_FULL_SCREEN_EXCLUSIVE_MODE_LOST_EXT).toOption ∧
      (print_result (-13)).toOption ≠ none := by
  decide

/-- Every slot a run of `next_frame` calls selects is below the slot count, whatever the
calls return. -/
theorem next_frame_slots_lt :
    ∀ (results : List (Int × Int × Int × Nat)) (gfx : FrameGraphics),
      1 ≤ gfx.sync.frames.size →
      ∀ slot ∈ next_frame_slots gfx results, slot < gfx.sync.frames.size := by
  intro results
  induction results with
  | nil => intro gfx _ slot hslot; simp [next_frame_slots] at hslot
  | cons x rest ih =>
    intro gfx hsize slot hslot
    obtain ⟨wait_result, reset_result, acquire_result, image_index⟩ := x
    have hsync := next_frame_sync gfx wait_result reset_result acquire_result image_index
    have hlt : next_frame_idx gfx.sync.frame_idx gfx.sync.frames.size < gfx.sync.frames.size := by
      unfold next_frame_idx
      split
      · omega
      · omega
    rw [next_frame_slots] at hslot
    cases hout : next_frame gfx wait_result reset_result acquire_result image_index with
    | mk gfx' failure =>
      rw [hout] at hsync hslot
      simp only at hsync
      obtain ⟨_, hframe, hframes⟩ := hsync
      cases failure with
      | some e =>
        simp only [List.mem_singleton] at hslot
        rw [hslot, hframe]
        exact hlt
      | none =>
        simp only [List.mem_cons] at hslot
        rcases hslot with hhead | htail
        · rw [hhead, hframe]
          exact hlt
        · have := ih gfx' (by rw [hframes]; exact hsize) slot htail
          rw [hframes] at this
          exact this

/-- C27: after `init_sync` with N >= 1 slots the first `next_frame` selects slot 0; after any
`next_frame` on these slots the frame index is below N and the current slot exists in the
frames array, so no call ends on a lookup out of bounds, and every slot a run of calls selects
is below N. -/
theorem first_frame_selects_slot_0 (gfx : FrameGraphics) (sync : Sync) (frames : List Frame)
    (wait_result reset_result acquire_result : Int) (image_index : Nat)
    (hslots : 1 ≤ frames.length) (hsync : gfx.sync = init_sync sync frames) :
    (next_frame gfx wait_result reset_result acquire_result image_index).1.sync.frame_idx = 0 ∧
      (next_frame gfx wait_result reset_result acquire_result image_index).1.sync.frame = 0 ∧
      (∀ later : FrameGraphics, later.sync.frames = gfx.sync.frames →
        (next_frame later wait_result reset_result acquire_result image_index).1.sync.frame_idx
            < frames.length ∧
          (∃ frame,
            (next_frame later wait_result reset_result acquire_result image_index).1
                |>.sync.frames.data[
              (next_frame later wait_result reset_result acquire_result image_index).1
                |>.sync.frame]? = some frame) ∧
          (next_frame later wait_result reset_result acquire_result image_index).2
            ≠ some Failure.out_of_bounds) ∧
      ∀ results : List (Int × Int × Int × Nat),
        (next_frame_slots gfx results).head? = (results.head?.map fun _ => 0) ∧
          ∀ slot ∈ next_frame_slots gfx results, slot < frames.length := by
  have hframes : gfx.sync.frames = { data := frames, size := frames.length } := by
    rw [hsync]; rfl
  have hidx : gfx.sync.frame_idx = U32_MAX := by rw [hsync]; rfl
  have hfirst : next_frame_idx gfx.sync.frame_idx gfx.sync.frames.size = 0 := by
    rw [hidx, hframes]
    unfold next_frame_idx
    split <;> rfl
  have hany : ∀ idx, next_frame_idx idx frames.length < frames.length := by
    intro idx
    unfold next_frame_idx
    split
    · omega
    · omega
  have hsync0 := next_frame_sync gfx wait_result reset_result acquire_result image_index
  refine ⟨by rw [hsync0.1, hfirst], by rw [hsync0.2.1, hfirst], ?_, ?_⟩
  · intro later hlater
    have hs := next_frame_sync later wait_result reset_result acquire_result image_index
    rw [hlater, hframes] at hs
    have hlt := hany later.sync.frame_idx
    have hslot : later.sync.frames.data[
        next_frame_idx later.sync.frame_idx later.sync.frames.size]?
          = some (frames.get ⟨next_frame_idx later.sync.frame_idx frames.length, hlt⟩) := by
      rw [hlater, hframes]
      exact List.getElem?_eq_getElem _
    refine ⟨by rw [hs.1]; exact hlt, ⟨_, by rw [hs.2.1, hs.2.2]; exact List.getElem?_eq_getElem hlt⟩, ?_⟩
    rw [next_frame_eq later wait_result reset_result acquire_result image_index _ hslot]
    split
    · simp
    · split
      · simp
      · split <;> simp
  · intro results
    constructor
    · cases results with
      | nil => rfl
      | cons x rest =>
        obtain ⟨w, r, a, k⟩ := x
        have hs := next_frame_sync gfx w r a k
        rw [next_frame_slots]
        cases hout : next_frame gfx w r a k with
        | mk gfx' failure =>
          rw [hout] at hs
          simp only at hs
          cases failure <;> simp [hs.2.1, hfirst]
    · intro slot hslot
      have := next_frame_slots_lt results gfx (by rw [hframes]; exact hslots) slot hslot
      rw [hframes] at this
      exact this

/-- Witness of C27: the two slots of `frame_graphics_2`, the state `init_sync` leaves. -/
theorem first_frame_selects_slot_0_witness :
    (next_frame frame_graphics_2 VK_SUCCESS VK_SUCCESS VK_SUCCESS 1).1.sync.frame_idx = 0 ∧
      (next_frame frame_graphics_2 VK_SUCCESS VK_SUCCESS VK_SUCCESS 1).1.sync.frame = 0 :=
  ⟨(first_frame_selects_slot_0 frame_graphics_2
      { swap_img_idx := 0, frames := create_array 0, frame := 0, frame_idx := 0 }
      [{ img_aquired := 11, render_finished := 12, in_flight := 13 },
       { img_aquired := 21, render_finished := 22, in_flight := 23 }]
      VK_SUCCESS VK_SUCCESS VK_SUCCESS 1 (by decide) rfl).1,
   (first_frame_selects_slot_0 frame_graphics_2
      { swap_img_idx := 0, frames := create_array 0, frame := 0, frame_idx := 0 }
      [{ img_aquired := 11, render_finished := 12, in_flight := 13 },
       { img_aquired := 21, render_finished := 22, in_flight := 23 }]
      VK_SUCCESS VK_SUCCESS VK_SUCCESS 1 (by decide) rfl).2.1⟩

/-! ## Claims on the display and the entities -/

/-- After `clear_display` each of the first `size` pixels consists of four copies of the low
byte of the color. -/
theorem clear_display_pixels (display : Display) (color : Nat)
    (hsize : display.size ≤ display.data.length) :
    ∃ cleared, clear_display display color = .ok cleared ∧
      cleared.data.length = display.data.length ∧
      ∀ i, i < display.size → cleared.data[i]? = some (color % 256 * 16843009) := by
  refine ⟨_, by unfold clear_display; rw [if_pos hsize], ?_, ?_⟩
  · simp only [List.length_append, List.length_replicate, List.length_drop]
    omega
  · intro i hi
    rw [List.getElem?_append_left (by simp [hi]), List.getElem?_replicate, if_pos hi]
    unfold u32_of_bytes
    congr 1
    omega

/-- C26, failing input: on a display of 2 by 2 pixels `clear_display(game, 0xFF101010)` leaves
every pixel at 0x10101010 (269488144), which is not the color 0xFF101010 (4279242768). -/
theorem clear_display_keeps_low_byte_only :
    (clear_display display_2x2 4279242768).toOption.map Display.data
        = some [269488144, 269488144, 269488144, 269488144] ∧
      ∀ pixel ∈ [269488144, 269488144, 269488144, 269488144], pixel ≠ 4279242768 := by
  decide

/-- C25: on entity data whose count is at most `MAX_ENTITIES`, `push_entity` fails, with the
max-entity diagnostic and changing nothing, if and only if the count is `MAX_ENTITIES`;
otherwise it returns the previous count, increments the count by one, stores the transform,
the mesh and the pipeline at that index and leaves every other entry, and the matrices,
unchanged. The bound on the count is kept. -/
theorem push_entity_fails_iff_full (entity_data : EntityData) (info : EntityInfo)
    (hcount : entity_data.count ≤ MAX_ENTITIES) :
    ((∃ e, (push_entity entity_data info).2 = .error e) ↔ entity_data.count = MAX_ENTITIES) ∧
      (entity_data.count = MAX_ENTITIES →
        push_entity entity_data info
          = (entity_data, .error (.fatal "already at max entity count of %u"))) ∧
      (entity_data.count ≠ MAX_ENTITIES →
        (push_entity entity_data info).2 = .ok entity_data.count ∧
          (push_entity entity_data info).1.count = entity_data.count + 1 ∧
          (push_entity entity_data info).1.transform entity_data.count = info.transform ∧
          (push_entity entity_data info).1.mesh entity_data.count = info.mesh ∧
          (push_entity entity_data info).1.pipeline entity_data.count = info.pipeline ∧
          (∀ i, i ≠ entity_data.count →
            (push_entity entity_data info).1.transform i = entity_data.transform i ∧
              (push_entity entity_data info).1.mesh i = entity_data.mesh i ∧
              (push_entity entity_data info).1.pipeline i = entity_data.pipeline i) ∧
          (push_entity entity_data info).1.model = entity_data.model ∧
          (push_entity entity_data info).1.mvp = entity_data.mvp) ∧
      (push_entity entity_data info).1.count ≤ MAX_ENTITIES := by
  unfold MAX_ENTITIES at hcount ⊢
  have hmod : (entity_data.count + 1) % U32_SIZE = entity_data.count + 1 :=
    Nat.mod_eq_of_lt (by unfold U32_SIZE; omega)
  by_cases hfull : entity_data.count = 1024
  · have hguard : (entity_data.count + 1) % U32_SIZE > 1024 := by rw [hmod]; omega
    have hres : push_entity entity_data info
        = (entity_data, .error (.fatal "already at max entity count of %u")) := by
      unfold push_entity MAX_ENTITIES
      rw [if_pos hguard]
    rw [hres]
    exact ⟨⟨fun _ => hfull, fun _ => ⟨_, rfl⟩⟩, fun _ => rfl, fun h => absurd hfull h, hcount⟩
  · have hguard : ¬ (entity_data.count + 1) % U32_SIZE > 1024 := by rw [hmod]; omega
    have hlt : entity_data.count < 1024 := by omega
    have hres : push_entity entity_data info
        = ({ entity_data with
             count := entity_data.count + 1
             transform := Function.update entity_data.transform entity_data.count info.transform
             mesh := Function.update entity_data.mesh entity_data.count info.mesh
             pipeline :=
               Function.update entity_data.pipeline entity_data.count info.pipeline },
           .ok entity_data.count) := by
      unfold push_entity MAX_ENTITIES
      rw [if_neg hguard]
      simp only [hmod, if_pos hlt]
    rw [hres]
    refine ⟨⟨fun ⟨e, he⟩ => by simp at he, fun h => absurd h hfull⟩, fun h => absurd h hfull,
      fun _ => ⟨rfl, rfl, ?_, ?_, ?_, ?_, rfl, rfl⟩, by simp only; omega⟩
    · simp only [Function.update_same]
    · simp only [Function.update_same]
    · simp only [Function.update_same]
    · intro i hi
      simp only [Function.update_noteq hi, and_self]

/-- Witness of C25: the first entity of `create_entities` on the empty entity data gets
index 0. -/
theorem push_entity_fails_iff_full_witness :
    (push_entity entity_data_0 entity_info_tri).2 = .ok 0 ∧
      (push_entity entity_data_0 entity_info_tri).1.count = 1 ∧
      (push_entity entity_data_0 entity_info_tri).1.mesh 0 = entity_info_tri.mesh :=
  ⟨((push_entity_fails_iff_full entity_data_0 entity_info_tri (by decide)).2.2.1
      (by decide)).1,
   ((push_entity_fails_iff_full entity_data_0 entity_info_tri (by decide)).2.2.1
      (by decide)).2.1,
   ((push_entity_fails_iff_full entity_data_0 entity_info_tri (by decide)).2.2.1
      (by decide)).2.2.2.1⟩

/-- The outcome of `push_entity` on full entity data: the diagnostic, and the count stays at
`MAX_ENTITIES`. -/
theorem push_entity_full_example :
    (push_entity entity_data_full entity_info_tri).2
        = .error (.fatal "already at max entity count of %u") ∧
      (push_entity entity_data_full entity_info_tri).1.count = 1024 :=
  ⟨rfl, rfl⟩

/-! ## Claims on the swapchain image count -/

/-- The create info of `create_swapchain` exists once the surface reports a format, a present
mode and an extent, and requests `selected_image_count` images. -/
theorem create_swapchain_info_ok (surface : Nat) (surface_capabilities : VkSurfaceCapabilitiesKHR)
    (first_format : VkSurfaceFormatKHR) (formats : List VkSurfaceFormatKHR)
    (first_mode : Nat) (modes : List Nat) (graphics_queue_family_idx present_queue_family_idx : Nat)
    (hextent : surface_capabilities.currentExtent.1 ≠ U32_MAX) :
    ∃ info,
      create_swapchain_info surface surface_capabilities (first_format :: formats)
          (first_mode :: modes) graphics_queue_family_idx present_queue_family_idx = .ok info ∧
        info.minImageCount = selected_image_count surface_capabilities := by
  unfold create_swapchain_info load_vk_objects
  simp only [List.length_cons, gt_iff_lt, Nat.zero_lt_succ, if_true, List.head?_cons, if_neg hextent]
  exact ⟨_, rfl, rfl⟩

/-- C22, counterexample: a surface with `minImageCount = maxImageCount = 3` gets a request for
3 images, which is below `minImageCount + 1 = 4`. -/
theorem image_count_capped_below_min_plus_one :
    (create_swapchain_info 1 capabilities_3_3
          [{ format := VK_FORMAT_B8G8R8A8_UNORM, colorSpace := VK_COLOR_SPACE_SRGB_NONLINEAR_KHR }]
          [VK_PRESENT_MODE_FIFO_KHR] 0 0).toOption.map
        (fun info => info.minImageCount) = some 3 ∧
      ¬ (3 ≥ capabilities_3_3.minImageCount + 1) := by
  decide

/-- C22, amended: for every surface capability with `minImageCount + 1` a `u32` value, the
image count `create_swapchain` requests is `minImageCount + 1` when the device reports no
maximum (`maxImageCount = 0`) or `minImageCount + 1 <= maxImageCount`, and `maxImageCount`
otherwise; so it is at most `maxImageCount` when there is a maximum, at least
`minImageCount + 1` unless the maximum caps it, and at least `minImageCount` whenever
`minImageCount <= maxImageCount`. -/
theorem image_count_is_min_plus_one_capped (surface : Nat)
    (surface_capabilities : VkSurfaceCapabilitiesKHR) (first_format : VkSurfaceFormatKHR)
    (formats : List VkSurfaceFormatKHR) (first_mode : Nat) (modes : List Nat)
    (graphics_queue_family_idx present_queue_family_idx : Nat)
    (hextent : surface_capabilities.currentExtent.1 ≠ U32_MAX)
    (hmin : surface_capabilities.minImageCount + 1 < U32_SIZE) :
    ∃ info,
      create_swapchain_info surface surface_capabilities (first_format :: formats)
          (first_mode :: modes) graphics_queue_family_idx present_queue_family_idx = .ok info ∧
        info.minImageCount =
          (if surface_capabilities.maxImageCount = 0 ∨
              surface_capabilities.minImageCount + 1 ≤ surface_capabilities.maxImageCount then
            surface_capabilities.minImageCount + 1
          else surface_capabilities.maxImageCount) ∧
        (surface_capabilities.maxImageCount > 0 →
          info.minImageCount ≤ surface_capabilities.maxImageCount) ∧
        (surface_capabilities.maxImageCount = 0 ∨
            surface_capabilities.minImageCount + 1 ≤ surface_capabilities.maxImageCount →
          info.minImageCount ≥ surface_capabilities.minImageCount + 1) ∧
        (surface_capabilities.maxImageCount = 0 ∨
            surface_capabilities.minImageCount ≤ surface_capabilities.maxImageCount →
          info.minImageCount ≥ surface_capabilities.minImageCount) := by
  obtain ⟨info, hinfo, hcount⟩ := create_swapchain_info_ok surface surface_capabilities
    first_format formats first_mode modes graphics_queue_family_idx present_queue_family_idx
    hextent
  refine ⟨info, hinfo, ?_⟩
  rw [hcount]
  unfold selected_image_count
  rw [Nat.mod_eq_of_lt hmin]
  by_cases hmax : surface_capabilities.maxImageCount = 0
  · rw [if_neg (by omega), if_pos (Or.inl hmax)]
    exact ⟨rfl, fun h => by omega, fun _ => Nat.le_refl _, fun _ => by omega⟩
  · by_cases hle : surface_capabilities.minImageCount + 1 ≤ surface_capabilities.maxImageCount
    · rw [if_neg (by omega), if_pos (Or.inr hle)]
      exact ⟨rfl, fun _ => hle, fun _ => Nat.le_refl _, fun _ => by omega⟩
    · rw [if_pos (by omega), if_neg (by omega)]
      exact ⟨rfl, fun _ => Nat.le_refl _, fun h => by omega, fun h => by omega⟩

/-- Witness of the amended C22: a minimum of 2 images and no maximum gives 3 images. -/
theorem image_count_is_min_plus_one_capped_witness :
    ∃ info,
      create_swapchain_info 1 capabilities_2_0
          [{ format := VK_FORMAT_B8G8R8A8_UNORM, colorSpace := VK_COLOR_SPACE_SRGB_NONLINEAR_KHR }]
          [VK_PRESENT_MODE_FIFO_KHR] 0 0 = .ok info ∧
        info.minImageCount = 3 :=
  match image_count_is_min_plus_one_capped 1 capabilities_2_0
      { format := VK_FORMAT_B8G8R8A8_UNORM, colorSpace := VK_COLOR_SPACE_SRGB_NONLINEAR_KHR } []
      VK_PRESENT_MODE_FIFO_KHR [] 0 0 (by decide) (by decide) with
  | ⟨info, hinfo, hcount, _⟩ => ⟨info, hinfo, hcount⟩

/-! ## Claims on `find_memory_type_index` -/

/-- The bit test of `find_memory_type_index` on index `i` fails exactly when bit `i` is
clear. -/
theorem and_two_pow_eq_zero (n i : Nat) : n &&& 2 ^ i = 0 ↔ n.testBit i = false := by
  constructor
  · intro h
    have := congrArg (fun m => m.testBit i) h
    simpa [Nat.testBit_and, Nat.testBit_two_pow_self] using this
  · intro h
    apply Nat.eq_of_testBit_eq
    intro j
    rw [Nat.testBit_and, Nat.testBit_two_pow, Nat.zero_testBit]
    by_cases hj : i = j
    · subst hj; simp [h]
    · simp [hj]

/-- The flag test `(flags & wanted) == wanted` holds exactly when every bit of `wanted` is set
in `flags`. -/
theorem and_eq_right_iff_bits (flags wanted : Nat) :
    flags &&& wanted = wanted ↔ ∀ b, wanted.testBit b = true → flags.testBit b = true := by
  constructor
  · intro h b hb
    have := congrArg (fun m => m.testBit b) h
    simp only [Nat.testBit_and, hb, Bool.and_true] at this
    exact this
  · intro h
    apply Nat.eq_of_testBit_eq
    intro j
    rw [Nat.testBit_and]
    cases hf : wanted.testBit j
    · simp
    · simp [h j hf]

/-- The loop of `find_memory_type_index` over the indexes `s`, .., `s + n - 1`, all below 32:
it returns the least of them that suits, or fails with its message when none does. -/
theorem find_memory_type_index_loop_spec (mem_reqs : VkMemoryRequirements)
    (mem_props : VkPhysicalDeviceMemoryProperties) (mem_prop_flags : Nat)
    (hlen : mem_props.memoryTypes.length = VK_MAX_MEMORY_TYPES) :
    ∀ n s, s + n ≤ VK_MAX_MEMORY_TYPES →
      (∃ i, find_memory_type_index_loop mem_reqs mem_props mem_prop_flags (List.range' s n)
            = .ok i ∧ s ≤ i ∧ i < s + n ∧
          memory_type_suits mem_reqs mem_props mem_prop_flags i ∧
          ∀ j, s ≤ j → j < i → ¬ memory_type_suits mem_reqs mem_props mem_prop_flags j) ∨
        (find_memory_type_index_loop mem_reqs mem_props mem_prop_flags (List.range' s n)
            = .error
              (.fatal "failed to find memory type that satisfies property requirements") ∧
          ∀ j, s ≤ j → j < s + n →
            ¬ memory_type_suits mem_reqs mem_props mem_prop_flags j) := by
  intro n
  induction n with
  | zero =>
    intro s _
    exact Or.inr ⟨rfl, fun j h1 h2 => by omega⟩
  | succ n ih =>
    intro s hs
    unfold VK_MAX_MEMORY_TYPES at hs hlen
    have hs32 : ¬ s ≥ 32 := by omega
    have hpow : (1 <<< s) % U32_SIZE = 2 ^ s := by
      rw [Nat.one_shiftLeft]
      apply Nat.mod_eq_of_lt
      unfold U32_SIZE
      calc 2 ^ s < 2 ^ 32 := Nat.pow_lt_pow_right (by decide) (by omega)
        _ = 4294967296 := by norm_num
    have hentry : mem_props.memoryTypes[s]? = some (mem_props.memoryTypes.get ⟨s, by omega⟩) :=
      List.getElem?_eq_getElem _
    rw [List.range'_succ, find_memory_type_index_loop, if_neg hs32, hpow]
    have hrest := ih (s + 1) (by unfold VK_MAX_MEMORY_TYPES; omega)
    -- what follows when index `s` does not suit
    have hskip : ¬ memory_type_suits mem_reqs mem_props mem_prop_flags s →
        (∃ i, find_memory_type_index_loop mem_reqs mem_props mem_prop_flags
              (List.range' (s + 1) n) = .ok i ∧ s ≤ i ∧ i < s + (n + 1) ∧
            memory_type_suits mem_reqs mem_props mem_prop_flags i ∧
            ∀ j, s ≤ j → j < i → ¬ memory_type_suits mem_reqs mem_props mem_prop_flags j) ∨
          (find_memory_type_index_loop mem_reqs mem_props mem_prop_flags
              (List.range' (s + 1) n)
              = .error
                (.fatal "failed to find memory type that satisfies property requirements") ∧
            ∀ j, s ≤ j → j < s + (n + 1) →
              ¬ memory_type_suits mem_reqs mem_props mem_prop_flags j) := by
      intro hnot
      rcases hrest with ⟨i, hi, h1, h2, h3, h4⟩ | ⟨hfail, hnone⟩
      · refine Or.inl ⟨i, hi, by omega, by omega, h3, ?_⟩
        intro j hj1 hj2
        by_cases hjs : j = s
        · rw [hjs]; exact hnot
        · exact h4 j (by omega) hj2
      · refine Or.inr ⟨hfail, ?_⟩
        intro j hj1 hj2
        by_cases hjs : j = s
        · rw [hjs]; exact hnot
        · exact hnone j (by omega) (by omega)
    by_cases hbit : mem_reqs.memoryTypeBits &&& 2 ^ s = 0
    · rw [if_pos hbit]
      apply hskip
      intro hsuits
      have := (and_two_pow_eq_zero _ _).mp hbit
      rw [hsuits.1] at this
      exact Bool.noConfusion this
    · rw [if_neg hbit]
      simp only [hentry]
      by_cases hflags :
          (mem_props.memoryTypes.get ⟨s, by omega⟩).propertyFlags &&& mem_prop_flags
            = mem_prop_flags
      · rw [if_pos hflags]
        refine Or.inl ⟨s, rfl, Nat.le_refl _, by omega, ⟨?_, _, hentry, ?_⟩, ?_⟩
        · cases hb : mem_reqs.memoryTypeBits.testBit s
          · exact absurd ((and_two_pow_eq_zero _ _).mpr hb) hbit
          · rfl
        · exact (and_eq_right_iff_bits _ _).mp hflags
        · intro j h1 h2
          omega
      · rw [if_neg hflags]
        apply hskip
        intro hsuits
        obtain ⟨_, memory_type, hget, hall⟩ := hsuits
        rw [hentry] at hget
        injection hget with hget
        rw [← hget] at hall
        exact hflags ((and_eq_right_iff_bits _ _).mpr hall)

/-- C23: on memory properties with at most `VK_MAX_MEMORY_TYPES` memory types,
`find_memory_type_index` returns an index `i` exactly when `i` is the lowest index below
`memoryTypeCount` whose bit is set in `memoryTypeBits` and whose property flags include every
requested flag; it fails with its message exactly when no such index exists, and it has no
other outcome. -/
theorem find_memory_type_index_lowest (mem_reqs : VkMemoryRequirements)
    (mem_props : VkPhysicalDeviceMemoryProperties) (mem_prop_flags : Nat)
    (hlen : mem_props.memoryTypes.length = VK_MAX_MEMORY_TYPES)
    (hcount : mem_props.memoryTypeCount ≤ VK_MAX_MEMORY_TYPES) :
    (∀ i, find_memory_type_index mem_reqs mem_props mem_prop_flags = .ok i ↔
        (i < mem_props.memoryTypeCount ∧
          memory_type_suits mem_reqs mem_props mem_prop_flags i ∧
          ∀ j, j < i → ¬ memory_type_suits mem_reqs mem_props mem_prop_flags j)) ∧
      (find_memory_type_index mem_reqs mem_props mem_prop_flags
          = .error (.fatal "failed to find memory type that satisfies property requirements") ↔
        ¬ ∃ i, i < mem_props.memoryTypeCount ∧
          memory_type_suits mem_reqs mem_props mem_prop_flags i) ∧
      ((∃ i, find_memory_type_index mem_reqs mem_props mem_prop_flags = .ok i) ∨
        find_memory_type_index mem_reqs mem_props mem_prop_flags
          = .error (.fatal "failed to find memory type that satisfies property requirements")) := by
  have hspec := find_memory_type_index_loop_spec mem_reqs mem_props mem_prop_flags hlen
    mem_props.memoryTypeCount 0 (by omega)
  rw [← List.range_eq_range'] at hspec
  unfold find_memory_type_index
  rcases hspec with ⟨i, hi, _, hlt, hsuits, hleast⟩ | ⟨hfail, hnone⟩
  · rw [hi]
    refine ⟨?_, ?_, Or.inl ⟨i, rfl⟩⟩
    · intro k
      constructor
      · intro hk
        injection hk with hk
        subst hk
        exact ⟨by omega, hsuits, fun j hj => hleast j (Nat.zero_le _) hj⟩
      · intro ⟨_, hksuits, hkleast⟩
        have : i = k := by
          rcases Nat.lt_trichotomy i k with h | h | h
          · exact absurd hsuits (hkleast i h)
          · exact h
          · exact absurd hksuits (hleast k (Nat.zero_le _) h)
        rw [this]
    · constructor
      · intro h
        exact Except.noConfusion h
      · intro h
        exact absurd ⟨i, by omega, hsuits⟩ h
  · rw [hfail]
    refine ⟨?_, ?_, Or.inr rfl⟩
    · intro k
      constructor
      · intro h
        exact Except.noConfusion h
      · intro ⟨hk, hksuits, _⟩
        exact absurd hksuits (hnone k (Nat.zero_le _) (by omega))
    · constructor
      · intro _ ⟨i, hi, hsuits⟩
        exact hnone i (Nat.zero_le _) (by omega) hsuits
      · intro _
        rfl

/-- Witness of C23: host-visible, coherent memory (flags 6) for a requirement that allows the
memory types 1 and 2 is memory type 1. -/
theorem find_memory_type_index_lowest_witness :
    find_memory_type_index mem_reqs_types_1_2 mem_properties_3 6 = .ok 1 ↔
      (1 < mem_properties_3.memoryTypeCount ∧
        memory_type_suits mem_reqs_types_1_2 mem_properties_3 6 1 ∧
        ∀ j, j < 1 → ¬ memory_type_suits mem_reqs_types_1_2 mem_properties_3 6 j) :=
  (find_memory_type_index_lowest mem_reqs_types_1_2 mem_properties_3 6 (by decide)
    (by decide)).1 1

/-- The outcomes of `find_memory_type_index` on three memory types: type 1 for host-visible
coherent memory, type 2 for device-local memory when type 0 is not allowed, and the failure
for a flag that no memory type has. -/
theorem find_memory_type_index_examples :
    (find_memory_type_index mem_reqs_types_1_2 mem_properties_3 6).toOption = some 1 ∧
      (find_memory_type_index mem_reqs_types_1_2 mem_properties_3 1).toOption = some 2 ∧
      (find_memory_type_index mem_reqs_types_1_2 mem_properties_3 8).toOption = none := by
  decide

/-! ## Claims on `draw_point` -/

/-- A pixel inside the display has an index below `width * height`. -/
theorem pixel_index_lt (width height px py : Nat) (hx : px < width) (hy : py < height) :
    py * width + px < width * height := by
  have h1 : (py + 1) * width ≤ height * width := Nat.mul_le_mul_right _ hy
  rw [Nat.add_mul, Nat.one_mul] at h1
  rw [Nat.mul_comm width height]
  omega

/-- Two pixels inside the display with the same index are the same pixel. -/
theorem pixel_index_inj (width px py qx qy : Nat) (hp : px < width) (hq : qx < width)
    (h : py * width + px = qy * width + qx) : px = qx ∧ py = qy := by
  have hw : 0 < width := by omega
  have hmod := congrArg (fun n => n % width) h
  have hdiv := congrArg (fun n => n / width) h
  simp only at hmod hdiv
  rw [Nat.add_comm (py * width), Nat.add_comm (qy * width), Nat.add_mul_mod_self_right,
    Nat.add_mul_mod_self_right, Nat.mod_eq_of_lt hp, Nat.mod_eq_of_lt hq] at hmod
  rw [Nat.add_comm (py * width), Nat.add_comm (qy * width), Nat.add_mul_div_right _ _ hw,
    Nat.add_mul_div_right _ _ hw, Nat.div_eq_of_lt hp, Nat.div_eq_of_lt hq, Nat.zero_add,
    Nat.zero_add] at hdiv
  exact ⟨hmod, hdiv⟩

/-- The values of a loop variable of `draw_point`. -/
theorem mem_pencil_offsets (scale n : Int) :
    n ∈ pencil_offsets scale ↔ s32 (-(s32 (scale - 1))) ≤ n ∧ n < scale := by
  unfold pencil_offsets
  rw [List.mem_map]
  constructor
  · rintro ⟨k, hk, rfl⟩
    rw [List.mem_range] at hk
    omega
  · intro ⟨h1, h2⟩
    refine ⟨(n - s32 (-(s32 (scale - 1)))).toNat, ?_, ?_⟩
    · rw [List.mem_range]
      omega
    · omega

/-- One pass of the loop body on a well-formed display: it returns, keeps the shape of the
display, stores the color at the index it hits and leaves every other pixel. -/
theorem draw_pixel_spec (display : Display) (x y : Nat) (p : Pencil) (ny nx : Int)
    (hok : display_ok display) :
    ∃ drawn, draw_pixel display x y p ny nx = .ok drawn ∧ display_ok drawn ∧
      drawn.width = display.width ∧ drawn.height = display.height ∧
      ∀ i, (pencil_hits display x y ny nx i → drawn.data[i]? = some p.color) ∧
        (¬ pencil_hits display x y ny nx i → drawn.data[i]? = display.data[i]?) := by
  obtain ⟨hsize, hlen, h32⟩ := hok
  unfold draw_pixel
  simp only
  by_cases hcond : s32 ((x : Int) + nx) ≥ 0 ∧ (s32 ((x : Int) + nx)).toNat < display.width ∧
      s32 ((y : Int) + ny) ≥ 0 ∧ (s32 ((y : Int) + ny)).toNat < display.height
  · rw [if_pos hcond]
    have hidx := pixel_index_lt display.width display.height _ _ hcond.2.1 hcond.2.2.2
    rw [← hsize] at hidx
    have hmod : ((s32 ((y : Int) + ny)).toNat * display.width + (s32 ((x : Int) + nx)).toNat)
        % U32_SIZE
          = (s32 ((y : Int) + ny)).toNat * display.width + (s32 ((x : Int) + nx)).toNat :=
      Nat.mod_eq_of_lt (by omega)
    rw [hmod, if_pos (by omega)]
    refine ⟨_, rfl, ⟨hsize, by simp only [List.length_set]; exact hlen, h32⟩, rfl, rfl, ?_⟩
    intro i
    constructor
    · intro hhit
      obtain ⟨_, _, _, _, hi⟩ := hhit
      simp only
      rw [hi, List.getElem?_set_self (by omega)]
    · intro hmiss
      simp only
      rw [List.getElem?_set_ne]
      intro heq
      exact hmiss ⟨hcond.1, hcond.2.1, hcond.2.2.1, hcond.2.2.2, heq.symm⟩
  · rw [if_neg hcond]
    refine ⟨_, rfl, ⟨hsize, hlen, h32⟩, rfl, rfl, ?_⟩
    intro i
    constructor
    · intro hhit
      exact absurd ⟨hhit.1, hhit.2.1, hhit.2.2.1, hhit.2.2.2.1⟩ hcond
    · intro _
      rfl

/-- Whether an index is hit depends on the display only through its width and height. -/
theorem pencil_hits_congr (display drawn : Display) (x y : Nat) (ny nx : Int) (i : Nat)
    (hw : drawn.width = display.width) (hh : drawn.height = display.height) :
    pencil_hits drawn x y ny nx i ↔ pencil_hits display x y ny nx i := by
  unfold pencil_hits
  rw [hw, hh]

/-- The inner loop on a well-formed display: it returns, keeps the shape, stores the color at
every index hit by one of its offsets and leaves every other pixel. -/
theorem draw_row_spec (x y : Nat) (p : Pencil) (ny : Int) :
    ∀ (nxs : List Int) (display : Display), display_ok display →
      ∃ drawn, draw_row x y p ny display nxs = .ok drawn ∧ display_ok drawn ∧
        drawn.width = display.width ∧ drawn.height = display.height ∧
        ∀ i, ((∃ nx ∈ nxs, pencil_hits display x y ny nx i) → drawn.data[i]? = some p.color) ∧
          ((¬ ∃ nx ∈ nxs, pencil_hits display x y ny nx i) →
            drawn.data[i]? = display.data[i]?) := by
  intro nxs
  induction nxs with
  | nil =>
    intro display hok
    exact ⟨display, rfl, hok, rfl, rfl, fun i => ⟨fun ⟨_, h, _⟩ => by simp at h, fun _ => rfl⟩⟩
  | cons nx rest ih =>
    intro display hok
    obtain ⟨first, hfirst, hfok, hfw, hfh, hfdata⟩ := draw_pixel_spec display x y p ny nx hok
    obtain ⟨drawn, hdrawn, hdok, hdw, hdh, hddata⟩ := ih first hfok
    refine ⟨drawn, by rw [draw_row, hfirst]; exact hdrawn, hdok, by rw [hdw, hfw],
      by rw [hdh, hfh], ?_⟩
    intro i
    have hcongr : ∀ n, pencil_hits first x y ny n i ↔ pencil_hits display x y ny n i :=
      fun n => pencil_hits_congr display first x y ny n i hfw hfh
    by_cases hrest : ∃ n ∈ rest, pencil_hits display x y ny n i
    · have hrest' : ∃ n ∈ rest, pencil_hits first x y ny n i := by
        obtain ⟨n, hn, hhit⟩ := hrest
        exact ⟨n, hn, (hcongr n).mpr hhit⟩
      constructor
      · intro _
        exact (hddata i).1 hrest'
      · intro hnone
        obtain ⟨n, hn, hhit⟩ := hrest
        exact absurd ⟨n, List.mem_cons_of_mem _ hn, hhit⟩ hnone
    · have hrest' : ¬ ∃ n ∈ rest, pencil_hits first x y ny n i := by
        intro ⟨n, hn, hhit⟩
        exact hrest ⟨n, hn, (hcongr n).mp hhit⟩
      rw [(hddata i).2 hrest']
      constructor
      · intro ⟨n, hn, hhit⟩
        rcases List.mem_cons.mp hn with hhead | htail
        · rw [hhead] at hhit
          exact (hfdata i).1 hhit
        · exact absurd ⟨n, htail, hhit⟩ hrest
      · intro hnone
        apply (hfdata i).2
        intro hhit
        exact hnone ⟨nx, List.mem_cons_self _ _, hhit⟩

/-- The outer loop on a well-formed display, with `nxs` the offsets of the inner loop: it
returns, keeps the shape, stores the color at every index hit by a pair of offsets and leaves
every other pixel. -/
theorem draw_rows_spec (x y : Nat) (p : Pencil) :
    ∀ (nys : List Int) (display : Display), display_ok display →
      ∃ drawn, draw_rows x y p display nys = .ok drawn ∧ display_ok drawn ∧
        drawn.width = display.width ∧ drawn.height = display.height ∧
        ∀ i,
          ((∃ ny ∈ nys, ∃ nx ∈ pencil_offsets p.scale, pencil_hits display x y ny nx i) →
            drawn.data[i]? = some p.color) ∧
          ((¬ ∃ ny ∈ nys, ∃ nx ∈ pencil_offsets p.scale, pencil_hits display x y ny nx i) →
            drawn.data[i]? = display.data[i]?) := by
  intro nys
  induction nys with
  | nil =>
    intro display hok
    exact ⟨display, rfl, hok, rfl, rfl, fun i => ⟨fun ⟨_, h, _⟩ => by simp at h, fun _ => rfl⟩⟩
  | cons ny rest ih =>
    intro display hok
    obtain ⟨first, hfirst, hfok, hfw, hfh, hfdata⟩ :=
      draw_row_spec x y p ny (pencil_offsets p.scale) display hok
    obtain ⟨drawn, hdrawn, hdok, hdw, hdh, hddata⟩ := ih first hfok
    refine ⟨drawn, by rw [draw_rows, hfirst]; exact hdrawn, hdok, by rw [hdw, hfw],
      by rw [hdh, hfh], ?_⟩
    intro i
    have hcongr : ∀ m n, pencil_hits first x y m n i ↔ pencil_hits display x y m n i :=
      fun m n => pencil_hits_congr display first x y m n i hfw hfh
    by_cases hrest :
        ∃ m ∈ rest, ∃ n ∈ pencil_offsets p.scale, pencil_hits display x y m n i
    · have hrest' :
          ∃ m ∈ rest, ∃ n ∈ pencil_offsets p.scale, pencil_hits first x y m n i := by
        obtain ⟨m, hm, n, hn, hhit⟩ := hrest
        exact ⟨m, hm, n, hn, (hcongr m n).mpr hhit⟩
      constructor
      · intro _
        exact (hddata i).1 hrest'
      · intro hnone
        obtain ⟨m, hm, n, hn, hhit⟩ := hrest
        exact absurd ⟨m, List.mem_cons_of_mem _ hm, n, hn, hhit⟩ hnone
    · have hrest' :
          ¬ ∃ m ∈ rest, ∃ n ∈ pencil_offsets p.scale, pencil_hits first x y m n i := by
        intro ⟨m, hm, n, hn, hhit⟩
        exact hrest ⟨m, hm, n, hn, (hcongr m n).mp hhit⟩
      rw [(hddata i).2 hrest']
      constructor
      · intro ⟨m, hm, n, hn, hhit⟩
        rcases List.mem_cons.mp hm with hhead | htail
        · rw [hhead] at hhit
          exact (hfdata i).1 ⟨n, hn, hhit⟩
        · exact absurd ⟨m, htail, n, hn, hhit⟩ hrest
      · intro hnone
        apply (hfdata i).2
        intro ⟨n, hn, hhit⟩
        exact hnone ⟨ny, List.mem_cons_self _ _, n, hn, hhit⟩

/-- When `-(scale - 1)` is an `s32` value and `scale <= 0` or `c + scale` is at most 2^31, the
offsets of the loop reach the coordinate `q` from `c` exactly when `|q - c| < scale`. -/
theorem offset_reaches_iff (c q : Nat) (scale : Int) (hscale : -2147483647 < scale)
    (hc : scale ≤ 0 ∨ (c : Int) + scale ≤ 2147483648) :
    (∃ n ∈ pencil_offsets scale, s32 ((c : Int) + n) ≥ 0 ∧ (s32 ((c : Int) + n)).toNat = q) ↔
      |(q : Int) - (c : Int)| < scale := by
  rw [abs_lt]
  constructor
  · rintro ⟨n, hn, hpos, hq⟩
    rw [mem_pencil_offsets] at hn
    unfold s32 at hn hpos hq
    omega
  · intro ⟨h1, h2⟩
    refine ⟨(q : Int) - (c : Int), ?_, ?_, ?_⟩
    · rw [mem_pencil_offsets]
      unfold s32
      omega
    · unfold s32
      omega
    · unfold s32
      omega

set_option maxRecDepth 100000 in
/-- C28, counterexample: on a display of 2 by 2 black pixels, `draw_point` at
`x = 4294967295`, `y = 0` with scale 2 sets the pixels (0, 0) and (0, 1), because
`x + 1` wraps to 0; the column 0 is not within distance 2 of `x`. -/
theorem draw_point_wraps_to_column_0 :
    (draw_point display_2x2 4294967295 0 { color := 7, scale := 2 }).toOption.map Display.data
        = some [7, 0, 7, 0] ∧
      display_2x2.data = [0, 0, 0, 0] ∧
      ¬ ((4294967295 : Int) - 0 < 2) := by
  decide

/-- C28, amended: on a display of width w and height h, for every `u32` x, y and every pencil
scale, `draw_point` stores only at indexes below w * h (it returns and the buffer keeps its
w * h pixels); and when `-(scale - 1)` is an `s32` value and either `scale <= 0` or
`x + scale` and `y + scale` are at most 2^31, it sets to the pencil color exactly the pixels
(px, py) with px < w, py < h, |px - x| < scale and |py - y| < scale and leaves every other
pixel unchanged. -/
theorem draw_point_paints_square (display : Display) (x y : Nat) (p : Pencil)
    (hok : display_ok display) :
    ∃ drawn, draw_point display x y p = .ok drawn ∧
      drawn.width = display.width ∧ drawn.height = display.height ∧
      drawn.data.length = display.width * display.height ∧
      (-2147483647 < p.scale →
        (p.scale ≤ 0 ∨
          ((x : Int) + p.scale ≤ 2147483648 ∧ (y : Int) + p.scale ≤ 2147483648)) →
        ∀ px py, px < display.width → py < display.height →
          ((|(px : Int) - (x : Int)| < p.scale ∧ |(py : Int) - (y : Int)| < p.scale) →
            drawn.data[py * display.width + px]? = some p.color) ∧
          (¬ (|(px : Int) - (x : Int)| < p.scale ∧ |(py : Int) - (y : Int)| < p.scale) →
            drawn.data[py * display.width + px]?
              = display.data[py * display.width + px]?)) := by
  obtain ⟨drawn, hdrawn, hdok, hdw, hdh, hddata⟩ :=
    draw_rows_spec x y p (pencil_offsets p.scale) display hok
  refine ⟨drawn, hdrawn, hdw, hdh, ?_, ?_⟩
  · rw [hdok.2.1, hdok.1, hdw, hdh]
  · intro hscale hrange px py hpx hpy
    have hxr : p.scale ≤ 0 ∨ (x : Int) + p.scale ≤ 2147483648 := by
      rcases hrange with h | h
      · exact Or.inl h
      · exact Or.inr h.1
    have hyr : p.scale ≤ 0 ∨ (y : Int) + p.scale ≤ 2147483648 := by
      rcases hrange with h | h
      · exact Or.inl h
      · exact Or.inr h.2
    have hiff :
        (∃ ny ∈ pencil_offsets p.scale, ∃ nx ∈ pencil_offsets p.scale,
            pencil_hits display x y ny nx (py * display.width + px)) ↔
          (|(px : Int) - (x : Int)| < p.scale ∧ |(py : Int) - (y : Int)| < p.scale) := by
      rw [← offset_reaches_iff x px p.scale hscale hxr,
        ← offset_reaches_iff y py p.scale hscale hyr]
      constructor
      · rintro ⟨ny, hny, nx, hnx, hx0, hxw, hy0, hyh, hidx⟩
        obtain ⟨h1, h2⟩ := pixel_index_inj display.width _ _ _ _ hpx hxw hidx
        exact ⟨⟨nx, hnx, hx0, h1.symm⟩, ⟨ny, hny, hy0, h2.symm⟩⟩
      · rintro ⟨⟨nx, hnx, hx0, hxq⟩, ⟨ny, hny, hy0, hyq⟩⟩
        exact ⟨ny, hny, nx, hnx, hx0, by rw [hxq]; exact hpx, hy0, by rw [hyq]; exact hpy,
          by rw [hxq, hyq]⟩
    constructor
    · intro hin
      exact (hddata _).1 (hiff.mpr hin)
    · intro hout
      exact (hddata _).2 (fun h => hout (hiff.mp h))

/-- Witness of the amended C28: a pencil of scale 1 at (1, 1) on the display of 2 by 2 pixels
sets pixel (1, 1) and leaves pixel (0, 0). -/
theorem draw_point_paints_square_witness :
    ∃ drawn, draw_point display_2x2 1 1 { color := 7, scale := 1 } = .ok drawn ∧
      drawn.data[1 * display_2x2.width + 1]? = some 7 ∧
      drawn.data[0 * display_2x2.width + 0]? = display_2x2.data[0 * display_2x2.width + 0]? :=
  match draw_point_paints_square display_2x2 1 1 { color := 7, scale := 1 }
      ⟨rfl, rfl, by decide⟩ with
  | ⟨drawn, hdrawn, _, _, _, hpixels⟩ =>
    ⟨drawn, hdrawn,
      (hpixels (by decide) (Or.inr ⟨by decide, by decide⟩) 1 1 (by decide) (by decide)).1
        ⟨by norm_num, by norm_num⟩,
      (hpixels (by decide) (Or.inr ⟨by decide, by decide⟩) 0 0 (by decide) (by decide)).2
        (by norm_num)⟩

/-- The display after the pencil of scale 1 at (1, 1), and after a pencil of scale 0, which
stores nothing. -/
theorem draw_point_examples :
    (draw_point display_2x2 1 1 { color := 7, scale := 1 }).toOption.map Display.data
        = some [0, 0, 0, 7] ∧
      (draw_point display_2x2 1 1 { color := 7, scale := 0 }).toOption.map Display.data
        = some [0, 0, 0, 0] ∧
      (draw_point display_2x2 0 0 { color := 7, scale := 2 }).toOption.map Display.data
        = some [7, 7, 7, 7] := by
  decide

/-! ## Claims on `push_mesh_data` -/

theorem bytes_of_vertexes_length (vertexes : List Vertex) :
    (bytes_of_vertexes vertexes).length = vertexes.length * SIZEOF_VERTEX := by
  induction vertexes with
  | nil => rfl
  | cons vertex rest ih =>
    simp only [bytes_of_vertexes, bytes_of_vertex, bytes_of_u32, List.length_append,
      List.length_cons, List.length_nil, ih, SIZEOF_VERTEX]
    omega

theorem bytes_of_indexes_length (indexes : List Nat) :
    (bytes_of_indexes indexes).length = indexes.length * SIZEOF_INDEX := by
  induction indexes with
  | nil => rfl
  | cons index rest ih =>
    simp only [bytes_of_indexes, bytes_of_u32, List.length_append, List.length_cons,
      List.length_nil, ih, SIZEOF_INDEX]
    omega

/-- A successful `vkQueueSubmit` lets `submit_temp_cmd_buf` return. -/
theorem submit_temp_cmd_buf_ok (device : Device) (cmd_buf queue : Nat) :
    submit_temp_cmd_buf device cmd_buf queue VK_SUCCESS =
      .ok
        { device with
          calls :=
            device.calls ++
              [.vkEndCommandBuffer cmd_buf, .vkQueueSubmit queue [cmd_buf] VK_NULL_HANDLE,
               .vkQueueWaitIdle queue] } := by
  unfold submit_temp_cmd_buf
  rw [validate_success]

/-- One upload on device-local shared arrays with room for the mesh, over a host-visible
staging array with room for its bytes: `push_mesh_data` returns, the mesh gets the counts of
the arrays before the upload as its offsets, the counts grow by the counts of the mesh, and
the conditions of the next upload are kept. -/
theorem push_mesh_data_ok (fuel : Nat) (gfx : Graphics) (queue_graphics : Nat)
    (mesh_data : MeshData) (mesh : Mesh)
    (hvt : mesh_data.vertexes.mem.type = MemoryType.DEVICE)
    (hit : mesh_data.indexes.mem.type = MemoryType.DEVICE)
    (hv : array_ok gfx.device SIZEOF_VERTEX mesh_data.vertexes)
    (hi : array_ok gfx.device SIZEOF_INDEX mesh_data.indexes)
    (hsty : gfx.gfx_mem.staging.mem.type = MemoryType.HOST)
    (hs : array_ok gfx.device 1 gfx.gfx_mem.staging)
    (hroom : mesh.vertexes.count * SIZEOF_VERTEX + mesh.indexes.count * SIZEOF_INDEX
      ≤ gfx.gfx_mem.staging.size)
    (hvfit : mesh_data.vertexes.count + mesh.vertexes.count ≤ mesh_data.vertexes.size)
    (hifit : mesh_data.indexes.count + mesh.indexes.count ≤ mesh_data.indexes.size)
    (hv32 : mesh_data.vertexes.size < U32_SIZE) (hi32 : mesh_data.indexes.size < U32_SIZE) :
    ∃ gfx' : Graphics,
      push_mesh_data (fuel + 2) gfx queue_graphics mesh_data mesh VK_SUCCESS =
          .ok ({ mesh with
                 vertex_offset := mesh_data.vertexes.count
                 index_offset := mesh_data.indexes.count },
               { vertexes :=
                   { mesh_data.vertexes with
                     count := mesh_data.vertexes.count + mesh.vertexes.count }
                 indexes :=
                   { mesh_data.indexes with
                     count := mesh_data.indexes.count + mesh.indexes.count } },
               gfx') ∧
        (∀ m, (gfx'.device.memory m).length = (gfx.device.memory m).length) ∧
        gfx'.gfx_mem.staging.mem = gfx.gfx_mem.staging.mem ∧
        gfx'.gfx_mem.staging.size = gfx.gfx_mem.staging.size ∧
        gfx'.gfx_mem.staging.count ≤ gfx.gfx_mem.staging.size := by
  -- the state in which the first push starts
  have hs0 : array_ok gfx.device 1 (clear gfx.gfx_mem.staging) :=
    array_ok_of_length_eq gfx.device gfx.device 1 gfx.gfx_mem.staging _ (fun _ => rfl) rfl rfl
      (Nat.zero_le _) hs
  obtain ⟨gfx1, hpush1, hlen1, hmem1, hsize1, hcount1⟩ :=
    push_ok fuel
      { device := begin_temp_cmd_buf gfx.device gfx.temp_cmd_buf
        temp_cmd_buf := gfx.temp_cmd_buf
        gfx_mem := { gfx.gfx_mem with staging := clear gfx.gfx_mem.staging } }
      mesh_data.vertexes SIZEOF_VERTEX (bytes_of_vertexes mesh.vertexes.data)
      mesh.vertexes.count hv
      (fun _ => ⟨hsty, hs0, by
        show 0 + mesh.vertexes.count * SIZEOF_VERTEX ≤ gfx.gfx_mem.staging.size
        omega⟩)
      (bytes_of_vertexes_length _) hvfit
  have hcount1' := hcount1 hvt
  simp only [clear] at hmem1 hsize1 hcount1'
  have hlen1' : ∀ m, (gfx1.device.memory m).length = (gfx.device.memory m).length := hlen1
  have hs1 : array_ok gfx1.device 1 gfx1.gfx_mem.staging :=
    array_ok_of_length_eq gfx.device gfx1.device 1 gfx.gfx_mem.staging _ hlen1' hmem1 hsize1
      (by rw [hcount1']; omega) hs
  have hi1 : array_ok gfx1.device SIZEOF_INDEX mesh_data.indexes :=
    array_ok_of_length_eq gfx.device gfx1.device SIZEOF_INDEX mesh_data.indexes _ hlen1' rfl rfl
      hi.2.1 hi
  obtain ⟨gfx2, hpush2, hlen2, hmem2, hsize2, hcount2⟩ :=
    push_ok fuel gfx1 mesh_data.indexes SIZEOF_INDEX (bytes_of_indexes mesh.indexes.data)
      mesh.indexes.count hi1
      (fun _ => ⟨by rw [hmem1]; exact hsty, hs1, by rw [hcount1', hsize1]; omega⟩)
      (bytes_of_indexes_length _) hifit
  have hcount2' := hcount2 hit
  refine ⟨{ gfx2 with
            device :=
              { gfx2.device with
                calls :=
                  gfx2.device.calls ++
                    [.vkEndCommandBuffer gfx2.temp_cmd_buf,
                     .vkQueueSubmit queue_graphics [gfx2.temp_cmd_buf] VK_NULL_HANDLE,
                     .vkQueueWaitIdle queue_graphics] } }, ?_, ?_, ?_, ?_, ?_⟩
  · unfold push_mesh_data
    simp only [hpush1, hpush2, submit_temp_cmd_buf_ok]
    have h1 : mesh_data.vertexes.count % U32_SIZE = mesh_data.vertexes.count :=
      Nat.mod_eq_of_lt (by have := hv.2.1; omega)
    have h2 : mesh_data.indexes.count % U32_SIZE = mesh_data.indexes.count :=
      Nat.mod_eq_of_lt (by have := hi.2.1; omega)
    rw [h1, h2]
  · intro m
    show (gfx2.device.memory m).length = _
    rw [hlen2, hlen1']
  · show gfx2.gfx_mem.staging.mem = _
    rw [hmem2, hmem1]
  · show gfx2.gfx_mem.staging.size = _
    rw [hsize2, hsize1]
  · show gfx2.gfx_mem.staging.count ≤ _
    rw [hcount2', hcount1']
    omega

/-- Every mesh that `place_meshes` places starts at or after the given offsets. -/
theorem place_meshes_ge :
    ∀ (meshes : List Mesh) (vertex_offset index_offset k : Nat) (a : Mesh),
      (place_meshes vertex_offset index_offset meshes)[k]? = some a →
        vertex_offset ≤ a.vertex_offset ∧ index_offset ≤ a.index_offset := by
  intro meshes
  induction meshes with
  | nil => intro _ _ k a h; simp [place_meshes] at h
  | cons mesh rest ih =>
    intro vertex_offset index_offset k a h
    cases k with
    | zero =>
      simp only [place_meshes, List.getElem?_cons_zero, Option.some.injEq] at h
      rw [← h]
      exact ⟨Nat.le_refl _, Nat.le_refl _⟩
    | succ k =>
      simp only [place_meshes, List.getElem?_cons_succ] at h
      have := ih _ _ k a h
      omega

/-- In the list `place_meshes` builds, a later mesh starts at or after the end of an earlier
one. -/
theorem place_meshes_disjoint :
    ∀ (meshes : List Mesh) (vertex_offset index_offset j k : Nat) (a b : Mesh), j < k →
      (place_meshes vertex_offset index_offset meshes)[j]? = some a →
      (place_meshes vertex_offset index_offset meshes)[k]? = some b →
        a.vertex_offset + a.vertexes.count ≤ b.vertex_offset ∧
          a.index_offset + a.indexes.count ≤ b.index_offset := by
  intro meshes
  induction meshes with
  | nil => intro _ _ j k a b _ h; simp [place_meshes] at h
  | cons mesh rest ih =>
    intro vertex_offset index_offset j k a b hjk ha hb
    cases k with
    | zero => omega
    | succ k =>
      simp only [place_meshes, List.getElem?_cons_succ] at hb
      cases j with
      | zero =>
        simp only [place_meshes, List.getElem?_cons_zero, Option.some.injEq] at ha
        have := place_meshes_ge rest _ _ k b hb
        rw [← ha]
        exact this
      | succ j =>
        simp only [place_meshes, List.getElem?_cons_succ] at ha
        exact ih _ _ j k a b (by omega) ha hb

/-- In the list `place_meshes` builds, each mesh starts where the one before it ends. -/
theorem place_meshes_adjacent :
    ∀ (meshes : List Mesh) (vertex_offset index_offset k : Nat) (a b : Mesh),
      (place_meshes vertex_offset index_offset meshes)[k]? = some a →
      (place_meshes vertex_offset index_offset meshes)[k + 1]? = some b →
        b.vertex_offset = a.vertex_offset + a.vertexes.count ∧
          b.index_offset = a.index_offset + a.indexes.count := by
  intro meshes
  induction meshes with
  | nil => intro _ _ k a b h; simp [place_meshes] at h
  | cons mesh rest ih =>
    intro vertex_offset index_offset k a b ha hb
    simp only [place_meshes, List.getElem?_cons_succ] at hb
    cases k with
    | zero =>
      simp only [place_meshes, List.getElem?_cons_zero, Option.some.injEq] at ha
      cases rest with
      | nil => simp [place_meshes] at hb
      | cons next rest' =>
        simp only [place_meshes, List.getElem?_cons_zero, Option.some.injEq] at hb
        rw [← ha, ← hb]
        exact ⟨rfl, rfl⟩
    | succ k =>
      simp only [place_meshes, List.getElem?_cons_succ] at ha
      exact ih _ _ k a b ha hb

/-- The list `place_meshes` builds holds the meshes given, in order, with new offsets only. -/
theorem place_meshes_arrays :
    ∀ (meshes : List Mesh) (vertex_offset index_offset : Nat),
      (place_meshes vertex_offset index_offset meshes).map (fun a => (a.vertexes, a.indexes))
        = meshes.map (fun m => (m.vertexes, m.indexes)) := by
  intro meshes
  induction meshes with
  | nil => intro _ _; rfl
  | cons mesh rest ih =>
    intro vertex_offset index_offset
    simp only [place_meshes, List.map_cons, ih]

/-- Uploads one after another, each with room in the shared arrays and in the staging array
and with a successful submission, all return; the meshes get the offsets of `place_meshes`
and the counts of the arrays grow by the totals. -/
theorem push_mesh_datas_ok (fuel : Nat) (queue_graphics : Nat) :
    ∀ (meshes : List Mesh) (gfx : Graphics) (mesh_data : MeshData),
      mesh_data.vertexes.mem.type = MemoryType.DEVICE →
      mesh_data.indexes.mem.type = MemoryType.DEVICE →
      array_ok gfx.device SIZEOF_VERTEX mesh_data.vertexes →
      array_ok gfx.device SIZEOF_INDEX mesh_data.indexes →
      gfx.gfx_mem.staging.mem.type = MemoryType.HOST →
      array_ok gfx.device 1 gfx.gfx_mem.staging →
      (∀ mesh ∈ meshes,
        mesh.vertexes.count * SIZEOF_VERTEX + mesh.indexes.count * SIZEOF_INDEX
          ≤ gfx.gfx_mem.staging.size) →
      mesh_data.vertexes.count + (meshes.map fun m => m.vertexes.count).sum
        ≤ mesh_data.vertexes.size →
      mesh_data.indexes.count + (meshes.map fun m => m.indexes.count).sum
        ≤ mesh_data.indexes.size →
      mesh_data.vertexes.size < U32_SIZE → mesh_data.indexes.size < U32_SIZE →
      ∃ gfx' : Graphics,
        push_mesh_datas (fuel + 2) queue_graphics gfx mesh_data
            (meshes.map fun m => (m, VK_SUCCESS)) =
          .ok (place_meshes mesh_data.vertexes.count mesh_data.indexes.count meshes,
               { vertexes :=
                   { mesh_data.vertexes with
                     count :=
                       mesh_data.vertexes.count + (meshes.map fun m => m.vertexes.count).sum }
                 indexes :=
                   { mesh_data.indexes with
                     count :=
                       mesh_data.indexes.count + (meshes.map fun m => m.indexes.count).sum } },
               gfx') := by
  intro meshes
  induction meshes with
  | nil =>
    intro gfx mesh_data _ _ _ _ _ _ _ _ _ _ _
    exact ⟨gfx, rfl⟩
  | cons mesh rest ih =>
    intro gfx mesh_data hvt hit hv hi hsty hs hroom hvfit hifit hv32 hi32
    simp only [List.map_cons, List.sum_cons] at hvfit hifit
    obtain ⟨gfx1, hfirst, hlen, hsmem, hssize, hscount⟩ :=
      push_mesh_data_ok fuel gfx queue_graphics mesh_data mesh hvt hit hv hi hsty hs
        (hroom mesh (List.mem_cons_self _ _)) (by omega) (by omega) hv32 hi32
    obtain ⟨gfx2, hrest⟩ :=
      ih gfx1
        { vertexes :=
            { mesh_data.vertexes with count := mesh_data.vertexes.count + mesh.vertexes.count }
          indexes :=
            { mesh_data.indexes with count := mesh_data.indexes.count + mesh.indexes.count } }
        hvt hit
        (array_ok_of_length_eq gfx.device gfx1.device SIZEOF_VERTEX mesh_data.vertexes _ hlen
          rfl rfl (by simp only; omega) hv)
        (array_ok_of_length_eq gfx.device gfx1.device SIZEOF_INDEX mesh_data.indexes _ hlen
          rfl rfl (by simp only; omega) hi)
        (by rw [hsmem]; exact hsty)
        (array_ok_of_length_eq gfx.device gfx1.device 1 gfx.gfx_mem.staging _ hlen hsmem hssize
          hscount hs)
        (fun m hm => by rw [hssize]; exact hroom m (List.mem_cons_of_mem _ hm))
        (by simp only; omega) (by simp only; omega) hv32 hi32
    refine ⟨gfx2, ?_⟩
    simp only [List.map_cons, push_mesh_datas, hfirst, hrest, place_meshes, List.sum_cons,
      Nat.add_assoc]

/-- C24: for meshes uploaded one after another into the shared device-local vertex and index
arrays (all with room in the arrays and in the staging array, every submission successful),
every `push_mesh_data` returns; the first mesh records the counts of the arrays before the
uploads as its offsets and the counts grow by the counts of the meshes; each later mesh starts
where the one before it ends, so the ranges `[offset, offset + count)` do not overlap; and
`draw_mesh` uses the recorded index offset as first index and the vertex offset as vertex
offset. -/
theorem push_mesh_data_offsets_chain (fuel : Nat) (queue_graphics : Nat) (meshes : List Mesh)
    (gfx : Graphics) (mesh_data : MeshData)
    (hvt : mesh_data.vertexes.mem.type = MemoryType.DEVICE)
    (hit : mesh_data.indexes.mem.type = MemoryType.DEVICE)
    (hv : array_ok gfx.device SIZEOF_VERTEX mesh_data.vertexes)
    (hi : array_ok gfx.device SIZEOF_INDEX mesh_data.indexes)
    (hsty : gfx.gfx_mem.staging.mem.type = MemoryType.HOST)
    (hs : array_ok gfx.device 1 gfx.gfx_mem.staging)
    (hroom : ∀ mesh ∈ meshes,
      mesh.vertexes.count * SIZEOF_VERTEX + mesh.indexes.count * SIZEOF_INDEX
        ≤ gfx.gfx_mem.staging.size)
    (hvfit : mesh_data.vertexes.count + (meshes.map fun m => m.vertexes.count).sum
      ≤ mesh_data.vertexes.size)
    (hifit : mesh_data.indexes.count + (meshes.map fun m => m.indexes.count).sum
      ≤ mesh_data.indexes.size)
    (hv32 : mesh_data.vertexes.size < U32_SIZE) (hi32 : mesh_data.indexes.size < U32_SIZE) :
    ∃ (placed : List Mesh) (mesh_data' : MeshData) (gfx' : Graphics),
      push_mesh_datas (fuel + 2) queue_graphics gfx mesh_data
          (meshes.map fun m => (m, VK_SUCCESS)) = .ok (placed, mesh_data', gfx') ∧
        mesh_data'.vertexes.count
          = mesh_data.vertexes.count + (meshes.map fun m => m.vertexes.count).sum ∧
        mesh_data'.indexes.count
          = mesh_data.indexes.count + (meshes.map fun m => m.indexes.count).sum ∧
        placed.map (fun a => (a.vertexes, a.indexes))
          = meshes.map (fun m => (m.vertexes, m.indexes)) ∧
        (∀ a : Mesh, placed[0]? = some a →
          a.vertex_offset = mesh_data.vertexes.count ∧
            a.index_offset = mesh_data.indexes.count) ∧
        (∀ (k : Nat) (a b : Mesh), placed[k]? = some a → placed[k + 1]? = some b →
          b.vertex_offset = a.vertex_offset + a.vertexes.count ∧
            b.index_offset = a.index_offset + a.indexes.count) ∧
        (∀ (j k : Nat) (a b : Mesh), j < k → placed[j]? = some a → placed[k]? = some b →
          a.vertex_offset + a.vertexes.count ≤ b.vertex_offset ∧
            a.index_offset + a.indexes.count ≤ b.index_offset) ∧
        (∀ a ∈ placed, ∀ cmd_buf,
          draw_mesh cmd_buf a =
            [FrameCall.vkCmdDrawIndexed cmd_buf a.indexes.count 1 a.index_offset
              a.vertex_offset 0]) := by
  obtain ⟨gfx', hrun⟩ := push_mesh_datas_ok fuel queue_graphics meshes gfx mesh_data hvt hit hv hi
    hsty hs hroom hvfit hifit hv32 hi32
  refine ⟨_, _, gfx', hrun, rfl, rfl, place_meshes_arrays meshes _ _, ?_,
    place_meshes_adjacent meshes _ _, place_meshes_disjoint meshes _ _,
    fun _ _ _ => rfl⟩
  intro a ha
  cases meshes with
  | nil => simp [place_meshes] at ha
  | cons mesh rest =>
    simp only [place_meshes, List.getElem?_cons_zero, Option.some.injEq] at ha
    rw [← ha]
    exact ⟨rfl, rfl⟩

/-- The conditions of an upload hold for the concrete state `gfx_256` and the arrays
`mesh_data_8_16`. -/
theorem mesh_data_8_16_ok :
    array_ok gfx_256.device SIZEOF_VERTEX mesh_data_8_16.vertexes ∧
      array_ok gfx_256.device SIZEOF_INDEX mesh_data_8_16.indexes ∧
      array_ok gfx_256.device 1 gfx_256.gfx_mem.staging := by
  unfold array_ok region_in_memory
  simp only [gfx_256, device_256, mesh_data_8_16, List.length_replicate, SIZEOF_VERTEX,
    SIZEOF_INDEX, U64_SIZE, device_buffer_256, host_buffer_256]
  decide

/-- Witness of C24: the meshes `tri` and `quad` uploaded into the empty arrays
`mesh_data_8_16`. -/
theorem push_mesh_data_offsets_chain_witness :
    ∃ (placed : List Mesh) (mesh_data' : MeshData) (gfx' : Graphics),
      push_mesh_datas 2 70 gfx_256 mesh_data_8_16
          [(mesh_tri, VK_SUCCESS), (mesh_quad, VK_SUCCESS)] = .ok (placed, mesh_data', gfx') ∧
        mesh_data'.vertexes.count = 0 + (3 + (4 + 0)) ∧
        mesh_data'.indexes.count = 0 + (3 + (6 + 0)) :=
  match push_mesh_data_offsets_chain 0 70 [mesh_tri, mesh_quad] gfx_256 mesh_data_8_16 rfl rfl
      mesh_data_8_16_ok.1 mesh_data_8_16_ok.2.1 rfl mesh_data_8_16_ok.2.2 (by decide)
      (by decide) (by decide) (by decide) (by decide) with
  | ⟨placed, mesh_data', gfx', hrun, hvertexes, hindexes, _⟩ =>
    ⟨placed, mesh_data', gfx', hrun, hvertexes, hindexes⟩

set_option maxRecDepth 100000 in
/-- The offsets the uploads of `tri` and `quad` record, and the counts they leave: `tri` at
(0, 0), `quad` at (3, 3), seven vertexes and nine indexes in all. -/
theorem push_mesh_datas_example :
    (push_mesh_datas 2 70 gfx_256 mesh_data_8_16
          [(mesh_tri, VK_SUCCESS), (mesh_quad, VK_SUCCESS)]).toOption.map
        (fun result =>
          (result.1.map (fun a => (a.vertex_offset, a.index_offset)),
           result.2.1.vertexes.count, result.2.1.indexes.count))
      = some ([(0, 0), (3, 3)], 7, 9) := by
  decide

/-! ## Claims on the selection of the physical device -/

/-- The depth format loop returns once one of the formats left has the feature. -/
theorem find_depth_image_format_loop_ok (optimal_tiling_features : Nat → Nat) :
    ∀ formats : List Nat,
      (∃ depth_img_fmt ∈ formats,
        optimal_tiling_features depth_img_fmt &&& VK_FORMAT_FEATURE_DEPTH_STENCIL_ATTACHMENT_BIT
          = VK_FORMAT_FEATURE_DEPTH_STENCIL_ATTACHMENT_BIT) →
      ∃ format, find_depth_image_format_loop optimal_tiling_features formats = .ok format := by
  intro formats
  induction formats with
  | nil => intro ⟨_, h, _⟩; simp at h
  | cons depth_img_fmt rest ih =>
    intro ⟨fmt, hmem, hfeat⟩
    rw [find_depth_image_format_loop]
    split
    · exact ⟨_, rfl⟩
    · rename_i hnot
      apply ih
      rcases List.mem_cons.mp hmem with h | h
      · rw [h] at hfeat
        exact absurd hfeat hnot
      · exact ⟨fmt, h, hfeat⟩

/-- The queue family loop leaves an index at `U32_MAX` exactly when it started there and no
family that is left qualifies, as long as the indexes it assigns stay below `U32_MAX`. -/
theorem find_queue_family_idxs_loop_found :
    ∀ (families : List QueueFamilyReport) (idxs : QueueFamilyIndexes) (idx : Nat),
      idx + families.length ≤ U32_MAX →
      ((find_queue_family_idxs_loop idxs idx families).graphics ≠ U32_MAX ↔
          (idxs.graphics ≠ U32_MAX ∨
            families.any (fun family => family.queueFlags &&& VK_QUEUE_GRAPHICS_BIT ≠ 0)
              = true)) ∧
        ((find_queue_family_idxs_loop idxs idx families).present ≠ U32_MAX ↔
          (idxs.present ≠ U32_MAX ∨
            families.any (fun family => family.present_supported = VK_TRUE) = true)) := by
  intro families
  induction families with
  | nil =>
    intro idxs idx _
    simp [find_queue_family_idxs_loop]
  | cons family rest ih =>
    intro idxs idx hidx
    simp only [List.length_cons] at hidx
    rw [find_queue_family_idxs_loop]
    have hrest := ih
      (if family.present_supported = VK_TRUE then
        { (if family.queueFlags &&& VK_QUEUE_GRAPHICS_BIT ≠ 0 then
            { idxs with graphics := idx }
          else idxs) with present := idx }
      else
        (if family.queueFlags &&& VK_QUEUE_GRAPHICS_BIT ≠ 0 then
          { idxs with graphics := idx }
        else idxs))
      (idx + 1) (by omega)
    have hlt : idx ≠ U32_MAX := by omega
    simp only at hrest ⊢
    rw [hrest.1, hrest.2]
    simp only [List.any_cons, Bool.or_eq_true, decide_eq_true_eq]
    constructor
    · by_cases hg : family.queueFlags &&& VK_QUEUE_GRAPHICS_BIT ≠ 0
      · by_cases hp : family.present_supported = VK_TRUE
        · simp [hg, hp, hlt]
        · simp [hg, hp, hlt]
      · by_cases hp : family.present_supported = VK_TRUE
        · simp [hg, hp]
        · simp [hg, hp]
    · by_cases hg : family.queueFlags &&& VK_QUEUE_GRAPHICS_BIT ≠ 0
      · by_cases hp : family.present_supported = VK_TRUE
        · simp [hg, hp, hlt]
        · simp [hg, hp]
      · by_cases hp : family.present_supported = VK_TRUE
        · simp [hg, hp, hlt]
        · simp [hg, hp]

/-- A device whose queries return is loaded, with the type, features and handle it reports
and with each queue family index found exactly when a family qualifies. -/
theorem load_physical_device_ok (report : PhysicalDeviceReport) (hloads : report_loads report) :
    ∃ physical_device, load_physical_device report = .ok physical_device ∧
      physical_device.handle = report.handle ∧
      physical_device.type = report.deviceType ∧
      physical_device.features = report.features ∧
      (physical_device.queue_family_idxs.graphics ≠ U32_MAX ↔
        report.queue_families.any
          (fun family => family.queueFlags &&& VK_QUEUE_GRAPHICS_BIT ≠ 0) = true) ∧
      (physical_device.queue_family_idxs.present ≠ U32_MAX ↔
        report.queue_families.any (fun family => family.present_supported = VK_TRUE)
          = true) := by
  obtain ⟨hne, hlen, hdepth⟩ := hloads
  obtain ⟨format, hformat⟩ :=
    find_depth_image_format_loop_ok report.optimal_tiling_features DEPTH_IMAGE_FORMATS hdepth
  have hpos : report.queue_families.length > 0 := List.length_pos.mpr hne
  have hfound := find_queue_family_idxs_loop_found report.queue_families
    { graphics := U32_MAX, present := U32_MAX } 0
    (by unfold U32_SIZE at hlen; unfold U32_MAX; omega)
  refine ⟨_, by
    unfold load_physical_device find_queue_family_idxs load_vk_objects find_depth_image_format
    rw [if_pos hpos, hformat], rfl, rfl, rfl, ?_, ?_⟩
  · rw [hfound.1]
    simp
  · rw [hfound.2]
    simp

/-- Devices whose queries all return are all loaded, one by one. -/
theorem load_physical_devices_ok :
    ∀ reports : List PhysicalDeviceReport, (∀ report ∈ reports, report_loads report) →
      ∃ physical_devices, load_physical_devices reports = .ok physical_devices ∧
        List.Forall₂ (fun report physical_device =>
          report_loads report ∧ load_physical_device report = .ok physical_device)
          reports physical_devices := by
  intro reports
  induction reports with
  | nil => intro _; exact ⟨[], rfl, List.Forall₂.nil⟩
  | cons report rest ih =>
    intro hall
    obtain ⟨physical_device, hload, _⟩ :=
      load_physical_device_ok report (hall report (List.mem_cons_self _ _))
    obtain ⟨physical_devices, hrest, hrel⟩ :=
      ih (fun r hr => hall r (List.mem_cons_of_mem _ hr))
    exact ⟨physical_device :: physical_devices, by rw [load_physical_devices, hload, hrest],
      List.Forall₂.cons ⟨hall report (List.mem_cons_self _ _), hload⟩ hrel⟩

/-- The feature loop never overflows an array with room for the features that are left: it
appends the unsupported ones. -/
theorem push_unsupported_features_ok (supported : Nat → List Nat → Bool) (features : List Nat) :
    ∀ (requested : List Nat) (unsupported_features : CtkArray Nat),
      unsupported_features.count + requested.length ≤ unsupported_features.size →
      push_unsupported_features supported features unsupported_features requested =
        .ok { unsupported_features with
              data :=
                unsupported_features.data ++
                  requested.filter (fun feature => !supported feature features) } := by
  intro requested
  induction requested with
  | nil =>
    intro unsupported_features _
    simp [push_unsupported_features]
  | cons feature rest ih =>
    intro unsupported_features hroom
    simp only [List.length_cons] at hroom
    rw [push_unsupported_features]
    by_cases hs : supported feature features = true
    · rw [if_neg (by simp [hs]), ih unsupported_features (by omega)]
      simp [List.filter_cons, hs]
    · have hfull : unsupported_features.count ≠ unsupported_features.size := by omega
      rw [if_pos (by simpa using hs)]
      unfold CtkArray.push
      rw [if_neg hfull]
      simp only
      rw [ih _ (by simp only [CtkArray.count, List.length_append, List.length_singleton] at hroom ⊢; omega)]
      simp [List.filter_cons, hs]

/-- The device loop returns the first device that passes the test, for every array of
unsupported features that has the capacity of the requested features. -/
theorem find_suitable_physical_device_loop_eq (supported : Nat → List Nat → Bool)
    (requested_features : Option (List Nat)) :
    ∀ (physical_devices : List PhysicalDevice) (unsupported_features : CtkArray Nat),
      (∀ requested, requested_features = some requested →
        requested.length ≤ unsupported_features.size) →
      find_suitable_physical_device_loop supported requested_features unsupported_features
          physical_devices
        = .ok (physical_devices.find? (physical_device_passes supported requested_features)) := by
  intro physical_devices
  induction physical_devices with
  | nil => intro _ _; rfl
  | cons physical_device rest ih =>
    intro unsupported_features hsize
    rw [List.find?_cons]
    cases requested_features with
    | none =>
      simp only [find_suitable_physical_device_loop, physical_device_passes, Bool.and_true]
      by_cases hq : physical_device.queue_family_idxs.graphics ≠ U32_MAX ∧
          physical_device.queue_family_idxs.present ≠ U32_MAX
      · simp [hq]
      · simp only [hq, decide_False, Bool.false_eq_true, if_false]
        exact ih unsupported_features hsize
    | some requested =>
      have hroom := hsize requested rfl
      simp only [find_suitable_physical_device_loop]
      rw [push_unsupported_features_ok supported physical_device.features requested
        { unsupported_features with data := [] }
        (by simp only [CtkArray.count, List.length_nil]; omega)]
      simp only [List.nil_append, CtkArray.count]
      by_cases hq : physical_device.queue_family_idxs.graphics ≠ U32_MAX ∧
          physical_device.queue_family_idxs.present ≠ U32_MAX
      · by_cases hall :
            requested.all (fun feature => supported feature physical_device.features) = true
        · have hnone :
              requested.filter (fun feature => !supported feature physical_device.features)
                = [] := by
            rw [List.filter_eq_nil_iff]
            intro feature hmem
            have := List.all_eq_true.mp hall feature hmem
            simp [this]
          have hpass :
              physical_device_passes supported (some requested) physical_device = true := by
            simp [physical_device_passes, hq, hall]
          rw [hpass, hnone]
          simp [hq]
        · have hsome :
              (requested.filter
                (fun feature => !supported feature physical_device.features)).length > 0 := by
            apply List.length_pos.mpr
            intro hnone
            rw [List.filter_eq_nil_iff] at hnone
            apply hall
            rw [List.all_eq_true]
            intro feature hmem
            have := hnone feature hmem
            simpa using this
          have hpass :
              physical_device_passes supported (some requested) physical_device = false := by
            simp only [physical_device_passes, hall, Bool.and_false]
          rw [hpass, if_neg (by simp only [decide_eq_true_eq]; omega)]
          exact ih _ hsize
      · have hpass :
            physical_device_passes supported (some requested) physical_device = false := by
          simp only [physical_device_passes, hq, decide_False, Bool.false_and]
        rw [hpass, if_neg (by simp only [decide_eq_true_eq]; exact fun h => hq h.1)]
        exact ih _ hsize

/-- Function `find_suitable_physical_device` returns the first device that passes. -/
theorem find_suitable_physical_device_eq (supported : Nat → List Nat → Bool)
    (physical_devices : List PhysicalDevice) (requested_features : Option (List Nat)) :
    find_suitable_physical_device supported physical_devices requested_features
      = .ok (physical_devices.find? (physical_device_passes supported requested_features)) := by
  unfold find_suitable_physical_device
  apply find_suitable_physical_device_loop_eq
  intro requested hreq
  rw [hreq]
  exact Nat.le_refl _

/-- The second loop of `create_physical_device` keeps the discrete and the integrated devices,
each list in enumeration order. -/
theorem sort_physical_devices_eq :
    ∀ physical_devices : List PhysicalDevice,
      sort_physical_devices physical_devices =
        (physical_devices.filter
            (fun d => decide (d.type = VK_PHYSICAL_DEVICE_TYPE_DISCRETE_GPU)),
         physical_devices.filter
            (fun d => decide (d.type = VK_PHYSICAL_DEVICE_TYPE_INTEGRATED_GPU))) := by
  intro physical_devices
  induction physical_devices with
  | nil => rfl
  | cons d rest ih =>
    rw [sort_physical_devices, ih]
    have hne : VK_PHYSICAL_DEVICE_TYPE_DISCRETE_GPU ≠ VK_PHYSICAL_DEVICE_TYPE_INTEGRATED_GPU := by
      decide
    by_cases hd : d.type = VK_PHYSICAL_DEVICE_TYPE_DISCRETE_GPU
    · have hi : ¬ d.type = VK_PHYSICAL_DEVICE_TYPE_INTEGRATED_GPU := by
        rw [hd]; exact hne
      rw [if_pos hd, List.filter_cons, List.filter_cons, if_pos (by simpa using hd),
        if_neg (by simpa using hi)]
    · by_cases hi : d.type = VK_PHYSICAL_DEVICE_TYPE_INTEGRATED_GPU
      · rw [if_neg hd, if_pos hi, List.filter_cons, List.filter_cons,
          if_neg (by simpa using hd), if_pos (by simpa using hi)]
      · rw [if_neg hd, if_neg hi, List.filter_cons, List.filter_cons,
          if_neg (by simpa using hd), if_neg (by simpa using hi)]

/-- Searching two lists related element by element, with tests that agree on related
elements, finds related elements or nothing in both. -/
theorem find?_forall₂ {α β : Type} (R : α → β → Prop) (P : α → Bool) (Q : β → Bool)
    (hPQ : ∀ a b, R a b → P a = Q b) :
    ∀ (as : List α) (bs : List β), List.Forall₂ R as bs →
      (∀ a, as.find? P = some a → ∃ b, bs.find? Q = some b ∧ R a b) ∧
        (as.find? P = none → bs.find? Q = none) := by
  intro as bs hrel
  induction hrel with
  | nil => simp
  | @cons a b as' bs' hab _ ih =>
    rw [List.find?_cons, List.find?_cons, ← hPQ a b hab]
    cases hP : P a
    · exact ih
    · simp only [Option.some.injEq, reduceCtorEq, false_implies, and_true]
      intro a' ha'
      rw [← ha']
      exact ⟨b, rfl, hab⟩

/-- On related devices the test of the specification on the report and the test of the code
on the loaded device agree, for each device type. -/
theorem device_suitable_eq_passes (supported : Nat → List Nat → Bool)
    (requested_features : Option (List Nat)) (device_type : Nat)
    (report : PhysicalDeviceReport) (physical_device : PhysicalDevice)
    (hrel : report_loads report ∧ load_physical_device report = .ok physical_device) :
    (decide (report.deviceType = device_type) &&
        device_suitable supported requested_features report)
      = decide (decide (physical_device.type = device_type) = true ∧
          physical_device_passes supported requested_features physical_device = true) := by
  obtain ⟨hloads, hload⟩ := hrel
  obtain ⟨loaded, hloaded, _, htype, hfeatures, hgraphics, hpresent⟩ :=
    load_physical_device_ok report hloads
  rw [hload] at hloaded
  injection hloaded with hloaded
  subst hloaded
  apply Bool.eq_iff_iff.mpr
  unfold device_suitable physical_device_passes
  simp only [Bool.and_eq_true, decide_eq_true_eq, htype, hfeatures, hgraphics, hpresent]

/-- C21, counterexample: the enumeration holds a suitable discrete GPU and, after it, a CPU
device without a depth format; `create_physical_device` ends with the error of
`find_depth_image_format` and selects nothing. -/
theorem create_physical_device_fails_on_other_device :
    ([report_discrete, report_cpu_no_depth].find?
        (fun report => decide (report.deviceType = VK_PHYSICAL_DEVICE_TYPE_DISCRETE_GPU) &&
          device_suitable feature_is_true (some [0]) report)).map
        (fun report => report.handle) = some 401 ∧
      create_physical_device feature_is_true [report_discrete, report_cpu_no_depth] (some [0])
        = .error
            (.fatal ("failed to find physical device depth format that supports the " ++
              "depth-stencil attachment feature")) := by
  constructor
  · decide
  · rfl

/-- C21, amended: over every non-empty list of enumerated devices each of which reports at
least one queue family and supports one of the five depth formats, `create_physical_device`
selects the first discrete GPU in enumeration order that is suitable if there is one,
otherwise the first suitable integrated GPU, otherwise it fails with "failed to find any
suitable device"; a device is suitable exactly when a graphics and a present queue family were
found and every requested feature is supported, and no device of another type is selected. -/
theorem create_physical_device_prefers_discrete (supported : Nat → List Nat → Bool)
    (reports : List PhysicalDeviceReport) (requested_features : Option (List Nat))
    (hreports : reports ≠ []) (hloads : ∀ report ∈ reports, report_loads report) :
    (∀ report,
        reports.find?
            (fun r => decide (r.deviceType = VK_PHYSICAL_DEVICE_TYPE_DISCRETE_GPU) &&
              device_suitable supported requested_features r) = some report →
        ∃ physical_device, load_physical_device report = .ok physical_device ∧
          create_physical_device supported reports requested_features = .ok physical_device) ∧
      (reports.find?
            (fun r => decide (r.deviceType = VK_PHYSICAL_DEVICE_TYPE_DISCRETE_GPU) &&
              device_suitable supported requested_features r) = none →
        ∀ report,
          reports.find?
              (fun r => decide (r.deviceType = VK_PHYSICAL_DEVICE_TYPE_INTEGRATED_GPU) &&
                device_suitable supported requested_features r) = some report →
          ∃ physical_device, load_physical_device report = .ok physical_device ∧
            create_physical_device supported reports requested_features
              = .ok physical_device) ∧
      (reports.find?
            (fun r => decide (r.deviceType = VK_PHYSICAL_DEVICE_TYPE_DISCRETE_GPU) &&
              device_suitable supported requested_features r) = none →
        reports.find?
            (fun r => decide (r.deviceType = VK_PHYSICAL_DEVICE_TYPE_INTEGRATED_GPU) &&
              device_suitable supported requested_features r) = none →
        create_physical_device supported reports requested_features
          = .error (.fatal "failed to find any suitable device")) ∧
      (∀ physical_device,
        create_physical_device supported reports requested_features = .ok physical_device →
        physical_device.type = VK_PHYSICAL_DEVICE_TYPE_DISCRETE_GPU ∨
          physical_device.type = VK_PHYSICAL_DEVICE_TYPE_INTEGRATED_GPU) := by
  obtain ⟨physical_devices, hloaded, hrel⟩ := load_physical_devices_ok reports hloads
  have hpos : reports.length > 0 := List.length_pos.mpr hreports
  have hdiscrete := find?_forall₂ _
    (fun r => decide (r.deviceType = VK_PHYSICAL_DEVICE_TYPE_DISCRETE_GPU) &&
      device_suitable supported requested_features r)
    (fun d => decide (decide (d.type = VK_PHYSICAL_DEVICE_TYPE_DISCRETE_GPU) = true ∧
      physical_device_passes supported requested_features d = true))
    (fun r d h => device_suitable_eq_passes supported requested_features _ r d h)
    reports physical_devices hrel
  have hintegrated := find?_forall₂ _
    (fun r => decide (r.deviceType = VK_PHYSICAL_DEVICE_TYPE_INTEGRATED_GPU) &&
      device_suitable supported requested_features r)
    (fun d => decide (decide (d.type = VK_PHYSICAL_DEVICE_TYPE_INTEGRATED_GPU) = true ∧
      physical_device_passes supported requested_features d = true))
    (fun r d h => device_suitable_eq_passes supported requested_features _ r d h)
    reports physical_devices hrel
  have hcreate : create_physical_device supported reports requested_features =
      match physical_devices.find?
          (fun d => decide (decide (d.type = VK_PHYSICAL_DEVICE_TYPE_DISCRETE_GPU) = true ∧
            physical_device_passes supported requested_features d = true)) with
      | some suitable_device => .ok suitable_device
      | none =>
        match physical_devices.find?
            (fun d => decide (decide (d.type = VK_PHYSICAL_DEVICE_TYPE_INTEGRATED_GPU) = true ∧
              physical_device_passes supported requested_features d = true)) with
        | some suitable_device => .ok suitable_device
        | none => .error (.fatal "failed to find any suitable device") := by
    unfold create_physical_device load_vk_objects
    rw [if_pos hpos]
    simp only [hloaded, find_suitable_physical_device_eq, sort_physical_devices_eq,
      List.find?_filter]
    cases physical_devices.find?
        (fun d => decide (decide (d.type = VK_PHYSICAL_DEVICE_TYPE_DISCRETE_GPU) = true ∧
          physical_device_passes supported requested_features d = true)) with
    | some d => rfl
    | none =>
      simp only
      cases physical_devices.find?
          (fun d => decide (decide (d.type = VK_PHYSICAL_DEVICE_TYPE_INTEGRATED_GPU) = true ∧
            physical_device_passes supported requested_features d = true)) with
      | some d => rfl
      | none => rfl
  refine ⟨?_, ?_, ?_, ?_⟩
  · intro report hfind
    obtain ⟨d, hd, _, hload⟩ := hdiscrete.1 report hfind
    exact ⟨d, hload, by rw [hcreate, hd]⟩
  · intro hnone report hfind
    obtain ⟨d, hd, _, hload⟩ := hintegrated.1 report hfind
    exact ⟨d, hload, by rw [hcreate, hdiscrete.2 hnone, hd]⟩
  · intro hnone1 hnone2
    rw [hcreate, hdiscrete.2 hnone1, hintegrated.2 hnone2]
  · intro physical_device hok
    rw [hcreate] at hok
    cases h1 : physical_devices.find?
        (fun d => decide (decide (d.type = VK_PHYSICAL_DEVICE_TYPE_DISCRETE_GPU) = true ∧
          physical_device_passes supported requested_features d = true)) with
    | some d =>
      rw [h1] at hok
      injection hok with hok
      have := List.find?_some h1
      rw [hok] at this
      simp only [decide_eq_true_eq] at this
      exact Or.inl this.1
    | none =>
      rw [h1] at hok
      cases h2 : physical_devices.find?
          (fun d => decide (decide (d.type = VK_PHYSICAL_DEVICE_TYPE_INTEGRATED_GPU) = true ∧
            physical_device_passes supported requested_features d = true)) with
      | some d =>
        rw [h2] at hok
        injection hok with hok
        have := List.find?_some h2
        rw [hok] at this
        simp only [decide_eq_true_eq] at this
        exact Or.inr this.1
      | none =>
        rw [h2] at hok
        exact Except.noConfusion hok

/-- The queries on the two concrete GPUs return. -/
theorem report_gpus_load :
    ∀ report ∈ [report_integrated, report_discrete], report_loads report := by
  intro report hmem
  simp only [List.mem_cons, List.mem_singleton, List.not_mem_nil, or_false] at hmem
  rcases hmem with h | h
  · rw [h]
    exact ⟨by decide, by decide, 126, by decide, by decide⟩
  · rw [h]
    exact ⟨by decide, by decide, 126, by decide, by decide⟩

/-- Witness of the amended C21: an integrated GPU enumerated before a discrete GPU, both
suitable; the discrete GPU is selected. -/
theorem create_physical_device_prefers_discrete_witness :
    ∃ physical_device, load_physical_device report_discrete = .ok physical_device ∧
      create_physical_device feature_is_true [report_integrated, report_discrete] (some [0])
        = .ok physical_device :=
  (create_physical_device_prefers_discrete feature_is_true [report_integrated, report_discrete]
    (some [0]) (by simp) report_gpus_load).1 report_discrete rfl

/-- The outcomes of `create_physical_device` on concrete enumerations: the discrete GPU when
both GPUs are suitable, the integrated GPU when the discrete one lacks a requested feature,
and the failure when no GPU has the feature. -/
theorem create_physical_device_examples :
    (create_physical_device feature_is_true [report_integrated, report_discrete]
        (some [0])).toOption.map (fun d => d.handle) = some 401 ∧
      (create_physical_device feature_is_true
        [{ report_discrete with features := [0, 0] }, report_integrated]
        (some [0])).toOption.map (fun d => d.handle) = some 402 ∧
      create_physical_device feature_is_true [report_integrated, report_discrete] (some [1])
        = .error (.fatal "failed to find any suitable device") := by
  refine ⟨by decide, by decide, rfl⟩

end NoiseTest
